import Mathlib

/-!
Fleet management system: GPS frame ingestion.

A shallow embedding of the frame pipeline of `backend/services/gpsServer.js`,
of the brand decoders of `backend/utils/gpsParsers.js`, of the rule loop and
the liveness sweep of `backend/utils/alertEngine.js`, of the checks of
`backend/utils/alertEngineEnhanced.js`, of `receiveData` of
`backend/controllers/trackingController.js` and of the error handlers of
`backend/services/eventHandlers.js`.

Modelling conventions.

* A JavaScript string is the list of its characters (`List Char`); its
  `length` counts UTF-16 code units (`jsLength`).
* A JavaScript number is a `JSNum`: `NaN`, the two infinities, or a finite
  value held as an exact rational; `-0` is identified with `0` (both are
  falsy in JavaScript). The decoders read a decimal text as the exact value
  it denotes and compute with it exactly; the checks of
  `alertEngineEnhanced.js` round each result to the nearest double.
* The wall clock is read once per call: every `new Date()` and `Date.now()`
  inside one call returns the same instant `now` (milliseconds).
* Library code outside the repository (`moment`, `JSON.parse`, the `Date`
  constructor on a parsed JSON value) is a parameter, bundled in `Platform`.
* An exception is the `error` side of `Except`; `try`/`catch` is `tryCatch`.
-/

namespace Fleet

/-! ## JavaScript numbers -/

/-- A JavaScript number, finite values exact. -/
inductive JSNum where
  | nan
  | posInf
  | negInf
  | fin (q : ℚ)
  deriving DecidableEq

namespace JSNum

/-- Unary minus. -/
def neg : JSNum → JSNum
  | nan => nan
  | posInf => negInf
  | negInf => posInf
  | fin q => fin (-q)

/-- The function `Math.abs`. -/
def abs : JSNum → JSNum
  | nan => nan
  | posInf => posInf
  | negInf => posInf
  | fin q => fin |q|

/-- The sign of a non-NaN number, used by multiplication and division. -/
def sgn : JSNum → Int
  | nan => 0
  | posInf => 1
  | negInf => -1
  | fin q => if 0 < q then 1 else if q < 0 then -1 else 0

/-- An infinity of the given sign, `NaN` for sign zero. -/
def infOfSign (s : Int) : JSNum :=
  if 0 < s then posInf else if s < 0 then negInf else nan

/-- Binary `+`. -/
def add : JSNum → JSNum → JSNum
  | fin a, fin b => fin (a + b)
  | nan, _ => nan
  | _, nan => nan
  | posInf, negInf => nan
  | negInf, posInf => nan
  | posInf, _ => posInf
  | negInf, _ => negInf
  | _, posInf => posInf
  | _, negInf => negInf

/-- Binary `*`. -/
def mul : JSNum → JSNum → JSNum
  | fin a, fin b => fin (a * b)
  | nan, _ => nan
  | _, nan => nan
  | a, b => infOfSign (sgn a * sgn b)

/-- Binary `/`. A finite non-zero value over zero is an infinity, `0/0` is `NaN`. -/
def div : JSNum → JSNum → JSNum
  | nan, _ => nan
  | _, nan => nan
  | fin a, fin b => if b = 0 then infOfSign (sgn (fin a)) else fin (a / b)
  | fin _, _ => fin 0
  | posInf, fin b => if b < 0 then negInf else posInf
  | negInf, fin b => if b < 0 then posInf else negInf
  | _, _ => nan

/-- The relation `a > b`; false as soon as one side is `NaN`. -/
def gt : JSNum → JSNum → Bool
  | fin a, fin b => decide (b < a)
  | nan, _ => false
  | _, nan => false
  | posInf, posInf => false
  | posInf, _ => true
  | negInf, _ => false
  | _, negInf => true
  | _, posInf => false

/-- The conversion `ToBoolean`: `NaN` and zero are falsy. -/
def truthy : JSNum → Bool
  | nan => false
  | fin q => decide (q ≠ 0)
  | _ => true

/-- The expression `x || 0`. -/
def orZero (x : JSNum) : JSNum := if x.truthy then x else fin 0

/-- The expression `x || undefined`. -/
def orUndefined (x : JSNum) : Option JSNum := if x.truthy then some x else none

/-- The number is finite and lies in `[-bound, bound]`. -/
def AbsLe (x : JSNum) (bound : ℚ) : Prop :=
  match x with
  | fin q => |q| ≤ bound
  | _ => False

end JSNum

/-! ## Strings: character classes, `trim`, `split`, `parseFloat`, `parseInt` -/

/-- The class `\d`. -/
def isDigit (c : Char) : Bool := decide ('0' ≤ c ∧ c ≤ '9')

/-- The class `[A-Z]`. -/
def isUpper (c : Char) : Bool := decide ('A' ≤ c ∧ c ≤ 'Z')

/-- The class `[0-9A-F]`. -/
def isHexUpper (c : Char) : Bool := isDigit c || decide ('A' ≤ c ∧ c ≤ 'F')

/-- A line terminator: LF, CR, U+2028, U+2029. -/
def isLineTerminator (c : Char) : Bool :=
  c.toNat == 0x0A || c.toNat == 0x0D || c.toNat == 0x2028 || c.toNat == 0x2029

/-- The class `.` (no `s` flag): anything but a line terminator. -/
def isDot (c : Char) : Bool := !isLineTerminator c

/-- White space as `trim` and `parseFloat` strip it: the `WhiteSpace` and
`LineTerminator` productions. -/
def isWhiteSpace (c : Char) : Bool :=
  let n := c.toNat
  n == 0x09 || n == 0x0B || n == 0x0C || n == 0x20 || n == 0xA0 || n == 0x1680 ||
  (0x2000 ≤ n && n ≤ 0x200A) || n == 0x202F || n == 0x205F || n == 0x3000 ||
  n == 0xFEFF || isLineTerminator c

/-- Leading white space removed. -/
def trimStart : List Char → List Char
  | [] => []
  | c :: s => if isWhiteSpace c then trimStart s else c :: s

/-- The method `String.prototype.trim`. -/
def trim (s : List Char) : List Char :=
  (trimStart (trimStart s).reverse).reverse

/-- The number of UTF-16 code units of a string, its `length`. -/
def jsLength (s : List Char) : Nat :=
  (s.map fun c => if c.toNat < 0x10000 then 1 else 2).sum

/-- The call `s.split(sep)` for a one-character separator: the fields
between separators, at least one. -/
def split (sep : Char) : List Char → List (List Char)
  | [] => [[]]
  | c :: s =>
    match split sep s with
    | [] => [[]]
    | f :: fs => if c = sep then [] :: f :: fs else (c :: f) :: fs

/-- Element `i` of an array of strings, read at an index known to be in range. -/
def nth (parts : List (List Char)) (i : Nat) : List Char := parts.getD i []

/-- The decimal value of a digit character. -/
def digitVal (c : Char) : Nat := c.toNat - '0'.toNat

/-- The value of a run of decimal digits, read left to right from `acc`. -/
def digitsVal : List Char → Nat → Nat
  | [], acc => acc
  | c :: s, acc => digitsVal s (10 * acc + digitVal c)

/-- The longest run of leading digits, and what follows it. -/
def spanDigits : List Char → List Char × List Char
  | [] => ([], [])
  | c :: s =>
    if isDigit c then ((spanDigits s).1.cons c, (spanDigits s).2) else ([], c :: s)

/-- The exponent part `e[+-]?\d+` at the head of `s`, when there is one. -/
def parseExponent (s : List Char) : Int :=
  match s with
  | e :: r =>
    if e = 'e' ∨ e = 'E' then
      match r with
      | '+' :: r1 => if (spanDigits r1).1 = [] then 0 else (digitsVal (spanDigits r1).1 0 : Int)
      | '-' :: r1 => if (spanDigits r1).1 = [] then 0 else -(digitsVal (spanDigits r1).1 0 : Int)
      | _ => if (spanDigits r).1 = [] then 0 else (digitsVal (spanDigits r).1 0 : Int)
    else 0
  | [] => 0

/-- The value of the longest prefix of `s` that is an unsigned
`StrDecimalLiteral` other than `Infinity`: digits with an optional fraction
and exponent, or a fraction with an optional exponent. `none` when no prefix is one. -/
def parseUnsignedDecimal (s : List Char) : Option ℚ :=
  let ip := spanDigits s
  match ip.2 with
  | '.' :: r =>
    let fp := spanDigits r
    if ip.1 = [] ∧ fp.1 = [] then none
    else
      some (((digitsVal ip.1 0 : ℚ) + (digitsVal fp.1 0 : ℚ) / (10 : ℚ) ^ fp.1.length)
        * (10 : ℚ) ^ parseExponent fp.2)
  | r =>
    if ip.1 = [] then none
    else some ((digitsVal ip.1 0 : ℚ) * (10 : ℚ) ^ parseExponent r)

/-- The characters of the literal `Infinity`. -/
def infinityChars : List Char := ['I', 'n', 'f', 'i', 'n', 'i', 't', 'y']

/-- The unsigned part of `parseFloat`. -/
def parseUnsignedFloat (s : List Char) : JSNum :=
  if infinityChars.isPrefixOf s then JSNum.posInf
  else
    match parseUnsignedDecimal s with
    | some q => JSNum.fin q
    | none => JSNum.nan

/-- The global function `parseFloat` on a string: leading white space is
dropped, then the longest prefix that is a `StrDecimalLiteral` is read. The
result is the exact value of that prefix: its rounding to a double, and with
it underflow to 0 and overflow to `Infinity`, is not modelled here. -/
def parseFloat (s : List Char) : JSNum :=
  match trimStart s with
  | '-' :: r => (parseUnsignedFloat r).neg
  | '+' :: r => parseUnsignedFloat r
  | r => parseUnsignedFloat r

/-- The global function `parseInt` with no radix, on a string without a
`0x` head: leading white space and a sign are dropped, then the leading
decimal digits are read; `NaN` when there is none. -/
def parseInt (s : List Char) : JSNum :=
  let body (r : List Char) : JSNum :=
    if (spanDigits r).1 = [] then JSNum.nan else JSNum.fin (digitsVal (spanDigits r).1 0 : ℚ)
  match trimStart s with
  | '-' :: r => (body r).neg
  | '+' :: r => body r
  | r => body r

/-! ## Regular expressions

The patterns of the source use only character classes, literal characters,
`^`, capture groups that are not nested, and the greedy quantifiers `?`,
`*`, `+` and `{n}` applied to one character class. A pattern is a list of
items; `x{n}` is `n` copies of `x`, and `x+` is `x` followed by `x*`. -/

/-- One item of a pattern. -/
inductive Item where
  | chr (p : Char → Bool)
  | opt (p : Char → Bool)
  | star (p : Char → Bool)
  | gopen
  | gclose
  | bos

/-- An item that captures nothing and closes no group: a class or `^`. -/
def Item.isPlain : Item → Bool
  | Item.chr _ => true
  | Item.bos => true
  | _ => false

/-- A pattern: its items in order. -/
abbrev Pattern := List Item

/-- A character appended to the capture group that is open, if one is. -/
def pushCur (cur : Option (List Char)) (c : Char) : Option (List Char) :=
  cur.map fun g => g ++ [c]

/-- Greedy `p*` followed by the continuation `k`: take one more character
of the class and retry, and fall back to `k` here when that fails. -/
def starK (p : Char → Bool)
    (k : Bool → List Char → Option (List Char) → Option (List (List Char))) :
    Bool → List Char → Option (List Char) → Option (List (List Char))
  | a, [], cur => k a [] cur
  | a, c :: s, cur =>
    if p c then
      match starK p k false s (pushCur cur c) with
      | some r => some r
      | none => k a (c :: s) cur
    else k a (c :: s) cur

/-- Backtracking match of a pattern at the head of the input. `atStart` says
the head is the start of the whole string, `cur` is the text of the open
group, `caps` the closed groups so far. The result is the list of captured
groups 1, 2, ... of the first match the backtracking order finds. -/
def matchHere : Pattern → Bool → List Char → Option (List Char) → List (List Char) →
    Option (List (List Char))
  | [], _, _, _, caps => some caps
  | Item.bos :: r, a, s, cur, caps => if a then matchHere r a s cur caps else none
  | Item.gopen :: r, a, s, _, caps => matchHere r a s (some []) caps
  | Item.gclose :: r, a, s, cur, caps => matchHere r a s none (caps ++ [cur.getD []])
  | Item.chr p :: r, _, s, cur, caps =>
    match s with
    | [] => none
    | c :: t => if p c then matchHere r false t (pushCur cur c) caps else none
  | Item.opt p :: r, a, s, cur, caps =>
    match s with
    | [] => matchHere r a [] cur caps
    | c :: t =>
      if p c then
        match matchHere r false t (pushCur cur c) caps with
        | some res => some res
        | none => matchHere r a (c :: t) cur caps
      else matchHere r a (c :: t) cur caps
  | Item.star p :: r, a, s, cur, caps =>
    starK p (fun a1 s1 cur1 => matchHere r a1 s1 cur1 caps) a s cur

/-- The leftmost match: the pattern is tried at every position in turn. -/
def searchFrom (re : Pattern) : Bool → List Char → Option (List (List Char))
  | a, [] => matchHere re a [] none []
  | a, c :: s =>
    match matchHere re a (c :: s) none [] with
    | some r => some r
    | none => searchFrom re false s

/-- The call `s.match(re)` for a pattern without the `g` flag: `none` is
`null`, and `some caps` holds `match[1]`, `match[2]`, ... -/
def jsMatch (re : Pattern) (s : List Char) : Option (List (List Char)) :=
  searchFrom re true s

/-- Capture group `i` (from 1) of a match. -/
def group (caps : List (List Char)) (i : Nat) : List Char := caps.getD (i - 1) []

/-- A literal character. -/
def lit (c : Char) : Item := Item.chr fun x => x == c

/-- A literal letter under the `i` flag. -/
def litCI (lower upper : Char) : Item := Item.chr fun x => x == lower || x == upper

/-- The item `\d`. -/
def digit : Item := Item.chr isDigit

/-- The items of `x{n}`. -/
def rep (n : Nat) (x : Item) : Pattern := List.replicate n x

/-- The items of a literal string. -/
def lits (s : List Char) : Pattern := s.map lit

/-! ## Dates, JSON values and the platform -/

/-- A `Date` object: an instant in milliseconds, or the invalid date. -/
inductive JSDate where
  | invalid
  | at (ms : Int)
  deriving DecidableEq

/-- The method `getTime`: `NaN` for the invalid date. -/
def JSDate.getTime : JSDate → JSNum
  | JSDate.invalid => JSNum.nan
  | JSDate.at ms => JSNum.fin ms

/-- The value of a property of a parsed JSON object. An array or a nested
object is held as the string `ToString` gives for it, which is all the
decoder observes of it. -/
inductive JSVal where
  | undefined
  | null
  | bool (b : Bool)
  | num (n : JSNum)
  | str (s : List Char)
  | object (toStr : List Char)
  deriving DecidableEq

namespace JSVal

/-- The conversion `ToBoolean`. -/
def truthy : JSVal → Bool
  | undefined => false
  | null => false
  | bool b => b
  | num n => n.truthy
  | str s => !s.isEmpty
  | object _ => true

/-- The expression `a || b`. -/
def or (a b : JSVal) : JSVal := if a.truthy then a else b

/-- The function `parseFloat` on any value: the value is converted to a
string first, and a number survives that round trip. -/
def parseFloat : JSVal → JSNum
  | undefined => JSNum.nan
  | null => JSNum.nan
  | bool _ => JSNum.nan
  | num n => n
  | str s => Fleet.parseFloat s
  | object t => Fleet.parseFloat t

end JSVal

/-- What `JSON.parse` returns: `null`, or any other value with its named
properties, each listed once (none for a primitive or an array). -/
inductive JsonRoot where
  | null
  | value (props : List (List Char × JSVal))

/-- The property `name` of a parsed value, `undefined` when it has none. -/
def prop (props : List (List Char × JSVal)) (name : String) : JSVal :=
  match props.find? fun kv => kv.1 == name.toList with
  | some kv => kv.2
  | none => JSVal.undefined

/-- Library functions the decoders call. -/
structure Platform where
  /-- The call `moment.utc(text, format).toDate()`. -/
  momentUtc : List Char → List Char → JSDate
  /-- The call `JSON.parse(text)`; `none` when it throws. -/
  jsonParse : List Char → Option JsonRoot
  /-- The call `new Date(value)` on a truthy property value. -/
  newDate : JSVal → JSDate
  /-- The string that `value + ""` gives for the member of `Object.prototype`
  with the given name. -/
  protoText : List Char → List Char

/-! ## The canonical fix -/

/-- The object a decoder returns. A field that a decoder does not set, or
sets to `undefined`, is `none`. -/
structure Fix where
  lat : JSNum
  lng : JSNum
  speed : JSNum
  heading : JSNum
  altitude : Option JSNum
  ignition : Option Bool
  fuelLevel : Option JSNum
  batteryLevel : Option JSNum
  odometer : Option JSNum
  timestamp : Option JSDate
  deriving DecidableEq

/-- What `parseData` returns: a fix, or (for a brand name that selects an
inherited property of the decoder table) a value with no `lat` property. -/
inductive Decoded where
  | fix (f : Fix)
  | other
  deriving DecidableEq

/-! ## `backend/utils/gpsParsers.js` -/

namespace parsers

/-- The decoder `parsers.Teltonika`. -/
def Teltonika (P : Platform) (data : List Char) : Except String Fix :=
  let parts := split ',' data
  if parts.length ≥ 10 then
    Except.ok {
      lat := parseFloat (nth parts 2)
      lng := parseFloat (nth parts 3)
      speed := (parseFloat (nth parts 5)).orZero
      heading := (parseFloat (nth parts 6)).orZero
      altitude := some (parseFloat (nth parts 7)).orZero
      ignition := some (decide (nth parts 8 = ['1']))
      fuelLevel := none
      batteryLevel := none
      odometer := none
      timestamp := some (P.momentUtc (nth parts 1) "YYYY-MM-DD HH:mm:ss".toList) }
  else Except.error "Invalid Teltonika format"

/-- The decoder `parsers.Concox`. -/
def Concox (P : Platform) (data : List Char) : Except String Fix :=
  let parts := split ',' data
  if parts.length ≥ 15 then
    let lat := parseFloat (nth parts 2)
    let lng := parseFloat (nth parts 4)
    let latDir := nth parts 3
    let lngDir := nth parts 5
    Except.ok {
      lat := if latDir = ['S'] then lat.neg else lat
      lng := if lngDir = ['W'] then lng.neg else lng
      speed := (parseFloat (nth parts 6)).orZero
      heading := (parseFloat (nth parts 7)).orZero
      altitude := none
      ignition := some (decide (nth parts 11 = ['1']))
      fuelLevel := none
      batteryLevel := none
      odometer := none
      timestamp := some (P.momentUtc (nth parts 0 ++ [' '] ++ nth parts 1) "YYMMDD HHmmss".toList) }
  else Except.error "Invalid Concox format"

/-- The class `[NS]`. -/
def isNS (c : Char) : Bool := c == 'N' || c == 'S'

/-- The class `[EW]`. -/
def isEW (c : Char) : Bool := c == 'E' || c == 'W'

/-- The pattern
`/GPRMC,(\d{6}\.\d{3}),A,(\d{4}\.\d{4}),([NS]),(\d{5}\.\d{4}),([EW]),(\d+\.?\d*),(\d+\.?\d*),(\d{6})/`. -/
def queclinkPattern : Pattern :=
  lits "GPRMC,".toList
  ++ [Item.gopen] ++ rep 6 digit ++ [lit '.'] ++ rep 3 digit ++ [Item.gclose]
  ++ lits ",A,".toList
  ++ [Item.gopen] ++ rep 4 digit ++ [lit '.'] ++ rep 4 digit ++ [Item.gclose, lit ',']
  ++ [Item.gopen, Item.chr isNS, Item.gclose, lit ',']
  ++ [Item.gopen] ++ rep 5 digit ++ [lit '.'] ++ rep 4 digit ++ [Item.gclose, lit ',']
  ++ [Item.gopen, Item.chr isEW, Item.gclose, lit ',']
  ++ [Item.gopen, digit, Item.star isDigit, Item.opt (fun c => c == '.'), Item.star isDigit,
      Item.gclose, lit ',']
  ++ [Item.gopen, digit, Item.star isDigit, Item.opt (fun c => c == '.'), Item.star isDigit,
      Item.gclose, lit ',']
  ++ [Item.gopen] ++ rep 6 digit ++ [Item.gclose]

/-- The decoder `parsers.Queclink`. -/
def Queclink (P : Platform) (data : List Char) : Except String Fix :=
  match jsMatch queclinkPattern data with
  | some m =>
    let lat := parseFloat (group m 2)
    let lng := parseFloat (group m 4)
    Except.ok {
      lat := if group m 3 = ['S'] then lat.neg.div (JSNum.fin 100) else lat.div (JSNum.fin 100)
      lng := if group m 5 = ['W'] then lng.neg.div (JSNum.fin 100) else lng.div (JSNum.fin 100)
      speed := ((parseFloat (group m 6)).mul (JSNum.fin (1852 / 1000))).orZero
      heading := (parseFloat (group m 7)).orZero
      altitude := none
      ignition := none
      fuelLevel := none
      batteryLevel := none
      odometer := none
      timestamp := some (P.momentUtc (group m 8) "DDMMYY".toList) }
  | none => Except.error "Invalid Queclink format"

/-- The decoder `parsers.Custom`. Whatever is thrown inside its `try`
(a syntax error of `JSON.parse`, a property read on `null`) is rethrown as
`Invalid Custom JSON format`. -/
def Custom (P : Platform) (now : Int) (data : List Char) : Except String Fix :=
  match P.jsonParse data with
  | none => Except.error "Invalid Custom JSON format"
  | some JsonRoot.null => Except.error "Invalid Custom JSON format"
  | some (JsonRoot.value parsed) =>
    Except.ok {
      lat := ((prop parsed "latitude").or (prop parsed "lat")).parseFloat
      lng := (((prop parsed "longitude").or (prop parsed "lng")).or (prop parsed "lon")).parseFloat
      speed := (prop parsed "speed").parseFloat.orZero
      heading := (prop parsed "heading").parseFloat.orZero
      altitude := some (prop parsed "altitude").parseFloat.orZero
      ignition := some (prop parsed "ignition").truthy
      fuelLevel := (prop parsed "fuel").parseFloat.orUndefined
      batteryLevel := (prop parsed "battery").parseFloat.orUndefined
      odometer := (prop parsed "odometer").parseFloat.orUndefined
      timestamp :=
        some (if (prop parsed "timestamp").truthy then P.newDate (prop parsed "timestamp")
              else JSDate.at now) }

end parsers

/-- Names of `Object.prototype` that, read from the decoder table and called
with the frame, return a value (`Object`, `toString`, `isPrototypeOf`). -/
def inheritedReturning : List String := ["constructor", "toString", "isPrototypeOf"]

/-- Names of `Object.prototype` that, read from the decoder table and called
with the frame, throw a `TypeError` (the accessor `__proto__` yields an
object that is not callable; the others reject the receiver `undefined`). -/
def inheritedThrowing : List String :=
  ["__proto__", "toLocaleString", "valueOf", "hasOwnProperty", "propertyIsEnumerable",
   "__defineGetter__", "__defineSetter__", "__lookupGetter__", "__lookupSetter__"]

/-- The export `parseData`: `parsers[brand] || parsers.Custom`, applied to the frame. -/
def parseData (P : Platform) (now : Int) (data brand : List Char) : Except String Decoded :=
  if brand = "Teltonika".toList then (parsers.Teltonika P data).map Decoded.fix
  else if brand = "Concox".toList then (parsers.Concox P data).map Decoded.fix
  else if brand = "Queclink".toList then (parsers.Queclink P data).map Decoded.fix
  else if brand = "Custom".toList then (parsers.Custom P now data).map Decoded.fix
  else if String.mk brand ∈ inheritedReturning then Except.ok Decoded.other
  else if String.mk brand ∈ inheritedThrowing then Except.error "TypeError"
  else (parsers.Custom P now data).map Decoded.fix

/-! ## `backend/services/gpsServer.js`: decoding -/

/-- A `try` block with its `catch` handler. -/
def tryCatch {ε α : Type} (body : Except ε α) (handler : ε → Except ε α) : Except ε α :=
  match body with
  | Except.ok a => Except.ok a
  | Except.error e => handler e

/-- The first fallback pattern,
`/(\d{2})(\d{2})(\d{2}\.\d+),([NS]),(\d{3})(\d{2})(\d{2}\.\d+),([EW])/`. -/
def fallbackPattern1 : Pattern :=
  [Item.gopen] ++ rep 2 digit ++ [Item.gclose]
  ++ [Item.gopen] ++ rep 2 digit ++ [Item.gclose]
  ++ [Item.gopen] ++ rep 2 digit ++ [lit '.', digit, Item.star isDigit, Item.gclose, lit ',']
  ++ [Item.gopen, Item.chr parsers.isNS, Item.gclose, lit ',']
  ++ [Item.gopen] ++ rep 3 digit ++ [Item.gclose]
  ++ [Item.gopen] ++ rep 2 digit ++ [Item.gclose]
  ++ [Item.gopen] ++ rep 2 digit ++ [lit '.', digit, Item.star isDigit, Item.gclose, lit ',']
  ++ [Item.gopen, Item.chr parsers.isEW, Item.gclose]

/-- The second fallback pattern, `/(-?\d+\.\d+),(-?\d+\.\d+)/`. -/
def fallbackPattern2 : Pattern :=
  [Item.gopen, Item.opt (fun c => c == '-'), digit, Item.star isDigit, lit '.', digit,
    Item.star isDigit, Item.gclose, lit ',']
  ++ [Item.gopen, Item.opt (fun c => c == '-'), digit, Item.star isDigit, lit '.', digit,
    Item.star isDigit, Item.gclose]

/-- The `parse` function of the first fallback pattern. -/
def fallbackParse1 (now : Int) (m : List (List Char)) : Fix :=
  let latDeg := parseInt (group m 1)
  let latMin := parseFloat (group m 2 ++ ['.'] ++ nth (split '.' (group m 3)) 0)
  let latSec := (parseFloat (['0', '.'] ++ nth (split '.' (group m 3)) 1)).mul (JSNum.fin 60)
  let latDir := group m 4
  let lonDeg := parseInt (group m 5)
  let lonMin := parseFloat (group m 6 ++ ['.'] ++ nth (split '.' (group m 7)) 0)
  let lonSec := (parseFloat (['0', '.'] ++ nth (split '.' (group m 7)) 1)).mul (JSNum.fin 60)
  let lonDir := group m 8
  let lat := (latDeg.add (latMin.div (JSNum.fin 60))).add (latSec.div (JSNum.fin 3600))
  let lng := (lonDeg.add (lonMin.div (JSNum.fin 60))).add (lonSec.div (JSNum.fin 3600))
  { lat := if latDir = ['S'] then lat.neg else lat
    lng := if lonDir = ['W'] then lng.neg else lng
    speed := JSNum.fin 0
    heading := JSNum.fin 0
    altitude := none
    ignition := none
    fuelLevel := none
    batteryLevel := none
    odometer := none
    timestamp := some (JSDate.at now) }

/-- The `parse` function of the second fallback pattern. -/
def fallbackParse2 (now : Int) (m : List (List Char)) : Fix :=
  { lat := parseFloat (group m 1)
    lng := parseFloat (group m 2)
    speed := JSNum.fin 0
    heading := JSNum.fin 0
    altitude := none
    ignition := none
    fuelLevel := none
    batteryLevel := none
    odometer := none
    timestamp := some (JSDate.at now) }

/-- The method `parseFallbackData`: the first pattern that matches decides;
it throws when none does. -/
def parseFallbackData (now : Int) (dataString : List Char) : Except String Fix :=
  match jsMatch fallbackPattern1 dataString with
  | some m => Except.ok (fallbackParse1 now m)
  | none =>
    match jsMatch fallbackPattern2 dataString with
    | some m => Except.ok (fallbackParse2 now m)
    | none => Except.error "No fallback pattern matched"

/-- The body of the outer `try` of `parseGPSData`: the brand decoder, then
the checks on its result. -/
def decodeAndValidate (P : Platform) (now : Int) (dataString brand : List Char) :
    Except String Fix :=
  match parseData P now dataString brand with
  | Except.error e => Except.error e
  | Except.ok Decoded.other => Except.error "Invalid coordinates"
  | Except.ok (Decoded.fix parsedData) =>
    if !parsedData.lat.truthy || !parsedData.lng.truthy then
      Except.error "Invalid coordinates"
    else if parsedData.lat.abs.gt (JSNum.fin 90) || parsedData.lng.abs.gt (JSNum.fin 180) then
      Except.error "Coordinates out of range"
    else
      let ts1 : JSDate :=
        match parsedData.timestamp with
        | none => JSDate.at now
        | some t => t
      let ts2 : JSDate :=
        if ts1.getTime.gt (JSNum.fin ((now + 5 * 60 * 1000 : Int) : ℚ)) then JSDate.at now else ts1
      Except.ok { parsedData with timestamp := some ts2 }

/-- The method `parseGPSData`. The result `none` is `null`; an `error`
result would be an exception leaving the method. -/
def parseGPSData (P : Platform) (now : Int) (dataString brand : List Char) :
    Except String (Option Fix) :=
  tryCatch ((decodeAndValidate P now dataString brand).map some) fun _ =>
    tryCatch ((parseFallbackData now dataString).map some) fun _ => Except.ok none

/-! ## `backend/services/gpsServer.js`: identity -/

/-- The list `imeiPatterns`:
`/imei:(\d{15})/i`, `/(\d{15})/`, `/^##,imei:(\d{15}),/`,
`/^\*[A-Z]{2},(\d{15}),/`, `/^([0-9A-F]{30})/`, `/(\d{15}),.*,.*,.*,.*,/`. -/
def imeiPatterns : List Pattern :=
  [ [litCI 'i' 'I', litCI 'm' 'M', litCI 'e' 'E', litCI 'i' 'I', lit ':', Item.gopen]
      ++ rep 15 digit ++ [Item.gclose],
    [Item.gopen] ++ rep 15 digit ++ [Item.gclose],
    [Item.bos] ++ lits "##,imei:".toList ++ [Item.gopen] ++ rep 15 digit ++ [Item.gclose, lit ','],
    [Item.bos, lit '*'] ++ rep 2 (Item.chr isUpper) ++ [lit ',', Item.gopen] ++ rep 15 digit
      ++ [Item.gclose, lit ','],
    [Item.bos, Item.gopen] ++ rep 30 (Item.chr isHexUpper) ++ [Item.gclose],
    [Item.gopen] ++ rep 15 digit ++ [Item.gclose, lit ',', Item.star isDot, lit ',',
      Item.star isDot, lit ',', Item.star isDot, lit ',', Item.star isDot, lit ','] ]

/-- The loop of `extractIMEI` over the patterns still to try. -/
def extractIMEILoop : List Pattern → List Char → Option (List Char)
  | [], _ => none
  | pattern :: rest, dataString =>
    match jsMatch pattern dataString with
    | some m => if !(group m 1).isEmpty then some (group m 1) else extractIMEILoop rest dataString
    | none => extractIMEILoop rest dataString

/-- The method `extractIMEI`; `none` is `null`. -/
def extractIMEI (dataString : List Char) : Option (List Char) :=
  extractIMEILoop imeiPatterns dataString

/-! ## Persistent state and effects

The stores are lists of documents. `dbUp = false` models a database that
rejects every operation of the call (each one then throws). Every operation
attempted on a store, a channel or a connection is recorded in `trace`,
oldest first; what was done before an exception stays done. -/

/-- A `GPSDevice` document. -/
structure Device where
  id : Nat
  tenantId : Option Nat
  vehicleId : Option Nat
  imei : List Char
  brand : List Char
  protocol : Option (List Char)
  status : String
  lastSeen : Option JSDate
  deriving DecidableEq

/-- A `GPSData` document: the fix with its device, vehicle and raw payload. -/
structure GPSRecord where
  deviceId : Nat
  vehicleId : Option Nat
  fix : Fix
  rawData : List Char
  deriving DecidableEq

/-- A `Vehicle` document, as far as the pipeline touches it. -/
structure Vehicle where
  id : Nat
  tenantId : Nat
  currentLocation : Option (JSNum × JSNum × JSDate)
  odometer : JSNum
  deriving DecidableEq

/-- An `Alert` document. -/
structure Alert where
  tenantId : Option Nat
  vehicleId : Option Nat
  deviceId : Nat
  type : String
  severity : String
  status : String
  createdAt : Int
  deriving DecidableEq

/-- An entry of the in-memory map `connectedDevices`. -/
structure SessionInfo where
  device : Device
  lastUpdate : Int
  connectionCount : Nat
  deriving DecidableEq

/-- An operation attempted on a store, a channel or a connection. -/
inductive Effect where
  | deviceFindOne (imei : List Char)
  | deviceSave (imei : List Char)
  | fixSave (deviceId : Nat)
  | vehicleFindById (id : Nat)
  | vehicleUpdate (id : Nat)
  | alertFindOne (deviceId : Nat) (type : String)
  | alertSave (deviceId : Nat) (type : String)
  | notification (type : String)
  | publish (channel : String)
  | emitLocationUpdate (vehicleId : Nat)
  | write (text : List Char)
  deriving DecidableEq

/-- The state the pipeline reads and writes. -/
structure World where
  dbUp : Bool
  devices : List Device
  fixes : List GPSRecord
  vehicles : List Vehicle
  alerts : List Alert
  connectedDevices : List (List Char × SessionInfo)
  trace : List Effect
  deriving DecidableEq

/-- The peer handed to `handleGPSData`: a socket has a `write` method, the
`rinfo` of a datagram has none. -/
structure Connection where
  hasWrite : Bool
  deriving DecidableEq

namespace World

/-- One more effect on the trace. -/
def log (w : World) (e : Effect) : World := { w with trace := w.trace ++ [e] }

/-- The entry of `connectedDevices` for an identifier. -/
def session (w : World) (imei : List Char) : Option SessionInfo :=
  (w.connectedDevices.find? fun kv => kv.1 == imei).map fun kv => kv.2

/-- The call `connectedDevices.set(imei, info)`. -/
def setSession (w : World) (imei : List Char) (info : SessionInfo) : World :=
  { w with connectedDevices :=
      if (w.connectedDevices.find? fun kv => kv.1 == imei).isSome then
        w.connectedDevices.map fun kv => if kv.1 == imei then (imei, info) else kv
      else w.connectedDevices ++ [(imei, info)] }

end World

/-- The schema checks `save` runs on a device: `tenantId`, `imei` and `brand`
are required, `brand` and `status` are enumerations. -/
def deviceValid (d : Device) : Bool :=
  d.tenantId.isSome && !d.imei.isEmpty &&
  decide (String.mk d.brand ∈ ["Teltonika", "Concox", "Queclink", "Meitrack", "Custom", "Other"]) &&
  decide (d.status ∈ ["Connected", "Offline", "Disabled"])

/-- The call `device.save()`. It throws (second component `false`) when the
database is down or the document fails validation; else it inserts the
document, or replaces the stored one with the same id. -/
def saveDevice (w : World) (d : Device) : World × Bool :=
  let w1 := w.log (Effect.deviceSave d.imei)
  if !w.dbUp || !deviceValid d then (w1, false)
  else if w.devices.any fun x => x.id == d.id then
    ({ w1 with devices := w.devices.map fun x => if x.id == d.id then d else x }, true)
  else ({ w1 with devices := w.devices ++ [d] }, true)

/-- An identifier no stored device has. -/
def freshDeviceId (w : World) : Nat := (w.devices.map fun d => d.id).foldl max 0 + 1

/-- The end of the `try` of `getOrRegisterDevice`, from the status test on:
a device that is not `Connected` is set to `Connected` and saved, then the
session entry is written. `none` is the `null` of the `catch`. -/
def refreshAndTrack (now : Int) (w : World) (imei : List Char) (device : Device) :
    World × Option Device :=
  let track (w2 : World) (device2 : Device) : World × Option Device :=
    let count := match w2.session imei with
      | some info => info.connectionCount
      | none => 0
    (w2.setSession imei { device := device2, lastUpdate := now, connectionCount := count + 1 },
      some device2)
  if device.status ≠ "Connected" then
    let device1 := { device with status := "Connected", lastSeen := some (JSDate.at now) }
    match saveDevice w device1 with
    | (w1, true) => track w1 device1
    | (w1, false) => (w1, none)
  else track w device

/-- The method `getOrRegisterDevice`; `none` is `null`. -/
def getOrRegisterDevice (now : Int) (w : World) (imei : List Char) : World × Option Device :=
  let w0 := w.log (Effect.deviceFindOne imei)
  if !w.dbUp then (w0, none)
  else
    match w.devices.find? fun d => d.imei == imei with
    | some device => refreshAndTrack now w0 imei device
    | none =>
      let device : Device :=
        { id := freshDeviceId w, tenantId := none, vehicleId := none, imei := imei,
          brand := "Custom".toList, protocol := none, status := "Connected",
          lastSeen := some (JSDate.at now) }
      match saveDevice w0 device with
      | (w1, true) => refreshAndTrack now w1 imei device
      | (w1, false) => (w1, none)

/-! ## `backend/utils/alertEngine.js` -/

/-- The entries of `alertConfigs` in order, each with its severity. -/
def alertConfigs : List (String × String) :=
  [("Speeding", "High"), ("GeofenceEnter", "Medium"), ("GeofenceExit", "Medium"),
   ("FuelDrop", "High"), ("IgnitionOn", "Low"), ("IgnitionOff", "Low"),
   ("DeviceOffline", "Medium")]

/-- The `check` of a rule on a stored fix and the vehicle (`none` when the
device has none or it is not found). `none` as a result is a `TypeError`:
the fuel rule reads a property of the vehicle `null`. A stored vehicle has
no `lastFuelLevel`, and a stored fix has `ignition` defaulted to `false`. -/
def alertCheck (type : String) (data : GPSRecord) (vehicle : Option Vehicle) : Option Bool :=
  if type = "Speeding" then some (data.fix.speed.gt (JSNum.fin 120))
  else if type = "FuelDrop" then
    match data.fix.fuelLevel, vehicle with
    | none, _ => some false
    | some _, none => none
    | some _, some _ => some false
  else if type = "IgnitionOn" then some (data.fix.ignition.getD false == true)
  else if type = "IgnitionOff" then some (data.fix.ignition.getD false == false)
  else some false

/-- The schema checks `save` runs on an alert: tenant and vehicle are required. -/
def alertValid (a : Alert) : Bool := a.tenantId.isSome && a.vehicleId.isSome

/-- One round of the loop of `checkAlerts`, with its own `try`/`catch`. -/
def checkAlertType (now : Int) (data : GPSRecord) (device : Device) (vehicle : Option Vehicle)
    (w : World) (config : String × String) : World :=
  if config.1 = "DeviceOffline" then w
  else
    match alertCheck config.1 data vehicle with
    | none => w
    | some false => w
    | some true =>
      let w1 := w.log (Effect.alertFindOne device.id config.1)
      if !w.dbUp then w1
      else
        let existing := w.alerts.find? fun a =>
          a.deviceId == device.id && a.type == config.1 && a.status == "New" &&
          decide (now - 5 * 60 * 1000 ≤ a.createdAt)
        match existing with
        | some _ => w1
        | none =>
          let alert : Alert :=
            { tenantId := device.tenantId, vehicleId := device.vehicleId, deviceId := device.id,
              type := config.1, severity := config.2, status := "New", createdAt := now }
          let w2 := w1.log (Effect.alertSave device.id config.1)
          if !alertValid alert then w2
          else ({ w2 with alerts := w2.alerts ++ [alert] }).log (Effect.notification config.1)

/-- The export `checkAlerts`. The second component is `false` when the
vehicle lookup, which is outside every `try`, throws. -/
def checkAlerts (now : Int) (data : GPSRecord) (device : Device) (w : World) : World × Bool :=
  match device.vehicleId with
  | none => (alertConfigs.foldl (checkAlertType now data device none) w, true)
  | some vid =>
    let w1 := w.log (Effect.vehicleFindById vid)
    if !w.dbUp then (w1, false)
    else
      (alertConfigs.foldl
        (checkAlertType now data device (w.vehicles.find? fun v => v.id == vid)) w1, true)

/-! ## `backend/services/gpsServer.js`: the pipeline -/

/-- The call `s.substring(0, n)`, counted in UTF-16 code units; a character
of two units that would straddle the cut is left out. -/
def substringTo : Nat → List Char → List Char
  | _, [] => []
  | n, c :: s =>
    let u := if c.toNat < 0x10000 then 1 else 2
    if u ≤ n then c :: substringTo (n - u) s else []

/-- A number field passes the cast of the schema: it is not `NaN`. -/
def castsToNumber (x : Option JSNum) : Bool := x != some JSNum.nan

/-- The schema checks `save` runs on a fix: `lat`, `lng` and `timestamp` are
required, every number must cast, and the date must be a valid one. -/
def fixValid (r : GPSRecord) : Bool :=
  castsToNumber (some r.fix.lat) && castsToNumber (some r.fix.lng) &&
  castsToNumber (some r.fix.speed) && castsToNumber (some r.fix.heading) &&
  castsToNumber r.fix.altitude && castsToNumber r.fix.fuelLevel &&
  castsToNumber r.fix.batteryLevel && castsToNumber r.fix.odometer &&
  (match r.fix.timestamp with
   | some (JSDate.at _) => true
   | _ => false)

/-- The session entries hold the device object itself, so a field written on
the device shows in the entry for its identifier too. -/
def aliasDevice (w : World) (device : Device) : World :=
  { w with connectedDevices := w.connectedDevices.map fun kv =>
      if kv.1 == device.imei && kv.2.device.id == device.id then
        (kv.1, { kv.2 with device := device })
      else kv }

/-- The call `Vehicle.findByIdAndUpdate` of `processGPSData`. -/
def updateVehicle (now : Int) (w : World) (vid : Nat) (parsedData : Fix) : World :=
  { w with vehicles := w.vehicles.map fun v =>
      if v.id == vid then
        { v with currentLocation := some (parsedData.lat, parsedData.lng, JSDate.at now),
                 odometer := match parsedData.odometer with
                   | some o => o.orZero
                   | none => JSNum.fin 0 }
      else v }

/-- The method `processGPSData`. Every exit through its `catch` publishes
`gps_processing_error`. -/
def processGPSData (now : Int) (w : World) (device : Device) (parsedData : Fix)
    (rawData : List Char) : World :=
  let failed (w : World) : World := w.log (Effect.publish "gps_processing_error")
  let gpsData : GPSRecord :=
    { deviceId := device.id, vehicleId := device.vehicleId, fix := parsedData,
      rawData := substringTo 1000 rawData }
  let w1 := w.log (Effect.fixSave device.id)
  if !w.dbUp || !fixValid gpsData then failed w1
  else
    let w2 := { w1 with fixes := w1.fixes ++ [gpsData] }
    let device1 := { device with lastSeen := some (JSDate.at now) }
    match saveDevice (aliasDevice w2 device1) device1 with
    | (w3, false) => failed w3
    | (w3, true) =>
      let w4 :=
        match device1.vehicleId with
        | none => w3
        | some vid =>
          (((((updateVehicle now w3 vid parsedData).log (Effect.vehicleUpdate vid)).log
            (Effect.publish "vehicle_location")).log (Effect.emitLocationUpdate vid)).log
            (Effect.publish "locations"))
      match checkAlerts now gpsData device1 w4 with
      | (w5, false) => failed w5
      | (w5, true) => w5.log (Effect.publish "gps_data_processed")

/-- The table `acknowledgements`, read at `brand`, with the default `OK`.
A brand that names a member of `Object.prototype` reads that member. -/
def ackToken (P : Platform) (brand : List Char) : List Char :=
  if brand = "Teltonika".toList then "01".toList
  else if brand = "Concox".toList then "OK".toList
  else if brand = "Queclink".toList then "ACK".toList
  else if brand = "Meitrack".toList then "ACK".toList
  else if brand = "Custom".toList then "OK".toList
  else if String.mk brand ∈ inheritedReturning ++ inheritedThrowing then P.protoText brand
  else "OK".toList

/-- The method `sendAcknowledgement`. -/
def sendAcknowledgement (P : Platform) (w : World) (connection : Connection)
    (brand : List Char) : World :=
  if connection.hasWrite then w.log (Effect.write (ackToken P brand ++ ['\r', '\n'])) else w

/-- The method `handleGPSData`, on the text `rawData.toString()` gives. -/
def handleGPSData (P : Platform) (now : Int) (w : World) (rawData : List Char)
    (connectionInfo : Option Connection) (protocol : List Char) : World :=
  let dataString := trim rawData
  if dataString.isEmpty || jsLength dataString < 10 then w
  else
    match extractIMEI dataString with
    | none => w
    | some imei =>
      if imei.isEmpty then w
      else
        match getOrRegisterDevice now w imei with
        | (w1, none) => w1
        | (w1, some device) =>
          match parseGPSData P now dataString device.brand with
          | Except.error _ => w1
          | Except.ok none => w1
          | Except.ok (some parsedData) =>
            let w2 := processGPSData now w1 device parsedData dataString
            match connectionInfo with
            | some connection =>
              if protocol = "TCP".toList ∧ device.protocol = some "TCP".toList then
                sendAcknowledgement P w2 connection device.brand
              else w2
            | none => w2

/-! ## `backend/utils/alertEngine.js`: the liveness sweep -/

/-- The query of the sweep: a `Connected` device whose `lastSeen` is a date
before `now` minus fifteen minutes. -/
def isStale (now : Int) (d : Device) : Bool :=
  d.status == "Connected" &&
  match d.lastSeen with
  | some (JSDate.at t) => decide (t < now - 15 * 60 * 1000)
  | _ => false

/-- One round of the loop of `checkDeviceOfflineAlerts`; the second
component is `false` when the round throws. Nothing in the sweep catches. -/
def offlineRound (now : Int) (w : World) (device : Device) : World × Bool :=
  let w1 := w.log (Effect.alertFindOne device.id "DeviceOffline")
  if !w.dbUp then (w1, false)
  else
    let existingAlert := w.alerts.find? fun a =>
      a.deviceId == device.id && a.type == "DeviceOffline" && a.status == "New"
    match existingAlert with
    | some _ => (w1, true)
    | none =>
      let alert : Alert :=
        { tenantId := device.tenantId, vehicleId := device.vehicleId, deviceId := device.id,
          type := "DeviceOffline", severity := "Medium", status := "New", createdAt := now }
      let w2 := w1.log (Effect.alertSave device.id "DeviceOffline")
      if !alertValid alert then (w2, false)
      else
        match saveDevice { w2 with alerts := w2.alerts ++ [alert] }
            { device with status := "Offline" } with
        | (w3, false) => (w3, false)
        | (w3, true) => (w3.log (Effect.notification "DeviceOffline"), true)

/-- The loop of `checkDeviceOfflineAlerts` over the devices the query
returned; it stops at the first round that throws. -/
def offlineLoop (now : Int) : List Device → World → World × Bool
  | [], w => (w, true)
  | device :: rest, w =>
    match offlineRound now w device with
    | (w1, true) => offlineLoop now rest w1
    | (w1, false) => (w1, false)

/-- The export `checkDeviceOfflineAlerts`; the second component is `false`
when it throws. The `find` query itself leaves no entry in the trace. -/
def checkDeviceOfflineAlerts (now : Int) (w : World) : World × Bool :=
  if !w.dbUp then (w, false)
  else offlineLoop now (w.devices.filter (isStale now)) w

/-- The sweep run at each instant of a list in turn, as the timer of
`server.js` does; a sweep that throws leaves what it did. -/
def sweeps : List Int → World → World
  | [], w => w
  | now :: rest, w => sweeps rest (checkDeviceOfflineAlerts now w).1

/-- The `DeviceOffline` alerts stored for a device. -/
def offlineAlertsOf (w : World) (deviceId : Nat) : List Alert :=
  w.alerts.filter fun a => a.deviceId == deviceId && a.type == "DeviceOffline"

/-- The stored status of the devices with a given id. -/
def statusOf (w : World) (deviceId : Nat) : List String :=
  (w.devices.filter fun d => d.id == deviceId).map fun d => d.status

/-! ## `backend/services/redisService.js` -/

/-- The keys the engine and the event handlers use:
`tenant:<id>:speed_limit`, `vehicle:<id>:geofence:<id>`,
`vehicle:<id>:fuel_level`, `vehicle:<id>:ignition`, `device:<id>:last_error`,
`device:<id>:error_count`. An id that is `undefined` is `none`. -/
inductive RedisKey where
  | speedLimit (tenantId : Option Nat)
  | geofence (vehicleId : Option Nat) (geofenceId : Nat)
  | fuelLevel (vehicleId : Option Nat)
  | ignition (vehicleId : Option Nat)
  | lastError (deviceId : Option Nat)
  | errorCount (deviceId : Option Nat)
  deriving DecidableEq

/-- A stored key: the value `JSON.parse` gives for its text, and the instant
its time to live ends. -/
structure RedisEntry where
  key : RedisKey
  value : JSVal
  expiresAt : Int
  deriving DecidableEq

/-- The Redis server as the service sees it. `up = false` is a server, or a
client, that fails every command. -/
structure Redis where
  up : Bool
  entries : List RedisEntry
  deriving DecidableEq

/-- What `JSON.parse(JSON.stringify(value))` gives; `none` when `stringify`
gives `undefined`, which the client refuses to send. -/
def jsonStored : JSVal → Option JSVal
  | JSVal.undefined => none
  | JSVal.num (JSNum.fin q) => some (JSVal.num (JSNum.fin q))
  | JSVal.num _ => some JSVal.null
  | v => some v

namespace Redis

/-- The method `redisService.get`: the parsed value, or `null` when the key
is absent or expired or the command fails. -/
def get (r : Redis) (now : Int) (key : RedisKey) : JSVal :=
  if !r.up then JSVal.null
  else
    match r.entries.find? fun e => e.key == key && decide (now < e.expiresAt) with
    | some e => e.value
    | none => JSVal.null

/-- The method `redisService.set` with a time to live in seconds; a failure
is caught and changes nothing. -/
def set (r : Redis) (now : Int) (key : RedisKey) (value : JSVal) (ttl : Int) : Redis :=
  if !r.up then r
  else
    match jsonStored value with
    | none => r
    | some v =>
      { r with entries := (r.entries.filter fun e => !(e.key == key)) ++
          [{ key := key, value := v, expiresAt := now + ttl * 1000 }] }

end Redis

/-- The conversion of a string to a number (`StringToNumber`), a function of
the language that is not modelled. -/
structure Conversions where
  stringToNumber : List Char → JSNum

/-- The conversion `ToNumber`. -/
def JSVal.toNumber (C : Conversions) : JSVal → JSNum
  | JSVal.undefined => JSNum.nan
  | JSVal.null => JSNum.fin 0
  | JSVal.bool b => JSNum.fin (if b then 1 else 0)
  | JSVal.num n => n
  | JSVal.str s => C.stringToNumber s
  | JSVal.object t => C.stringToNumber t

/-! ## Double precision

The arithmetic of the alert engine is that of IEEE 754 binary64: the result
of an operation is the double nearest to the exact result, ties going to
the even significand, and a literal such as `1.3` is the double nearest to
it. -/

/-- The quotient `n / d` rounded to the nearest natural number, a tie going
to the even one. -/
def roundHalfEven (n d : Nat) : Nat :=
  if 2 * (n % d) > d ∨ (2 * (n % d) = d ∧ (n / d) % 2 = 1) then n / d + 1 else n / d

/-- The binary logarithm of `n`, rounded down (0 for `n < 2`); the first
argument bounds the number of halvings. -/
def log2Fuel : Nat → Nat → Nat
  | 0, _ => 0
  | fuel + 1, n => if 2 ≤ n then log2Fuel fuel (n / 2) + 1 else 0

/-- The exponent `e` with `2^e ≤ n / d < 2^(e+1)`, for positive `n` and `d`. -/
def binaryExponent (n d : Nat) : Int :=
  let e0 : Int := (log2Fuel n n : Int) - (log2Fuel d d : Int)
  if (if 0 ≤ e0 then 2 ^ e0.toNat * d ≤ n else d ≤ n * 2 ^ (-e0).toNat) then e0 else e0 - 1

/-- The double nearest to the quotient `n / d` of naturals, `d` positive:
53 significant bits down to the exponent -1074 of the subnormal numbers,
and infinity from `2^1024` on. -/
def roundDouble (n d : Nat) : JSNum :=
  if n = 0 then JSNum.fin 0
  else
    let p : Int := max (binaryExponent n d - 52) (-1074)
    let k : Nat :=
      if 0 ≤ p then roundHalfEven n (d * 2 ^ p.toNat) else roundHalfEven (n * 2 ^ (-p).toNat) d
    if 0 ≤ p ∧ 2 ^ 1024 ≤ k * 2 ^ p.toNat then JSNum.posInf
    else JSNum.fin ((k : ℚ) * (2 : ℚ) ^ p)

/-- The double nearest to a rational number. -/
def JSNum.ofRat (q : ℚ) : JSNum :=
  if q < 0 then (roundDouble q.num.natAbs q.den).neg else roundDouble q.num.natAbs q.den

/-- A finite value rounded to the nearest double. -/
def JSNum.round : JSNum → JSNum
  | JSNum.fin q => JSNum.ofRat q
  | x => x

/-- Binary `*` on doubles: the exact product, rounded. -/
def JSNum.mulD (a b : JSNum) : JSNum := (a.mul b).round

/-- Binary `-` on doubles: the exact difference, rounded. -/
def JSNum.subD (a b : JSNum) : JSNum := (a.add b.neg).round

/-! ## `backend/utils/alertEngineEnhanced.js` -/

/-- The `data` payload of an alert candidate. -/
inductive CandidateData where
  | speeding (speed : JSNum) (speedLimit : JSVal) (lat lng : JSNum)
  | geofence (geofenceId : Nat) (geofenceName : List Char) (lat lng : JSNum)
  | fuelDrop (previousFuel : JSVal) (currentFuel dropAmount : JSNum) (lat lng : JSNum)
  | ignition (previousState : JSVal) (currentState : Bool) (lat lng : JSNum)
  | maintenance (maintenanceId : Nat) (description : List Char) (dueDate : Int)
      (daysRemaining : Int)
  deriving DecidableEq

/-- An alert candidate, as the checks push it. Its `message` is a text that
is never empty and is not modelled. -/
structure Candidate where
  type : String
  severity : String
  data : CandidateData
  deriving DecidableEq

/-- A `Maintenance` document, as far as the engine reads it. -/
structure Maintenance where
  id : Nat
  vehicleId : Nat
  description : List Char
  nextDueDate : Option Int
  deriving DecidableEq

/-- A geofence: the stubs of the engine never return one. -/
structure Geofence where
  id : Nat
  name : List Char
  deriving DecidableEq

/-- The state of one engine instance and of the services it calls. -/
structure EngineState where
  world : World
  redis : Redis
  maintenance : List Maintenance
  alertCooldowns : List ((Option Nat × String) × Int)
  deriving DecidableEq

/-- The field `ignition` of a stored fix: the schema defaults it to `false`. -/
def GPSRecord.ignition (gpsData : GPSRecord) : Bool := gpsData.fix.ignition.getD false

namespace EnhancedAlertEngine

/-- The method `getSpeedLimit`. -/
def getSpeedLimit (now : Int) (r : Redis) (tenantId : Option Nat) : JSVal :=
  let cached := r.get now (RedisKey.speedLimit tenantId)
  if cached.truthy then cached else JSVal.num (JSNum.fin 120)

/-- The method `checkSpeeding`. The product `speedLimit * 1.3` is the double
nearest to the product of the limit and the double nearest to 1.3. -/
def checkSpeeding (C : Conversions) (now : Int) (r : Redis) (gpsData : GPSRecord)
    (device : Device) : List Candidate :=
  let speedLimit := getSpeedLimit now r device.tenantId
  if gpsData.fix.speed.gt (speedLimit.toNumber C) then
    [{ type := "Speeding"
       severity :=
         if gpsData.fix.speed.gt ((speedLimit.toNumber C).mulD (JSNum.ofRat (13 / 10))) then
           "High"
         else "Medium"
       data := CandidateData.speeding gpsData.fix.speed speedLimit gpsData.fix.lat
         gpsData.fix.lng }]
  else []

/-- The method `getGeofences`. -/
def getGeofences (_tenantId _vehicleId : Option Nat) : List Geofence := []

/-- The method `isPointInGeofence`. -/
def isPointInGeofence (_lat _lng : JSNum) (_geofence : Geofence) : Bool := false

/-- The method `wasVehicleInGeofence`. -/
def wasVehicleInGeofence (now : Int) (r : Redis) (vehicleId : Option Nat) (geofenceId : Nat) :
    JSVal :=
  (r.get now (RedisKey.geofence vehicleId geofenceId)).or (JSVal.bool false)

/-- One round of the loop of `checkGeofence`. -/
def geofenceRound (now : Int) (gpsData : GPSRecord) (device : Device)
    (acc : List Candidate × Redis) (geofence : Geofence) : List Candidate × Redis :=
  let isInside := isPointInGeofence gpsData.fix.lat gpsData.fix.lng geofence
  let wasInside := (wasVehicleInGeofence now acc.2 device.vehicleId geofence.id).truthy
  let pushed : List Candidate :=
    if isInside && !wasInside then
      [{ type := "GeofenceEnter", severity := "Medium"
         data := CandidateData.geofence geofence.id geofence.name gpsData.fix.lat
           gpsData.fix.lng }]
    else if !isInside && wasInside then
      [{ type := "GeofenceExit", severity := "Medium"
         data := CandidateData.geofence geofence.id geofence.name gpsData.fix.lat
           gpsData.fix.lng }]
    else []
  (acc.1 ++ pushed,
    acc.2.set now (RedisKey.geofence device.vehicleId geofence.id) (JSVal.bool isInside) 3600)

/-- The method `checkGeofence`. -/
def checkGeofence (now : Int) (r : Redis) (gpsData : GPSRecord) (device : Device) :
    List Candidate × Redis :=
  if device.vehicleId.isNone then ([], r)
  else
    (getGeofences device.tenantId device.vehicleId).foldl (geofenceRound now gpsData device)
      ([], r)

/-- The method `checkFuel`. The difference `lastFuel - gpsData.fuelLevel` is
the double nearest to the exact difference. -/
def checkFuel (C : Conversions) (now : Int) (r : Redis) (gpsData : GPSRecord)
    (device : Device) : List Candidate × Redis :=
  match gpsData.fix.fuelLevel with
  | none => ([], r)
  | some fuelLevel =>
    let lastFuel := r.get now (RedisKey.fuelLevel device.vehicleId)
    let dropAmount := (lastFuel.toNumber C).subD fuelLevel
    let alerts : List Candidate :=
      if lastFuel ≠ JSVal.null ∧ dropAmount.gt (JSNum.fin 10) = true then
        [{ type := "FuelDrop", severity := "High"
           data := CandidateData.fuelDrop lastFuel fuelLevel dropAmount gpsData.fix.lat
             gpsData.fix.lng }]
      else []
    (alerts, r.set now (RedisKey.fuelLevel device.vehicleId) (JSVal.num fuelLevel) 3600)

/-- The method `checkIgnition`. -/
def checkIgnition (now : Int) (r : Redis) (gpsData : GPSRecord) (device : Device) :
    List Candidate × Redis :=
  let lastIgnition := r.get now (RedisKey.ignition device.vehicleId)
  let alerts : List Candidate :=
    if lastIgnition ≠ JSVal.null ∧ lastIgnition ≠ JSVal.bool gpsData.ignition then
      [{ type := if gpsData.ignition then "IgnitionOn" else "IgnitionOff"
         severity := "Low"
         data := CandidateData.ignition lastIgnition gpsData.ignition gpsData.fix.lat
           gpsData.fix.lng }]
    else []
  (alerts, r.set now (RedisKey.ignition device.vehicleId) (JSVal.bool gpsData.ignition) 3600)

/-- The method `getUpcomingMaintenance`: the records of the vehicle due at
`now` or later, soonest first; `none` when the query throws. -/
def getUpcomingMaintenance (now : Int) (s : EngineState) (vehicleId : Nat) :
    Option (List Maintenance) :=
  if !s.world.dbUp then none
  else
    some ((s.maintenance.filter fun m =>
        m.vehicleId == vehicleId &&
        match m.nextDueDate with
        | some due => decide (now ≤ due)
        | none => false).insertionSort
      fun a b => a.nextDueDate.getD 0 ≤ b.nextDueDate.getD 0)

/-- The expression `Math.ceil((nextDueDate - new Date()) / (1000 * 60 * 60 * 24))`. -/
def daysRemaining (now due : Int) : Int :=
  Int.ceil (((due - now : Int) : ℚ) / (1000 * 60 * 60 * 24))

/-- The candidate of one maintenance record, if it is due within seven days. -/
def maintenanceRound (now : Int) (m : Maintenance) : List Candidate :=
  if daysRemaining now (m.nextDueDate.getD 0) ≤ 7 ∧ daysRemaining now (m.nextDueDate.getD 0) > 0
  then
    [{ type := "MaintenanceDue", severity := "Medium"
       data := CandidateData.maintenance m.id m.description (m.nextDueDate.getD 0)
         (daysRemaining now (m.nextDueDate.getD 0)) }]
  else []

/-- The method `checkMaintenance`; `none` when it throws. -/
def checkMaintenance (now : Int) (s : EngineState) (device : Device) :
    Option (List Candidate) :=
  match device.vehicleId with
  | none => some []
  | some vehicleId =>
    (getUpcomingMaintenance now s vehicleId).map fun upcoming =>
      (upcoming.map (maintenanceRound now)).flatten

/-- The method `getCooldownForAlertType`, read at a rule type. -/
def getCooldownForAlertType (type : String) : Int :=
  if type = "Speeding" then 5 * 60 * 1000
  else if type = "GeofenceEnter" then 1 * 60 * 1000
  else if type = "GeofenceExit" then 1 * 60 * 1000
  else if type = "FuelDrop" then 30 * 60 * 1000
  else if type = "IgnitionOn" then 1 * 60 * 1000
  else if type = "IgnitionOff" then 1 * 60 * 1000
  else if type = "MaintenanceDue" then 24 * 60 * 60 * 1000
  else if type = "DeviceOffline" then 15 * 60 * 1000
  else 5 * 60 * 1000

/-- The call `alertCooldowns.get(key)` for the key of a vehicle and a type. -/
def cooldownOf (s : EngineState) (vehicleId : Option Nat) (type : String) : Option Int :=
  (s.alertCooldowns.find? fun kv => kv.1 == (vehicleId, type)).map fun kv => kv.2

/-- The method `shouldCreateAlert`; the last component is `none` when the
query for an open alert throws. -/
def shouldCreateAlert (now : Int) (s : EngineState) (alertData : Candidate) (device : Device) :
    EngineState × Option Bool :=
  let inCooldown : Bool :=
    match cooldownOf s device.vehicleId alertData.type with
    | some lastAlertTime => decide (now - lastAlertTime < getCooldownForAlertType alertData.type)
    | none => false
  if inCooldown then (s, some false)
  else
    let s1 := { s with world := s.world.log (Effect.alertFindOne device.id alertData.type) }
    if !s.world.dbUp then (s1, none)
    else
      let existingAlert := s.world.alerts.find? fun a =>
        a.deviceId == device.id && a.type == alertData.type && a.status == "New" &&
        decide (now - 5 * 60 * 1000 ≤ a.createdAt)
      (s1, some existingAlert.isNone)

/-- The method `createAlert`; the second component is `false` when `save`
throws, which the method rethrows. The event sent through Inngest is
traced as a publication of `alert.created`. -/
def createAlert (now : Int) (s : EngineState) (alertData : Candidate) (device : Device) :
    EngineState × Bool :=
  let alert : Alert :=
    { tenantId := device.tenantId, vehicleId := device.vehicleId, deviceId := device.id,
      type := alertData.type, severity := alertData.severity, status := "New",
      createdAt := now }
  let w1 := s.world.log (Effect.alertSave device.id alertData.type)
  if !s.world.dbUp || !alertValid alert then ({ s with world := w1 }, false)
  else
    ({ s with
        world := (({ w1 with alerts := w1.alerts ++ [alert] }).log
          (Effect.publish "alert_created")).log (Effect.publish "alert.created")
        alertCooldowns := ((device.vehicleId, alertData.type), now) :: s.alertCooldowns },
      true)

/-- The loop of `checkAlerts` over the candidates; the second component is
`false` when a round throws, which ends the loop. -/
def createLoop (now : Int) (device : Device) : List Candidate → EngineState → EngineState × Bool
  | [], s => (s, true)
  | alert :: rest, s =>
    match shouldCreateAlert now s alert device with
    | (s1, none) => (s1, false)
    | (s1, some false) => createLoop now device rest s1
    | (s1, some true) =>
      match createAlert now s1 alert device with
      | (s2, false) => (s2, false)
      | (s2, true) => createLoop now device rest s2

/-- The method `checkAlerts`: the candidates of the five checks in order,
then the loop; `none` when it throws. -/
def checkAlerts (C : Conversions) (now : Int) (s : EngineState) (gpsData : GPSRecord)
    (device : Device) : EngineState × Option (List Candidate) :=
  let speeding := checkSpeeding C now s.redis gpsData device
  let geofence := checkGeofence now s.redis gpsData device
  let fuel := checkFuel C now geofence.2 gpsData device
  let ignition := checkIgnition now fuel.2 gpsData device
  let s1 := { s with redis := ignition.2 }
  match checkMaintenance now s1 device with
  | none => (s1, none)
  | some maintenance =>
    let alerts := speeding ++ geofence.1 ++ fuel.1 ++ ignition.1 ++ maintenance
    match createLoop now device alerts s1 with
    | (s2, true) => (s2, some alerts)
    | (s2, false) => (s2, none)

/-- A sequential run: `checkAlerts` called once for each entry, in order,
on the state the previous call left (also when that call threw). -/
def run (C : Conversions) : List (Int × GPSRecord × Device) → EngineState → EngineState
  | [], s => s
  | step :: rest, s => run C rest (checkAlerts C step.1 s step.2.1 step.2.2).1

end EnhancedAlertEngine

/-- The invariant of a run at instant `now`: the stored alerts are those of
`base` followed by the ones created since, none created after `now`; each
created alert has a cooldown entry for its vehicle and type that is not
older than the alert; and two created alerts of one vehicle and type lie a
cooldown apart. -/
def CooldownInv (base : List Alert) (now : Int) (s : EngineState) : Prop :=
  ∃ created, s.world.alerts = base ++ created ∧
    (∀ a ∈ created, a.createdAt ≤ now) ∧
    (∀ a ∈ created, ∃ last,
      EnhancedAlertEngine.cooldownOf s a.vehicleId a.type = some last ∧ a.createdAt ≤ last) ∧
    created.Pairwise fun a b => a.vehicleId = b.vehicleId → a.type = b.type →
      EnhancedAlertEngine.getCooldownForAlertType a.type ≤ b.createdAt - a.createdAt

/-! ## `backend/services/gpsServer.js`: release of a connection -/

/-- The property `clientId` of an entry of `connectedDevices`. The entries
are written by `getOrRegisterDevice` alone, with the properties `device`,
`lastUpdate` and `connectionCount`, so the read gives `undefined` (`none`). -/
def SessionInfo.clientId (_info : SessionInfo) : Option (List Char) := none

/-- The server object: the world, which holds `connectedDevices`, and the
map `deviceBuffers` from an identifier to buffered text. -/
structure GPSServer where
  world : World
  deviceBuffers : List (List Char × List Char)
  deriving DecidableEq

/-- The method `findIMEIByClientId`: the key of the first entry whose
`clientId` is the given string; `none` is `null`. -/
def findIMEIByClientId (w : World) (clientId : List Char) : Option (List Char) :=
  (w.connectedDevices.find? fun kv => kv.2.clientId == some clientId).map fun kv => kv.1

/-- The method `cleanupDevice`, which the `error` and `close` handlers of a
socket call with the client id of the connection. -/
def cleanupDevice (s : GPSServer) (clientId : List Char) : GPSServer :=
  match findIMEIByClientId s.world clientId with
  | none => s
  | some imei =>
    if imei.isEmpty then s
    else
      { world := { s.world with
          connectedDevices := s.world.connectedDevices.filter fun kv => !(kv.1 == imei) }
        deviceBuffers := s.deviceBuffers.filter fun kv => !(kv.1 == imei) }

/-! ## `backend/services/gpsServer.js`: the patterns that decide the identifier -/

/-- Patterns 1, 2 and 5 of `imeiPatterns`: `/imei:(\d{15})/i`, `/(\d{15})/`
and `/^([0-9A-F]{30})/`. -/
def imeiPatternsReduced : List Pattern :=
  [ [litCI 'i' 'I', litCI 'm' 'M', litCI 'e' 'E', litCI 'i' 'I', lit ':', Item.gopen]
      ++ rep 15 digit ++ [Item.gclose],
    [Item.gopen] ++ rep 15 digit ++ [Item.gclose],
    [Item.bos, Item.gopen] ++ rep 30 (Item.chr isHexUpper) ++ [Item.gclose] ]

/-- The resolver that tries patterns 1, 2 and 5 only, in that order. -/
def extractIMEIReduced (dataString : List Char) : Option (List Char) :=
  extractIMEILoop imeiPatternsReduced dataString

/-- The string starts with `n` characters of the class `p`. -/
def startsWithRun (p : Char → Bool) : Nat → List Char → Bool
  | 0, _ => true
  | _ + 1, [] => false
  | n + 1, c :: s => p c && startsWithRun p n s

/-- The string holds `n` consecutive characters of the class `p` somewhere. -/
def hasRun (p : Char → Bool) (n : Nat) : List Char → Bool
  | [] => startsWithRun p n []
  | c :: s => startsWithRun p n (c :: s) || hasRun p n s

/-! ## `backend/controllers/trackingController.js` -/

/-- The handler `receiveData` on a request body whose `imei`, `data` and
`protocol` are strings or absent. The second component is the status of the
response: 200 for `res.json`, else the status set before it. -/
def receiveData (P : Platform) (now : Int) (w : World) (imei data protocol : Option (List Char)) :
    World × Nat :=
  match imei, data with
  | some imei, some data =>
    if imei.isEmpty || data.isEmpty then (w, 400)
    else
      let w0 := w.log (Effect.deviceFindOne imei)
      if !w.dbUp then (w0, 500)
      else
        match w.devices.find? fun d => d.imei == imei with
        | none => (w0, 404)
        | some device =>
          let brand : List Char :=
            match protocol with
            | some p => if p.isEmpty then device.brand else p
            | none => device.brand
          match parseData P now data brand with
          | Except.error _ => (w0, 400)
          | Except.ok Decoded.other => (w0.log (Effect.fixSave device.id), 500)
          | Except.ok (Decoded.fix parsedData) =>
            let timestamp : JSDate :=
              match parsedData.timestamp with
              | some t => t
              | none => JSDate.at now
            let gpsData : GPSRecord :=
              { deviceId := device.id, vehicleId := device.vehicleId,
                fix := { parsedData with timestamp := some timestamp }, rawData := data }
            let w1 := w0.log (Effect.fixSave device.id)
            if !fixValid gpsData then (w1, 500)
            else
              let w2 := { w1 with fixes := w1.fixes ++ [gpsData] }
              let device1 :=
                { device with lastSeen := some (JSDate.at now), status := "Connected" }
              match saveDevice w2 device1 with
              | (w3, false) => (w3, 500)
              | (w3, true) =>
                let w4 :=
                  match device1.vehicleId with
                  | none => w3
                  | some vid => (updateVehicle now w3 vid parsedData).log (Effect.vehicleUpdate vid)
                match checkAlerts now gpsData device1 w4 with
                | (w5, false) => (w5, 500)
                | (w5, true) => (w5, 200)
  | _, _ => (w, 400)

/-! ## `backend/services/eventHandlers.js` -/

/-- The relation `a >= b`; false as soon as one side is `NaN`. -/
def JSNum.ge : JSNum → JSNum → Bool
  | JSNum.fin a, JSNum.fin b => decide (b ≤ a)
  | JSNum.nan, _ => false
  | _, JSNum.nan => false
  | JSNum.posInf, _ => true
  | _, JSNum.negInf => true
  | JSNum.negInf, _ => false
  | _, JSNum.posInf => false

/-- The expression `x + 1`: a number, a boolean, `null` and `undefined` are
added to as numbers; a string, and an object through its text, is
concatenated with `1`. -/
def JSVal.plusOne : JSVal → JSVal
  | JSVal.undefined => JSVal.num JSNum.nan
  | JSVal.null => JSVal.num (JSNum.fin 1)
  | JSVal.bool b => JSVal.num (JSNum.fin (if b then 2 else 1))
  | JSVal.num n => JSVal.num (n.add (JSNum.fin 1))
  | JSVal.str s => JSVal.str (s ++ ['1'])
  | JSVal.object t => JSVal.str (t ++ ['1'])

/-- The method `handleExcessiveErrors`, with its own `try`/`catch`. The
update sets the status (the `config` of a device is not modelled) and leaves
no entry in the trace; the publication does. -/
def handleExcessiveErrors (w : World) (deviceId : Nat) : World :=
  if !w.dbUp then w
  else
    ({ w with devices := w.devices.map fun (d : Device) =>
        if d.id == deviceId then { d with status := "Disabled" } else d }).log
      (Effect.publish "device_disabled")

/-- The method `handleGPSProcessingError`, the subscriber of the channel
`gps_processing_error`, for the device id of the message. -/
def handleGPSProcessingError (C : Conversions) (now : Int) (s : World × Redis) (deviceId : Nat) :
    World × Redis :=
  let r1 := s.2.set now (RedisKey.lastError (some deviceId))
    (JSVal.object "[object Object]".toList) 3600
  let errorCount :=
    (r1.get now (RedisKey.errorCount (some deviceId))).or (JSVal.num (JSNum.fin 0))
  let r2 := r1.set now (RedisKey.errorCount (some deviceId)) errorCount.plusOne 3600
  if (errorCount.plusOne.toNumber C).ge (JSNum.fin 10) then
    (handleExcessiveErrors s.1 deviceId, r2)
  else (s.1, r2)

/-- The handler called once for each instant of a list, in order: one
processing error of the device at each instant. -/
def errorsAt (C : Conversions) (deviceId : Nat) : List Int → World × Redis → World × Redis
  | [], s => s
  | now :: rest, s => errorsAt C deviceId rest (handleGPSProcessingError C now s deviceId)

/-! ## Concrete inputs -/

/-- A platform for concrete evaluation: `moment` reads every text as
2023-10-01 08:30:15 UTC, `JSON.parse` rejects every text. -/
def samplePlatform : Platform :=
  { momentUtc := fun _ _ => JSDate.at 1696149015000
    jsonParse := fun _ => none
    newDate := fun _ => JSDate.invalid
    protoText := fun _ => [] }

/-- A world with a running database and empty stores. -/
def emptyWorld : World :=
  { dbUp := true, devices := [], fixes := [], vehicles := [], alerts := [],
    connectedDevices := [], trace := [] }

/-- A world with a running database and one registered Teltonika device on
a stream connection, with no vehicle. -/
def worldTeltonika : World :=
  { dbUp := true
    devices := [{ id := 1, tenantId := some 1, vehicleId := none,
                  imei := "123456789012345".toList, brand := "Teltonika".toList,
                  protocol := some "TCP".toList, status := "Connected", lastSeen := none }]
    fixes := [], vehicles := [], alerts := [], connectedDevices := [], trace := [] }

/-- A frame with a device identifier that is not in the Teltonika layout and
holds a decimal pair far out of range. -/
def frameOutOfRange : List Char := "imei:123456789012345,999.5,999.5".toList

/-- A Teltonika frame on the equator: latitude 0, longitude 36.8. -/
def frameEquator : List Char :=
  "123456789012345,2023-10-01 08:30:15,0,36.8,0,45,90,1600,1,0".toList

/-- The same frame with the latitude written `0.0`. -/
def frameEquatorDecimal : List Char :=
  "123456789012345,2023-10-01 08:30:15,0.0,36.8,0,45,90,1600,1,0".toList

/-- The frame of the scenario of the specification: ten fields. -/
def frameSpecConcox : List Char := "20231001,,083015,-1.2345,S,36.5678,E,45,90,1".toList

/-- The values of the scenario in the layout of the Concox decoder: fifteen fields. -/
def frameConcox15 : List Char :=
  "231001,083015,1.2345,S,36.5678,E,45,90,0,0,0,1,0,0,0".toList

/-- A Concox frame whose latitude field carries its own minus sign. -/
def frameConcoxSigned : List Char :=
  "231001,083015,-1.2345,S,36.5678,E,45,90,0,0,0,1,0,0,0".toList

/-- A Queclink frame at 01 degrees 30 minutes north, 036 degrees 30 minutes east. -/
def frameQueclink : List Char :=
  "$GPRMC,083015.000,A,0130.0000,N,03630.0000,E,10.0,90.0,011023".toList

/-- A frame for the first fallback pattern: 12 degrees 30 minutes 15.5
seconds north, 36 degrees 30 minutes 15.5 seconds east. -/
def frameDms : List Char := "123015.500,N,0363015.500,E".toList

/-- A frame that carries no device identifier. -/
def frameNoImei : List Char := "hello world nothing".toList

/-- A device linked to tenant 1 and vehicle 7, on a stream connection. -/
def deviceLinked : Device :=
  { id := 1, tenantId := some 1, vehicleId := some 7, imei := "123456789012345".toList,
    brand := "Teltonika".toList, protocol := some "TCP".toList, status := "Connected",
    lastSeen := some (JSDate.at 1696149015000) }

/-- A world with a running database, the linked device and its vehicle. -/
def worldLinked : World :=
  { dbUp := true, devices := [deviceLinked]
    vehicles := [{ id := 7, tenantId := 1, currentLocation := none, odometer := JSNum.fin 0 }]
    fixes := [], alerts := [], connectedDevices := [], trace := [] }

/-- The world of the linked device after an operator or the error handler
set its status to `Disabled`. -/
def worldDisabled : World :=
  { worldLinked with devices := [{ deviceLinked with status := "Disabled" }] }

/-- A well-formed Teltonika frame of the linked device, near Nairobi. -/
def frameTeltonika : List Char :=
  "123456789012345,2023-10-01 08:30:15,-1.2345,36.5678,0,45,90,1600,1,0".toList

/-- A Teltonika frame whose date field is no date. -/
def frameBadDate : List Char :=
  "123456789012345,not-a-date,-1.2345,36.5678,0,45,90,1600,1,0".toList

/-- A platform on which `moment` finds no date in any text. -/
def invalidDatePlatform : Platform :=
  { momentUtc := fun _ _ => JSDate.invalid
    jsonParse := fun _ => none
    newDate := fun _ => JSDate.invalid
    protoText := fun _ => [] }

/-- A stored fix of the linked device with a given speed and ignition. -/
def recordOf (speed : ℚ) (ignition : Bool) (t : Int) : GPSRecord :=
  { deviceId := 1, vehicleId := some 7, rawData := []
    fix := { lat := JSNum.fin (-(2469 / 2000)), lng := JSNum.fin (182839 / 5000),
             speed := JSNum.fin speed, heading := JSNum.fin 90, altitude := none,
             ignition := some ignition, fuelLevel := none, batteryLevel := none,
             odometer := none, timestamp := some (JSDate.at t) } }

/-- The linked device, last seen sixteen minutes before 1696150000000. -/
def deviceSilent : Device := { deviceLinked with lastSeen := some (JSDate.at 1696149040000) }

/-- A world in which the silent device is the only one. -/
def worldSilent : World := { worldLinked with devices := [deviceSilent] }

/-- The world of the silent device with a `DeviceOffline` alert of an earlier
outage still open. -/
def worldSilentOpenAlert : World :=
  { worldSilent with alerts :=
      [{ tenantId := some 1, vehicleId := some 7, deviceId := 1, type := "DeviceOffline",
         severity := "Medium", status := "New", createdAt := 1696000000000 }] }

/-- A world whose only device is silent and linked to no vehicle. -/
def worldSilentNoVehicle : World :=
  { worldLinked with devices := [{ deviceSilent with vehicleId := none }] }

/-- Conversions for concrete evaluation: no string is a number. -/
def sampleConversions : Conversions := { stringToNumber := fun _ => JSNum.nan }

/-- An engine instance that has created nothing, over the world of the
linked device, with an empty Redis. -/
def engineFresh : EngineState :=
  { world := worldLinked, redis := { up := true, entries := [] }, maintenance := [],
    alertCooldowns := [] }

/-- A Redis holding the speed limit 100 for tenant 1. -/
def redisLimit100 : Redis :=
  { up := true
    entries := [{ key := RedisKey.speedLimit (some 1), value := JSVal.num (JSNum.fin 100),
                  expiresAt := 1696160000000 }] }

/-- A socket: it has a `write` method. -/
def socket : Connection := { hasWrite := true }

/-- A Redis holding the fuel level 50 for vehicle 7. -/
def redisFuel50 : Redis :=
  { up := true
    entries := [{ key := RedisKey.fuelLevel (some 7), value := JSVal.num (JSNum.fin 50),
                  expiresAt := 3600000 }] }

/-- A stored fix of the linked device with a given fuel level. -/
def recordFuel (fuel : ℚ) : GPSRecord :=
  { deviceId := 1, vehicleId := some 7, rawData := []
    fix := { lat := JSNum.fin (-(2469 / 2000)), lng := JSNum.fin (182839 / 5000),
             speed := JSNum.fin 45, heading := JSNum.fin 90, altitude := none,
             ignition := some true, fuelLevel := some (JSNum.fin fuel), batteryLevel := none,
             odometer := none, timestamp := some (JSDate.at 1000) } }

/-- An engine over the world of the linked device whose vehicle has one
maintenance record, due at 1696710615000 (six and a half days after
1696149015000). -/
def engineService : EngineState :=
  { engineFresh with
    maintenance := [{ id := 3, vehicleId := 7, description := "Oil change".toList,
                      nextDueDate := some 1696710615000 }] }

/-- The fresh engine after it created a `Speeding` alert for the linked
device at instant 1000: the alert is stored and the cooldown entry is set. -/
def engineCooling : EngineState :=
  { engineFresh with
    alertCooldowns := [((some 7, "Speeding"), 1000)]
    world := { engineFresh.world with
      alerts := [{ tenantId := some 1, vehicleId := some 7, deviceId := 1, type := "Speeding",
                   severity := "Medium", status := "New", createdAt := 1000 }] } }

/-- A Custom frame with a fuel reading of 0:
`{"lat":-1.2345,"lng":36.5678,"speed":45,"ignition":true,"fuel":0}`. -/
def frameCustomFuelZero : List Char :=
  "\x7b\x22lat\x22:-1.2345,\x22lng\x22:36.5678,\x22speed\x22:45,\x22ignition\x22:true,\x22fuel\x22:0\x7d".toList

/-- The same frame without the fuel reading:
`{"lat":-1.2345,"lng":36.5678,"speed":45,"ignition":true}`. -/
def frameCustomNoFuel : List Char :=
  "\x7b\x22lat\x22:-1.2345,\x22lng\x22:36.5678,\x22speed\x22:45,\x22ignition\x22:true\x7d".toList

/-- A Custom frame on the prime meridian:
`{"lat":51.4779,"lng":0,"speed":45,"ignition":true}`. -/
def frameCustomMeridian : List Char :=
  "\x7b\x22lat\x22:51.4779,\x22lng\x22:0,\x22speed\x22:45,\x22ignition\x22:true\x7d".toList

/-- The properties of the frame with the fuel reading of 0. -/
def propsFuelZero : List (List Char × JSVal) :=
  [("lat".toList, JSVal.num (JSNum.fin (-(2469 / 2000)))),
   ("lng".toList, JSVal.num (JSNum.fin (182839 / 5000))),
   ("speed".toList, JSVal.num (JSNum.fin 45)),
   ("ignition".toList, JSVal.bool true),
   ("fuel".toList, JSVal.num (JSNum.fin 0))]

/-- The properties of the frame on the prime meridian. -/
def propsMeridian : List (List Char × JSVal) :=
  [("lat".toList, JSVal.num (JSNum.fin (514779 / 10000))),
   ("lng".toList, JSVal.num (JSNum.fin 0)),
   ("speed".toList, JSVal.num (JSNum.fin 45)),
   ("ignition".toList, JSVal.bool true)]

/-- A platform whose `JSON.parse` reads the three Custom frames above and
rejects every other text. -/
def jsonPlatform : Platform :=
  { momentUtc := fun _ _ => JSDate.at 1696149015000
    jsonParse := fun text =>
      if text = frameCustomFuelZero then some (JsonRoot.value propsFuelZero)
      else if text = frameCustomNoFuel then
        some (JsonRoot.value (propsFuelZero.filter fun kv => !(kv.1 == "fuel".toList)))
      else if text = frameCustomMeridian then some (JsonRoot.value propsMeridian)
      else none
    newDate := fun _ => JSDate.invalid
    protoText := fun _ => [] }

/-- Ten instants, one every 59 minutes: the last is 8 hours 51 minutes
after the first. -/
def errorInstants : List Int :=
  [0, 3540000, 7080000, 10620000, 14160000, 17700000, 21240000, 24780000, 28320000, 31860000]

/-- A Redis that answers and holds nothing. -/
def redisEmpty : Redis := { up := true, entries := [] }

/-- The fix the Teltonika decoder reads from `frameTeltonika`. -/
def fixTeltonika : Fix :=
  { lat := JSNum.fin (-(2469 / 2000)), lng := JSNum.fin (182839 / 5000), speed := JSNum.fin 45,
    heading := JSNum.fin 90, altitude := some (JSNum.fin 1600), ignition := some true,
    fuelLevel := none, batteryLevel := none, odometer := none,
    timestamp := some (JSDate.at 1696149015000) }

/-- The world of the linked device with 52000 on the odometer of its vehicle. -/
def worldOdometer : World :=
  { worldLinked with
    vehicles := [{ id := 7, tenantId := 1, currentLocation := none,
                   odometer := JSNum.fin 52000 }] }

/-- The fields of `frameTeltonika`. -/
def fieldsTeltonika : List (List Char) :=
  ["123456789012345".toList, "2023-10-01 08:30:15".toList, "-1.2345".toList, "36.5678".toList,
   "0".toList, "45".toList, "90".toList, "1600".toList, "1".toList, "0".toList]

/-- The fields of `frameConcox15`. -/
def fieldsConcox : List (List Char) :=
  ["231001".toList, "083015".toList, "1.2345".toList, "S".toList, "36.5678".toList, "E".toList,
   "45".toList, "90".toList, "0".toList, "0".toList, "0".toList, "1".toList, "0".toList,
   "0".toList, "0".toList]

/-- A Redis holding the speed limit 50.8, as the double nearest to it, for
tenant 1. -/
def redisLimit508 : Redis :=
  { up := true
    entries := [{ key := RedisKey.speedLimit (some 1), value := JSVal.num (JSNum.ofRat (254 / 5)),
                  expiresAt := 1696160000000 }] }

/-- A stored fix of the linked device whose speed is the double nearest to
66.04. -/
def recordSpeed6604 : GPSRecord :=
  { deviceId := 1, vehicleId := some 7, rawData := []
    fix := { lat := JSNum.fin (-(2469 / 2000)), lng := JSNum.fin (182839 / 5000),
             speed := JSNum.ofRat (1651 / 25), heading := JSNum.fin 90, altitude := none,
             ignition := some true, fuelLevel := none, batteryLevel := none,
             odometer := none, timestamp := some (JSDate.at 1000) } }

/-- A Redis holding the fuel level 20.1, as the double nearest to it, for
vehicle 7. -/
def redisFuel201 : Redis :=
  { up := true
    entries := [{ key := RedisKey.fuelLevel (some 7), value := JSVal.num (JSNum.ofRat (201 / 10)),
                  expiresAt := 3600000 }] }

/-- A stored fix of the linked device whose fuel level is the double nearest
to 10.1. -/
def recordFuel101 : GPSRecord :=
  { deviceId := 1, vehicleId := some 7, rawData := []
    fix := { lat := JSNum.fin (-(2469 / 2000)), lng := JSNum.fin (182839 / 5000),
             speed := JSNum.fin 45, heading := JSNum.fin 90, altitude := none,
             ignition := some true, fuelLevel := some (JSNum.ofRat (101 / 10)),
             batteryLevel := none, odometer := none, timestamp := some (JSDate.at 1000) } }

/-- The fields of a Teltonika frame on the prime meridian. -/
def fieldsTeltonikaMeridian : List (List Char) :=
  ["123456789012345".toList, "2023-10-01 08:30:15".toList, "51.4779".toList, "0".toList,
   "0".toList, "45".toList, "90".toList, "1600".toList, "1".toList, "0".toList]

/-- The fields of a Concox frame on the prime meridian. -/
def fieldsConcoxMeridian : List (List Char) :=
  ["231001".toList, "083015".toList, "51.4779".toList, "N".toList, "0".toList, "E".toList,
   "45".toList, "90".toList, "0".toList, "0".toList, "0".toList, "1".toList, "0".toList,
   "0".toList, "0".toList]

/-! ## Lemmas on the matcher -/

theorem starK_some {p : Char → Bool}
    {k : Bool → List Char → Option (List Char) → Option (List (List Char))}
    {Q : List (List Char) → Prop}
    (hk : ∀ a s cur m, k a s cur = some m → Q m) :
    ∀ (s : List Char) (a : Bool) (cur : Option (List Char)) (m : List (List Char)),
      starK p k a s cur = some m → Q m := by
  intro s
  induction s with
  | nil => intro a cur m h; exact hk _ _ _ _ (by simpa [starK] using h)
  | cons c s ih =>
    intro a cur m h
    simp only [starK] at h
    split at h
    · split at h
      · rename_i r hr
        cases h
        exact ih _ _ _ hr
      · exact hk _ _ _ _ h
    · exact hk _ _ _ _ h

theorem matchHere_caps_prefix :
    ∀ (re : Pattern) (a : Bool) (s : List Char) (cur : Option (List Char))
      (caps m : List (List Char)),
      matchHere re a s cur caps = some m → ∃ rest, m = caps ++ rest := by
  intro re
  induction re with
  | nil =>
    intro a s cur caps m h
    simp only [matchHere, Option.some.injEq] at h
    exact ⟨[], by simp [h]⟩
  | cons x r ih =>
    intro a s cur caps m h
    cases x with
    | chr p =>
      cases s with
      | nil => simp [matchHere] at h
      | cons c t =>
        simp only [matchHere] at h
        split at h
        · exact ih _ _ _ _ _ h
        · cases h
    | opt p =>
      cases s with
      | nil => simp only [matchHere] at h; exact ih _ _ _ _ _ h
      | cons c t =>
        simp only [matchHere] at h
        split at h
        · split at h
          · rename_i res hres
            cases h
            exact ih _ _ _ _ _ hres
          · exact ih _ _ _ _ _ h
        · exact ih _ _ _ _ _ h
    | star p =>
      simp only [matchHere] at h
      exact starK_some (fun a1 s1 cur1 m1 h1 => ih a1 s1 cur1 caps m1 h1) _ _ _ _ h
    | gopen => simp only [matchHere] at h; exact ih _ _ _ _ _ h
    | gclose =>
      simp only [matchHere] at h
      obtain ⟨rest, hrest⟩ := ih _ _ _ _ _ h
      exact ⟨[cur.getD []] ++ rest, by simp [hrest]⟩
    | bos =>
      simp only [matchHere] at h
      split at h
      · exact ih _ _ _ _ _ h
      · cases h

theorem matchHere_plain_prefix :
    ∀ (pre : Pattern), (∀ x ∈ pre, x.isPlain = true) →
    ∀ (rest : Pattern) (a : Bool) (s : List Char) (caps m : List (List Char)),
      matchHere (pre ++ rest) a s none caps = some m →
      ∃ a1 s1, matchHere rest a1 s1 none caps = some m := by
  intro pre
  induction pre with
  | nil => intro _ rest a s caps m h; exact ⟨a, s, by simpa using h⟩
  | cons x pre ih =>
    intro hp rest a s caps m h
    have hx : x.isPlain = true := hp x (List.mem_cons_self _ _)
    have hpre : ∀ y ∈ pre, y.isPlain = true := fun y hy => hp y (List.mem_cons_of_mem _ hy)
    cases x with
    | chr p =>
      cases s with
      | nil => simp [matchHere] at h
      | cons c t =>
        simp only [List.cons_append, matchHere] at h
        split at h
        · exact ih hpre rest _ _ _ _ (by simpa [pushCur] using h)
        · cases h
    | bos =>
      simp only [List.cons_append, matchHere] at h
      split at h
      · exact ih hpre rest _ _ _ _ h
      · cases h
    | opt p => simp [Item.isPlain] at hx
    | star p => simp [Item.isPlain] at hx
    | gopen => simp [Item.isPlain] at hx
    | gclose => simp [Item.isPlain] at hx

theorem matchHere_rep_chr (p : Char → Bool) :
    ∀ (n : Nat) (rest : Pattern) (a : Bool) (s g : List Char) (caps m : List (List Char)),
      matchHere (rep n (Item.chr p) ++ rest) a s (some g) caps = some m →
      ∃ t a1 s1, t.length = n ∧ matchHere rest a1 s1 (some (g ++ t)) caps = some m := by
  intro n
  induction n with
  | zero =>
    intro rest a s g caps m h
    exact ⟨[], a, s, rfl, by simpa [rep] using h⟩
  | succ n ih =>
    intro rest a s g caps m h
    cases s with
    | nil => simp [rep, List.replicate_succ, matchHere] at h
    | cons c t =>
      simp only [rep, List.replicate_succ, List.cons_append, matchHere] at h
      split at h
      · obtain ⟨u, a1, s1, hu, hm⟩ := ih rest false t (g ++ [c]) caps m (by simpa [rep, pushCur] using h)
        exact ⟨c :: u, a1, s1, by simp [hu], by simpa using hm⟩
      · cases h

theorem searchFrom_some (re : Pattern) :
    ∀ (s : List Char) (a : Bool) (m : List (List Char)),
      searchFrom re a s = some m → ∃ a1 s1, matchHere re a1 s1 none [] = some m := by
  intro s
  induction s with
  | nil => intro a m h; exact ⟨a, [], by simpa [searchFrom] using h⟩
  | cons c s ih =>
    intro a m h
    simp only [searchFrom] at h
    split at h
    · rename_i r hr
      cases h
      exact ⟨a, c :: s, hr⟩
    · exact ih _ _ h

/-- A match of a pattern whose first group is `(x{n})` for a class `x`,
after a run of plain items, captures `n` characters in group 1. -/
theorem jsMatch_group1_length (pre post : Pattern) (p : Char → Bool) (n : Nat)
    (hpre : pre.all Item.isPlain = true) (s : List Char) (m : List (List Char))
    (h : jsMatch (pre ++ ([Item.gopen] ++ (rep n (Item.chr p) ++ (Item.gclose :: post)))) s = some m) :
    (group m 1).length = n := by
  obtain ⟨a1, s1, h1⟩ := searchFrom_some _ _ _ _ h
  obtain ⟨a2, s2, h2⟩ := matchHere_plain_prefix pre (List.all_eq_true.mp hpre) _ _ _ _ _ h1
  simp only [List.singleton_append, matchHere] at h2
  obtain ⟨t, a3, s3, ht, h3⟩ := matchHere_rep_chr p n _ _ _ _ _ _ h2
  simp only [matchHere] at h3
  obtain ⟨rest, hrest⟩ := matchHere_caps_prefix _ _ _ _ _ _ h3
  simp [hrest, group, ht]


theorem imeiPatterns_group1 (p : Pattern) (hp : p ∈ imeiPatterns) (s : List Char)
    (m : List (List Char)) (h : jsMatch p s = some m) : 15 ≤ (group m 1).length := by
  simp only [imeiPatterns, List.mem_cons, List.mem_singleton, List.not_mem_nil, or_false] at hp
  rcases hp with rfl | rfl | rfl | rfl | rfl | rfl
  · exact (jsMatch_group1_length
      [litCI 'i' 'I', litCI 'm' 'M', litCI 'e' 'E', litCI 'i' 'I', lit ':'] [] isDigit 15 rfl s m h).ge
  · exact (jsMatch_group1_length [] [] isDigit 15 rfl s m h).ge
  · exact (jsMatch_group1_length ([Item.bos] ++ lits "##,imei:".toList) [lit ','] isDigit 15 rfl s m h).ge
  · exact (jsMatch_group1_length ([Item.bos, lit '*'] ++ rep 2 (Item.chr isUpper) ++ [lit ','])
      [lit ','] isDigit 15 rfl s m h).ge
  · exact le_trans (by decide) (jsMatch_group1_length [Item.bos] [] isHexUpper 30 rfl s m h).ge
  · exact (jsMatch_group1_length [] [lit ',', Item.star isDot, lit ',',
      Item.star isDot, lit ',', Item.star isDot, lit ',', Item.star isDot, lit ','] isDigit 15 rfl s m h).ge

theorem extractIMEILoop_none (s : List Char) :
    ∀ (ps : List Pattern), (∀ p ∈ ps, ∀ m, jsMatch p s = some m → group m 1 ≠ []) →
      (extractIMEILoop ps s = none ↔ ∀ p ∈ ps, jsMatch p s = none) := by
  intro ps
  induction ps with
  | nil => intro _; simp [extractIMEILoop]
  | cons p ps ih =>
    intro hps
    have ih1 := ih fun q hq => hps q (List.mem_cons_of_mem _ hq)
    cases hm : jsMatch p s with
    | none => simp [extractIMEILoop, hm, ih1]
    | some m =>
      have hne : group m 1 ≠ [] := hps p (List.mem_cons_self _ _) m hm
      simp [extractIMEILoop, hm, hne]

theorem extractIMEILoop_some (s : List Char) :
    ∀ (ps : List Pattern), (∀ p ∈ ps, ∀ m, jsMatch p s = some m → group m 1 ≠ []) →
      ∀ g, (extractIMEILoop ps s = some g ↔
        ∃ pre p post m, ps = pre ++ p :: post ∧ (∀ q ∈ pre, jsMatch q s = none) ∧
          jsMatch p s = some m ∧ group m 1 = g) := by
  intro ps
  induction ps with
  | nil => intro _ g; simp [extractIMEILoop]
  | cons p ps ih =>
    intro hps g
    have ih1 := ih (fun q hq => hps q (List.mem_cons_of_mem _ hq)) g
    cases hm : jsMatch p s with
    | none =>
      simp only [extractIMEILoop, hm]
      rw [ih1]
      constructor
      · rintro ⟨pre, q, post, m, hsplit, hpre, hq, hg⟩
        refine ⟨p :: pre, q, post, m, by simp [hsplit], ?_, hq, hg⟩
        intro r hr
        rcases List.mem_cons.mp hr with rfl | hr
        · exact hm
        · exact hpre r hr
      · rintro ⟨pre, q, post, m, hsplit, hpre, hq, hg⟩
        cases pre with
        | nil =>
          simp only [List.nil_append, List.cons.injEq] at hsplit
          rw [← hsplit.1, hm] at hq
          cases hq
        | cons r pre =>
          simp only [List.cons_append, List.cons.injEq] at hsplit
          exact ⟨pre, q, post, m, hsplit.2, fun x hx => hpre x (List.mem_cons_of_mem _ hx), hq, hg⟩
    | some m =>
      have hne : group m 1 ≠ [] := hps p (List.mem_cons_self _ _) m hm
      simp only [extractIMEILoop, hm]
      have hemp : (group m 1).isEmpty = false := by
        cases hgm : group m 1 with
        | nil => exact absurd hgm hne
        | cons _ _ => rfl
      simp only [hemp, Bool.not_false, if_true, Option.some.injEq]
      constructor
      · intro hg
        exact ⟨[], p, ps, m, rfl, by simp, hm, hg⟩
      · rintro ⟨pre, q, post, m1, hsplit, hpre, hq, hg⟩
        cases pre with
        | nil =>
          simp only [List.nil_append, List.cons.injEq] at hsplit
          rw [← hsplit.1, hm] at hq
          cases hq
          exact hg
        | cons r pre =>
          simp only [List.cons_append, List.cons.injEq] at hsplit
          have := hpre r (List.mem_cons_self _ _)
          rw [← hsplit.1, hm] at this
          cases this

theorem imeiPatterns_group1_ne (s : List Char) :
    ∀ p ∈ imeiPatterns, ∀ m, jsMatch p s = some m → group m 1 ≠ [] := by
  intro p hp m h hnil
  have := imeiPatterns_group1 p hp s m h
  rw [hnil] at this
  simp at this

/-- C9. `extractIMEI` returns `null` exactly when none of the six patterns
matches, and otherwise capture group 1 of the first pattern, in list order,
that matches. -/
theorem extractIMEI_first_match (s : List Char) :
    imeiPatterns.length = 6 ∧
    (extractIMEI s = none ↔ ∀ p ∈ imeiPatterns, jsMatch p s = none) ∧
    (∀ g, extractIMEI s = some g ↔
      ∃ pre p post m, imeiPatterns = pre ++ p :: post ∧ (∀ q ∈ pre, jsMatch q s = none) ∧
        jsMatch p s = some m ∧ group m 1 = g) :=
  ⟨rfl, extractIMEILoop_none s imeiPatterns (imeiPatterns_group1_ne s),
    extractIMEILoop_some s imeiPatterns (imeiPatterns_group1_ne s)⟩

/-! ## Decoding: helper lemmas -/

theorem parseData_Teltonika (P : Platform) (now : Int) (data : List Char) :
    parseData P now data "Teltonika".toList = (parsers.Teltonika P data).map Decoded.fix := by
  unfold parseData
  rw [if_pos rfl]

theorem parseData_Concox (P : Platform) (now : Int) (data : List Char) :
    parseData P now data "Concox".toList = (parsers.Concox P data).map Decoded.fix := by
  unfold parseData
  rw [if_neg (by decide), if_pos rfl]

theorem parseGPSData_of_error (P : Platform) (now : Int) (data brand : List Char) (e : String)
    (h : decodeAndValidate P now data brand = Except.error e) :
    parseGPSData P now data brand =
      tryCatch ((parseFallbackData now data).map some) fun _ => Except.ok none := by
  unfold parseGPSData
  rw [h]
  rfl

theorem parseGPSData_of_ok (P : Platform) (now : Int) (data brand : List Char) (f : Fix)
    (h : decodeAndValidate P now data brand = Except.ok f) :
    parseGPSData P now data brand = Except.ok (some f) := by
  unfold parseGPSData
  rw [h]
  rfl

theorem parseFallbackData_frameOutOfRange (now : Int) :
    parseFallbackData now frameOutOfRange = Except.ok
      { lat := JSNum.fin (1999 / 2), lng := JSNum.fin (1999 / 2), speed := JSNum.fin 0,
        heading := JSNum.fin 0, altitude := none, ignition := none, fuelLevel := none,
        batteryLevel := none, odometer := none, timestamp := some (JSDate.at now) } := by
  have h1 : jsMatch fallbackPattern1 frameOutOfRange = none := by decide
  have h2 : jsMatch fallbackPattern2 frameOutOfRange = some ["999.5".toList, "999.5".toList] := by
    decide
  have h3 : parseFloat (group ["999.5".toList, "999.5".toList] 1) = JSNum.fin (1999 / 2) := by
    decide!
  have h4 : parseFloat (group ["999.5".toList, "999.5".toList] 2) = JSNum.fin (1999 / 2) := by
    decide!
  unfold parseFallbackData
  rw [h1, h2]
  simp only [fallbackParse2, h3, h4]

/-- C1. A frame that the brand decoder rejects and that holds the decimal
pair `999.5,999.5` comes back from `parseGPSData` as a fix with latitude and
longitude 999.5, beyond 90 and 180: the fallback result is returned without
the range check. Sent by a registered Teltonika device, the frame ends as a
stored fix with these coordinates. -/
theorem parseGPSData_fallback_out_of_range (P : Platform) (now : Int) :
    parseGPSData P now frameOutOfRange "Teltonika".toList = Except.ok (some
      { lat := JSNum.fin (1999 / 2), lng := JSNum.fin (1999 / 2), speed := JSNum.fin 0,
        heading := JSNum.fin 0, altitude := none, ignition := none, fuelLevel := none,
        batteryLevel := none, odometer := none, timestamp := some (JSDate.at now) }) ∧
    (JSNum.fin (1999 / 2)).abs.gt (JSNum.fin 90) = true ∧
    (JSNum.fin (1999 / 2)).abs.gt (JSNum.fin 180) = true ∧
    (handleGPSData samplePlatform 1696149020000 worldTeltonika frameOutOfRange
        (some { hasWrite := true }) "TCP".toList).fixes =
      [{ deviceId := 1, vehicleId := none, rawData := frameOutOfRange,
         fix := { lat := JSNum.fin (1999 / 2), lng := JSNum.fin (1999 / 2),
                  speed := JSNum.fin 0, heading := JSNum.fin 0, altitude := none,
                  ignition := none, fuelLevel := none, batteryLevel := none, odometer := none,
                  timestamp := some (JSDate.at 1696149020000) } }] := by
  have hlen : ¬ (split ',' frameOutOfRange).length ≥ 10 := by decide
  have hdec : decodeAndValidate P now frameOutOfRange "Teltonika".toList =
      Except.error "Invalid Teltonika format" := by
    unfold decodeAndValidate
    rw [parseData_Teltonika]
    unfold parsers.Teltonika
    simp only [if_neg hlen]
    rfl
  refine ⟨?_, by decide!, by decide!, by decide!⟩
  rw [parseGPSData_of_error P now _ _ _ hdec, parseFallbackData_frameOutOfRange]
  rfl

theorem teltonika_frameEquatorDecimal (P : Platform) :
    parsers.Teltonika P frameEquatorDecimal = Except.ok
      { lat := JSNum.fin 0, lng := JSNum.fin (184 / 5), speed := JSNum.fin 45,
        heading := JSNum.fin 90, altitude := some (JSNum.fin 1600), ignition := some true,
        fuelLevel := none, batteryLevel := none, odometer := none,
        timestamp := some (P.momentUtc "2023-10-01 08:30:15".toList
          "YYYY-MM-DD HH:mm:ss".toList) } := by
  have hlen : (split ',' frameEquatorDecimal).length ≥ 10 := by decide
  have h1 : nth (split ',' frameEquatorDecimal) 1 = "2023-10-01 08:30:15".toList := by decide
  have h2 : parseFloat (nth (split ',' frameEquatorDecimal) 2) = JSNum.fin 0 := by decide!
  have h3 : parseFloat (nth (split ',' frameEquatorDecimal) 3) = JSNum.fin (184 / 5) := by
    decide!
  have h5 : (parseFloat (nth (split ',' frameEquatorDecimal) 5)).orZero = JSNum.fin 45 := by
    decide!
  have h6 : (parseFloat (nth (split ',' frameEquatorDecimal) 6)).orZero = JSNum.fin 90 := by
    decide!
  have h7 : (parseFloat (nth (split ',' frameEquatorDecimal) 7)).orZero = JSNum.fin 1600 := by
    decide!
  have h8 : decide (nth (split ',' frameEquatorDecimal) 8 = ['1']) = true := by decide
  unfold parsers.Teltonika
  simp only [if_pos hlen, h1, h2, h3, h5, h6, h7, h8]

theorem parseFallbackData_frameEquatorDecimal (now : Int) :
    parseFallbackData now frameEquatorDecimal = Except.ok
      { lat := JSNum.fin 0, lng := JSNum.fin (184 / 5), speed := JSNum.fin 0,
        heading := JSNum.fin 0, altitude := none, ignition := none, fuelLevel := none,
        batteryLevel := none, odometer := none, timestamp := some (JSDate.at now) } := by
  have h1 : jsMatch fallbackPattern1 frameEquatorDecimal = none := by decide
  have h2 : jsMatch fallbackPattern2 frameEquatorDecimal = some ["0.0".toList, "36.8".toList] := by
    decide
  have h3 : parseFloat (group ["0.0".toList, "36.8".toList] 1) = JSNum.fin 0 := by decide!
  have h4 : parseFloat (group ["0.0".toList, "36.8".toList] 2) = JSNum.fin (184 / 5) := by decide!
  unfold parseFallbackData
  rw [h1, h2]
  simp only [fallbackParse2, h3, h4]

/-- C2. A Teltonika frame on the equator decodes to latitude 0, longitude
36.8, speed 45 and ignition on, yet `parseGPSData` returns `null` for it:
the test `!parsedData.lat` takes the latitude 0 for a missing one, and no
fallback pattern matches. With the latitude written `0.0` the same
rejection is followed by the second fallback pattern, and `parseGPSData`
returns the fallback fix (speed 0, no ignition, timestamp `now`) in place
of the decoded one. -/
theorem parseGPSData_rejects_zero_latitude (P : Platform) (now : Int) :
    parsers.Teltonika P frameEquator = Except.ok
      { lat := JSNum.fin 0, lng := JSNum.fin (184 / 5), speed := JSNum.fin 45,
        heading := JSNum.fin 90, altitude := some (JSNum.fin 1600), ignition := some true,
        fuelLevel := none, batteryLevel := none, odometer := none,
        timestamp := some (P.momentUtc "2023-10-01 08:30:15".toList
          "YYYY-MM-DD HH:mm:ss".toList) } ∧
    parseGPSData P now frameEquator "Teltonika".toList = Except.ok none ∧
    parsers.Teltonika P frameEquatorDecimal = Except.ok
      { lat := JSNum.fin 0, lng := JSNum.fin (184 / 5), speed := JSNum.fin 45,
        heading := JSNum.fin 90, altitude := some (JSNum.fin 1600), ignition := some true,
        fuelLevel := none, batteryLevel := none, odometer := none,
        timestamp := some (P.momentUtc "2023-10-01 08:30:15".toList
          "YYYY-MM-DD HH:mm:ss".toList) } ∧
    parseGPSData P now frameEquatorDecimal "Teltonika".toList = Except.ok (some
      { lat := JSNum.fin 0, lng := JSNum.fin (184 / 5), speed := JSNum.fin 0,
        heading := JSNum.fin 0, altitude := none, ignition := none, fuelLevel := none,
        batteryLevel := none, odometer := none, timestamp := some (JSDate.at now) }) := by
  have hlen : (split ',' frameEquator).length ≥ 10 := by decide
  have h1 : nth (split ',' frameEquator) 1 = "2023-10-01 08:30:15".toList := by decide
  have h2 : parseFloat (nth (split ',' frameEquator) 2) = JSNum.fin 0 := by decide!
  have h3 : parseFloat (nth (split ',' frameEquator) 3) = JSNum.fin (184 / 5) := by decide!
  have h5 : (parseFloat (nth (split ',' frameEquator) 5)).orZero = JSNum.fin 45 := by decide!
  have h6 : (parseFloat (nth (split ',' frameEquator) 6)).orZero = JSNum.fin 90 := by decide!
  have h7 : (parseFloat (nth (split ',' frameEquator) 7)).orZero = JSNum.fin 1600 := by decide!
  have h8 : decide (nth (split ',' frameEquator) 8 = ['1']) = true := by decide
  have hT : parsers.Teltonika P frameEquator = Except.ok
      { lat := JSNum.fin 0, lng := JSNum.fin (184 / 5), speed := JSNum.fin 45,
        heading := JSNum.fin 90, altitude := some (JSNum.fin 1600), ignition := some true,
        fuelLevel := none, batteryLevel := none, odometer := none,
        timestamp := some (P.momentUtc "2023-10-01 08:30:15".toList
          "YYYY-MM-DD HH:mm:ss".toList) } := by
    unfold parsers.Teltonika
    simp only [if_pos hlen, h1, h2, h3, h5, h6, h7, h8]
  have hz : (JSNum.fin 0).truthy = false := by decide!
  have hdec : decodeAndValidate P now frameEquator "Teltonika".toList =
      Except.error "Invalid coordinates" := by
    unfold decodeAndValidate
    rw [parseData_Teltonika, hT]
    simp [Except.map, hz]
  have hdec2 : decodeAndValidate P now frameEquatorDecimal "Teltonika".toList =
      Except.error "Invalid coordinates" := by
    unfold decodeAndValidate
    rw [parseData_Teltonika, teltonika_frameEquatorDecimal]
    simp [Except.map, hz]
  have hf1 : jsMatch fallbackPattern1 frameEquator = none := by decide
  have hf2 : jsMatch fallbackPattern2 frameEquator = none := by decide
  refine ⟨hT, ?_, teltonika_frameEquatorDecimal P, ?_⟩
  · rw [parseGPSData_of_error P now _ _ _ hdec]
    unfold parseFallbackData
    rw [hf1, hf2]
    rfl
  · rw [parseGPSData_of_error P now _ _ _ hdec2, parseFallbackData_frameEquatorDecimal]
    rfl

theorem decodeAndValidate_ok (P : Platform) (now : Int) (data brand : List Char) (f : Fix)
    (hdec : parseData P now data brand = Except.ok (Decoded.fix f))
    (hlat : f.lat.truthy = true) (hlng : f.lng.truthy = true)
    (hlatR : f.lat.abs.gt (JSNum.fin 90) = false)
    (hlngR : f.lng.abs.gt (JSNum.fin 180) = false) :
    decodeAndValidate P now data brand = Except.ok
      { f with
        timestamp := some (
          if ((f.timestamp.getD (JSDate.at now)).getTime.gt
                (JSNum.fin ((now + 5 * 60 * 1000 : Int) : ℚ))) = true
          then JSDate.at now else f.timestamp.getD (JSDate.at now)) } := by
  unfold decodeAndValidate
  rw [hdec]
  simp only [hlat, hlng, hlatR, hlngR, Bool.not_true, Bool.or_self, Bool.false_eq_true,
    if_false]
  cases f.timestamp <;> rfl

theorem concox_spec_frame (P : Platform) (now : Int) :
    parseData P now frameSpecConcox "Concox".toList = Except.error "Invalid Concox format" ∧
    parseGPSData P now frameSpecConcox "Concox".toList = Except.ok none := by
  have hlen : ¬ (split ',' frameSpecConcox).length ≥ 15 := by decide
  have hp : parseData P now frameSpecConcox "Concox".toList =
      Except.error "Invalid Concox format" := by
    rw [parseData_Concox]
    unfold parsers.Concox
    simp only [if_neg hlen]
    rfl
  refine ⟨hp, ?_⟩
  have hdec : decodeAndValidate P now frameSpecConcox "Concox".toList =
      Except.error "Invalid Concox format" := by
    unfold decodeAndValidate
    rw [hp]
  have hf1 : jsMatch fallbackPattern1 frameSpecConcox = none := by decide
  have hf2 : jsMatch fallbackPattern2 frameSpecConcox = none := by decide
  rw [parseGPSData_of_error P now _ _ _ hdec]
  unfold parseFallbackData
  rw [hf1, hf2]
  rfl

theorem concox_frameConcox15 (P : Platform) :
    parsers.Concox P frameConcox15 = Except.ok
      { lat := JSNum.fin (-(2469 / 2000)), lng := JSNum.fin (182839 / 5000),
        speed := JSNum.fin 45, heading := JSNum.fin 90, altitude := none,
        ignition := some true, fuelLevel := none, batteryLevel := none, odometer := none,
        timestamp := some (P.momentUtc "231001 083015".toList "YYMMDD HHmmss".toList) } := by
  have hlen : (split ',' frameConcox15).length ≥ 15 := by decide
  have h01 : nth (split ',' frameConcox15) 0 ++ [' '] ++ nth (split ',' frameConcox15) 1 =
      "231001 083015".toList := by decide
  have h2 : parseFloat (nth (split ',' frameConcox15) 2) = JSNum.fin (2469 / 2000) := by decide!
  have h3 : nth (split ',' frameConcox15) 3 = ['S'] := by decide
  have h4 : parseFloat (nth (split ',' frameConcox15) 4) = JSNum.fin (182839 / 5000) := by
    decide!
  have h5 : ¬ nth (split ',' frameConcox15) 5 = ['W'] := by decide
  have h6 : (parseFloat (nth (split ',' frameConcox15) 6)).orZero = JSNum.fin 45 := by decide!
  have h7 : (parseFloat (nth (split ',' frameConcox15) 7)).orZero = JSNum.fin 90 := by decide!
  have h11 : decide (nth (split ',' frameConcox15) 11 = ['1']) = true := by decide
  unfold parsers.Concox
  simp only [if_pos hlen, h01, h2, h4, h6, h7, h11, if_neg h5, if_pos h3, JSNum.neg]

/-- C3 (as stated, refuted). The ten-field frame of the scenario is rejected
under brand Concox: `parseData` throws and `parseGPSData` returns `null`. -/
theorem concox_spec_frame_rejected :
    (∀ (P : Platform) (now : Int),
      parseData P now frameSpecConcox "Concox".toList = Except.error "Invalid Concox format") ∧
    (∀ (P : Platform) (now : Int),
      parseGPSData P now frameSpecConcox "Concox".toList = Except.ok none) :=
  ⟨fun P now => (concox_spec_frame P now).1, fun P now => (concox_spec_frame P now).2⟩

/-- C3 (amended). The ten-field frame of the scenario is rejected by the
Concox decoder, which asks for fifteen fields; the same values laid out in
fifteen fields decode, through `parseData` and through `parseGPSData`, to
latitude -1.2345, longitude 36.5678, speed 45 (the field as sent) and
ignition `true`. -/
theorem concox_scenario (P : Platform) (now : Int) :
    parseData P now frameSpecConcox "Concox".toList = Except.error "Invalid Concox format" ∧
    parseGPSData P now frameSpecConcox "Concox".toList = Except.ok none ∧
    parseData P now frameConcox15 "Concox".toList = Except.ok (Decoded.fix
      { lat := JSNum.fin (-(2469 / 2000)), lng := JSNum.fin (182839 / 5000),
        speed := JSNum.fin 45, heading := JSNum.fin 90, altitude := none,
        ignition := some true, fuelLevel := none, batteryLevel := none, odometer := none,
        timestamp := some (P.momentUtc "231001 083015".toList "YYMMDD HHmmss".toList) }) ∧
    ∃ f, parseGPSData P now frameConcox15 "Concox".toList = Except.ok (some f) ∧
      f.lat = JSNum.fin (-(2469 / 2000)) ∧ f.lng = JSNum.fin (182839 / 5000) ∧
      f.speed = JSNum.fin 45 ∧ f.ignition = some true := by
  have hp : parseData P now frameConcox15 "Concox".toList = Except.ok (Decoded.fix
      { lat := JSNum.fin (-(2469 / 2000)), lng := JSNum.fin (182839 / 5000),
        speed := JSNum.fin 45, heading := JSNum.fin 90, altitude := none,
        ignition := some true, fuelLevel := none, batteryLevel := none, odometer := none,
        timestamp := some (P.momentUtc "231001 083015".toList "YYMMDD HHmmss".toList) }) := by
    rw [parseData_Concox, concox_frameConcox15]
    rfl
  refine ⟨(concox_spec_frame P now).1, (concox_spec_frame P now).2, hp, ?_⟩
  have hlat : (JSNum.fin (-(2469 / 2000))).truthy = true := by decide!
  have hlng : (JSNum.fin (182839 / 5000)).truthy = true := by decide!
  have hlat2 : (JSNum.fin (-(2469 / 2000))).abs.gt (JSNum.fin 90) = false := by decide!
  have hlng2 : (JSNum.fin (182839 / 5000)).abs.gt (JSNum.fin 180) = false := by decide!
  have hd := decodeAndValidate_ok P now _ _ _ hp hlat hlng hlat2 hlng2
  exact ⟨_, parseGPSData_of_ok P now _ _ _ hd, rfl, rfl, rfl, rfl⟩

/-- C4 (as stated, refuted). A Concox frame of fifteen fields with latitude
field `-1.2345` and hemisphere `S` decodes to the positive latitude 1.2345. -/
theorem concox_signed_field_flips :
    15 ≤ (split ',' frameConcoxSigned).length ∧
    nth (split ',' frameConcoxSigned) 2 = "-1.2345".toList ∧
    nth (split ',' frameConcoxSigned) 3 = ['S'] ∧
    (∀ P : Platform, ∃ f, parsers.Concox P frameConcoxSigned = Except.ok f ∧
      f.lat = JSNum.fin (2469 / 2000)) ∧
    ¬ ((2469 / 2000 : ℚ) ≤ 0) := by
  have hlen : (split ',' frameConcoxSigned).length ≥ 15 := by decide
  have h2 : parseFloat (nth (split ',' frameConcoxSigned) 2) = JSNum.fin (-(2469 / 2000)) := by
    decide!
  have h3 : nth (split ',' frameConcoxSigned) 3 = ['S'] := by decide
  refine ⟨hlen, by decide, h3, ?_, by norm_num⟩
  intro P
  refine ⟨_, by unfold parsers.Concox; rw [if_pos hlen], ?_⟩
  simp only [h2, if_pos h3, JSNum.neg, neg_neg]

/-- C4 (amended). For a Concox frame of at least fifteen fields whose
coordinate fields parse to finite numbers that are not negative, the
hemisphere letter fixes the sign: `S` gives the negated latitude, at most
0, any other letter (so `N`) the latitude itself, at least 0; `W` gives the
negated longitude, any other letter (so `E`) the longitude itself. -/
theorem concox_hemisphere_sign (P : Platform) (data : List Char) (a b : ℚ)
    (hlen : 15 ≤ (split ',' data).length)
    (hlat : parseFloat (nth (split ',' data) 2) = JSNum.fin a) (ha : 0 ≤ a)
    (hlng : parseFloat (nth (split ',' data) 4) = JSNum.fin b) (hb : 0 ≤ b) :
    ∃ f la lo, parsers.Concox P data = Except.ok f ∧ f.lat = JSNum.fin la ∧
      f.lng = JSNum.fin lo ∧
      (nth (split ',' data) 3 = ['S'] → la = -a ∧ la ≤ 0) ∧
      (nth (split ',' data) 3 ≠ ['S'] → la = a ∧ 0 ≤ la) ∧
      (nth (split ',' data) 3 = ['N'] → la = a ∧ 0 ≤ la) ∧
      (nth (split ',' data) 5 = ['W'] → lo = -b ∧ lo ≤ 0) ∧
      (nth (split ',' data) 5 ≠ ['W'] → lo = b ∧ 0 ≤ lo) ∧
      (nth (split ',' data) 5 = ['E'] → lo = b ∧ 0 ≤ lo) := by
  have hNS : (['N'] : List Char) ≠ ['S'] := by decide
  have hEW : (['E'] : List Char) ≠ ['W'] := by decide
  refine ⟨_, (if nth (split ',' data) 3 = ['S'] then -a else a),
    (if nth (split ',' data) 5 = ['W'] then -b else b),
    by unfold parsers.Concox; rw [if_pos hlen], ?_, ?_, ?_, ?_, ?_, ?_, ?_, ?_⟩
  · simp only [hlat]
    split <;> rfl
  · simp only [hlng]
    split <;> rfl
  · intro h
    rw [if_pos h]
    exact ⟨rfl, neg_nonpos.mpr ha⟩
  · intro h
    rw [if_neg h]
    exact ⟨rfl, ha⟩
  · intro h
    rw [if_neg (by rw [h]; exact hNS)]
    exact ⟨rfl, ha⟩
  · intro h
    rw [if_pos h]
    exact ⟨rfl, neg_nonpos.mpr hb⟩
  · intro h
    rw [if_neg h]
    exact ⟨rfl, hb⟩
  · intro h
    rw [if_neg (by rw [h]; exact hEW)]
    exact ⟨rfl, hb⟩

/-- The amended C4 at the fifteen-field frame with `1.2345,S,36.5678,E`. -/
theorem concox_hemisphere_sign_witness :
    ∃ f la lo, parsers.Concox samplePlatform frameConcox15 = Except.ok f ∧
      f.lat = JSNum.fin la ∧ f.lng = JSNum.fin lo ∧
      (nth (split ',' frameConcox15) 3 = ['S'] → la = -(2469 / 2000) ∧ la ≤ 0) ∧
      (nth (split ',' frameConcox15) 3 ≠ ['S'] → la = 2469 / 2000 ∧ 0 ≤ la) ∧
      (nth (split ',' frameConcox15) 3 = ['N'] → la = 2469 / 2000 ∧ 0 ≤ la) ∧
      (nth (split ',' frameConcox15) 5 = ['W'] → lo = -(182839 / 5000) ∧ lo ≤ 0) ∧
      (nth (split ',' frameConcox15) 5 ≠ ['W'] → lo = 182839 / 5000 ∧ 0 ≤ lo) ∧
      (nth (split ',' frameConcox15) 5 = ['E'] → lo = 182839 / 5000 ∧ 0 ≤ lo) :=
  concox_hemisphere_sign samplePlatform frameConcox15 (2469 / 2000) (182839 / 5000)
    (by decide) (by decide!) (by norm_num) (by decide!) (by norm_num)

/-- C5. On a GPRMC frame at 0130.0000,N and 03630.0000,E the Queclink
decoder returns latitude 1.3 and longitude 36.3: it divides the field by
100, where degrees plus minutes over 60 would be 1.5 and 36.5. -/
theorem queclink_divides_by_hundred (P : Platform) :
    parsers.Queclink P frameQueclink = Except.ok
      { lat := JSNum.fin (13 / 10), lng := JSNum.fin (363 / 10), speed := JSNum.fin (463 / 25),
        heading := JSNum.fin 90, altitude := none, ignition := none, fuelLevel := none,
        batteryLevel := none, odometer := none,
        timestamp := some (P.momentUtc "011023".toList "DDMMYY".toList) } ∧
    (13 / 10 : ℚ) ≠ 1 + 30 / 60 ∧ (363 / 10 : ℚ) ≠ 36 + 30 / 60 := by
  have hm : jsMatch parsers.queclinkPattern frameQueclink = some
      ["083015.000".toList, "0130.0000".toList, ['N'], "03630.0000".toList, ['E'],
        "10.0".toList, "90.0".toList, "011023".toList] := by decide
  have h2 : (parseFloat (group ["083015.000".toList, "0130.0000".toList, ['N'],
      "03630.0000".toList, ['E'], "10.0".toList, "90.0".toList, "011023".toList] 2)).div
      (JSNum.fin 100) = JSNum.fin (13 / 10) := by decide!
  have h3 : ¬ group ["083015.000".toList, "0130.0000".toList, ['N'],
      "03630.0000".toList, ['E'], "10.0".toList, "90.0".toList, "011023".toList] 3 = ['S'] := by
    decide
  have h4 : (parseFloat (group ["083015.000".toList, "0130.0000".toList, ['N'],
      "03630.0000".toList, ['E'], "10.0".toList, "90.0".toList, "011023".toList] 4)).div
      (JSNum.fin 100) = JSNum.fin (363 / 10) := by decide!
  have h5 : ¬ group ["083015.000".toList, "0130.0000".toList, ['N'],
      "03630.0000".toList, ['E'], "10.0".toList, "90.0".toList, "011023".toList] 5 = ['W'] := by
    decide
  have h6 : ((parseFloat (group ["083015.000".toList, "0130.0000".toList, ['N'],
      "03630.0000".toList, ['E'], "10.0".toList, "90.0".toList, "011023".toList] 6)).mul
      (JSNum.fin (1852 / 1000))).orZero = JSNum.fin (463 / 25) := by decide!
  have h7 : (parseFloat (group ["083015.000".toList, "0130.0000".toList, ['N'],
      "03630.0000".toList, ['E'], "10.0".toList, "90.0".toList, "011023".toList] 7)).orZero =
      JSNum.fin 90 := by decide!
  have h8 : group ["083015.000".toList, "0130.0000".toList, ['N'],
      "03630.0000".toList, ['E'], "10.0".toList, "90.0".toList, "011023".toList] 8 =
      "011023".toList := by decide
  refine ⟨?_, by norm_num, by norm_num⟩
  unfold parsers.Queclink
  rw [hm]
  simp only [if_neg h3, if_neg h5, h2, h4, h6, h7, h8]

/-- C6. On `123015.500,N,0363015.500,E` (12 degrees 30 minutes 15.5
seconds north, 36 degrees 30 minutes 15.5 seconds east) `parseFallbackData`
returns latitude 15013/1200 and longitude 43813/1200: it reads the minutes
as `30.15` and the seconds as 60 times `0.500`, where the standard
conversion gives 12 + 30/60 + 15.5/3600 and 36 + 30/60 + 15.5/3600. -/
theorem fallback_dms_conversion (now : Int) :
    parseFallbackData now frameDms = Except.ok
      { lat := JSNum.fin (15013 / 1200), lng := JSNum.fin (43813 / 1200), speed := JSNum.fin 0,
        heading := JSNum.fin 0, altitude := none, ignition := none, fuelLevel := none,
        batteryLevel := none, odometer := none, timestamp := some (JSDate.at now) } ∧
    (15013 / 1200 : ℚ) ≠ 12 + 30 / 60 + (31 / 2) / 3600 ∧
    (43813 / 1200 : ℚ) ≠ 36 + 30 / 60 + (31 / 2) / 3600 := by
  have hm : jsMatch fallbackPattern1 frameDms = some
      ["12".toList, "30".toList, "15.500".toList, ['N'], "036".toList, "30".toList,
        "15.500".toList, ['E']] := by decide
  have h0 : fallbackParse1 0 ["12".toList, "30".toList, "15.500".toList, ['N'], "036".toList,
      "30".toList, "15.500".toList, ['E']] =
      { lat := JSNum.fin (15013 / 1200), lng := JSNum.fin (43813 / 1200), speed := JSNum.fin 0,
        heading := JSNum.fin 0, altitude := none, ignition := none, fuelLevel := none,
        batteryLevel := none, odometer := none, timestamp := some (JSDate.at 0) } := by decide!
  have hnow : fallbackParse1 now ["12".toList, "30".toList, "15.500".toList, ['N'],
      "036".toList, "30".toList, "15.500".toList, ['E']] =
      { fallbackParse1 0 ["12".toList, "30".toList, "15.500".toList, ['N'], "036".toList,
          "30".toList, "15.500".toList, ['E']] with timestamp := some (JSDate.at now) } := rfl
  refine ⟨?_, by norm_num, by norm_num⟩
  unfold parseFallbackData
  rw [hm]
  simp only [hnow, h0]

/-- C7. When the brand decoder succeeds and the coordinates pass the checks,
`parseGPSData` returns the decoded fix with only the timestamp adjusted: a
missing timestamp and one more than five minutes after `now` become `now`,
any other is kept; so the returned instant is never after `now` plus five
minutes. -/
theorem parseGPSData_timestamp (P : Platform) (now : Int) (data brand : List Char) (f : Fix)
    (hdec : parseData P now data brand = Except.ok (Decoded.fix f))
    (hlat : f.lat.truthy = true) (hlng : f.lng.truthy = true)
    (hlatR : f.lat.abs.gt (JSNum.fin 90) = false)
    (hlngR : f.lng.abs.gt (JSNum.fin 180) = false) :
    ∃ ts, parseGPSData P now data brand = Except.ok (some { f with timestamp := some ts }) ∧
      (∀ t, ts = JSDate.at t → t ≤ now + 5 * 60 * 1000) ∧
      (f.timestamp = none → ts = JSDate.at now) ∧
      (∀ t, f.timestamp = some (JSDate.at t) → now + 5 * 60 * 1000 < t → ts = JSDate.at now) ∧
      (∀ t, f.timestamp = some (JSDate.at t) → t ≤ now + 5 * 60 * 1000 → ts = JSDate.at t) ∧
      (f.timestamp = some JSDate.invalid → ts = JSDate.invalid) := by
  refine ⟨_, parseGPSData_of_ok P now _ _ _
    (decodeAndValidate_ok P now data brand f hdec hlat hlng hlatR hlngR), ?_, ?_, ?_, ?_, ?_⟩
  · intro t ht
    by_cases hgt : ((f.timestamp.getD (JSDate.at now)).getTime.gt
        (JSNum.fin ((now + 5 * 60 * 1000 : Int) : ℚ))) = true
    · rw [if_pos hgt] at ht
      cases ht
      omega
    · rw [if_neg hgt] at ht
      rw [ht] at hgt
      simp only [JSDate.getTime, JSNum.gt, decide_eq_true_eq, Int.cast_lt] at hgt
      omega
  · intro h
    simp [h, JSDate.getTime, JSNum.gt]
  · intro t h hlt
    have hq : ((now + 5 * 60 * 1000 : Int) : ℚ) < (t : ℚ) := by exact_mod_cast hlt
    simp only [h, Option.getD_some, JSDate.getTime, JSNum.gt, decide_eq_true_eq]
    rw [if_pos hq]
  · intro t h hle
    have hq : ¬ ((now + 5 * 60 * 1000 : Int) : ℚ) < (t : ℚ) := by
      have : (t : ℚ) ≤ ((now + 5 * 60 * 1000 : Int) : ℚ) := by exact_mod_cast hle
      exact not_lt.mpr this
    simp only [h, Option.getD_some, JSDate.getTime, JSNum.gt, decide_eq_true_eq]
    rw [if_neg hq]
  · intro h
    simp [h, JSDate.getTime, JSNum.gt]

/-- C7 at the fifteen-field Concox frame, five seconds after its timestamp:
the timestamp is kept. -/
theorem parseGPSData_timestamp_witness :
    ∃ ts, parseGPSData samplePlatform 1696149020000 frameConcox15 "Concox".toList =
        Except.ok (some
          { lat := JSNum.fin (-(2469 / 2000)), lng := JSNum.fin (182839 / 5000),
            speed := JSNum.fin 45, heading := JSNum.fin 90, altitude := none,
            ignition := some true, fuelLevel := none, batteryLevel := none, odometer := none,
            timestamp := some ts }) ∧
      ts = JSDate.at 1696149015000 := by
  obtain ⟨ts, h1, _, _, _, h5, _⟩ := parseGPSData_timestamp samplePlatform 1696149020000
    frameConcox15 "Concox".toList
    { lat := JSNum.fin (-(2469 / 2000)), lng := JSNum.fin (182839 / 5000),
      speed := JSNum.fin 45, heading := JSNum.fin 90, altitude := none,
      ignition := some true, fuelLevel := none, batteryLevel := none, odometer := none,
      timestamp := some (JSDate.at 1696149015000) }
    (by rw [parseData_Concox, concox_frameConcox15]; rfl)
    (by decide!) (by decide!) (by decide!) (by decide!)
  exact ⟨ts, h1, h5 1696149015000 rfl (by decide)⟩

/-- C8. `parseGPSData` always returns, a fix or `null`, and never throws: a
failure of the brand decoder or of its checks is caught, and when every
fallback pattern fails as well the result is `null`. -/
theorem parseGPSData_never_throws (P : Platform) (now : Int) (dataString brand : List Char) :
    (∃ r, parseGPSData P now dataString brand = Except.ok r) ∧
    (∀ f, decodeAndValidate P now dataString brand = Except.ok f →
      parseGPSData P now dataString brand = Except.ok (some f)) ∧
    (∀ e f, decodeAndValidate P now dataString brand = Except.error e →
      parseFallbackData now dataString = Except.ok f →
      parseGPSData P now dataString brand = Except.ok (some f)) ∧
    (∀ e1 e2, decodeAndValidate P now dataString brand = Except.error e1 →
      parseFallbackData now dataString = Except.error e2 →
      parseGPSData P now dataString brand = Except.ok none) := by
  have hfb : ∀ e, decodeAndValidate P now dataString brand = Except.error e →
      parseGPSData P now dataString brand =
        tryCatch ((parseFallbackData now dataString).map some) fun _ => Except.ok none :=
    fun e he => parseGPSData_of_error P now _ _ e he
  refine ⟨?_, fun f hf => parseGPSData_of_ok P now _ _ f hf, ?_, ?_⟩
  · cases hd : decodeAndValidate P now dataString brand with
    | ok f => exact ⟨some f, parseGPSData_of_ok P now _ _ f hd⟩
    | error e =>
      rw [hfb e hd]
      cases parseFallbackData now dataString with
      | ok f => exact ⟨some f, rfl⟩
      | error e2 => exact ⟨none, rfl⟩
  · intro e f he hf
    rw [hfb e he, hf]
    rfl
  · intro e1 e2 he hf
    rw [hfb e1 he, hf]
    rfl

/-- C10. A frame in which `extractIMEI` finds no identifier is dropped by
`handleGPSData` with no effect at all: the stores of devices, fixes,
vehicles and alerts, the map `connectedDevices` and the trace of attempted
operations (no device lookup or save, no fix saved, no alert rule queried,
nothing written to the connection) are as before. -/
theorem handleGPSData_without_imei (P : Platform) (now : Int) (w : World) (rawData : List Char)
    (connectionInfo : Option Connection) (protocol : List Char)
    (h : extractIMEI (trim rawData) = none) :
    handleGPSData P now w rawData connectionInfo protocol = w := by
  unfold handleGPSData
  simp only [h]
  split <;> rfl

/-- C10 at a frame of nineteen characters without an identifier. -/
theorem handleGPSData_without_imei_witness :
    extractIMEI (trim frameNoImei) = none ∧
    handleGPSData samplePlatform 1696149020000 emptyWorld frameNoImei
      (some { hasWrite := true }) "TCP".toList = emptyWorld :=
  ⟨by decide, handleGPSData_without_imei samplePlatform 1696149020000 emptyWorld frameNoImei
    (some { hasWrite := true }) "TCP".toList (by decide)⟩

/-! ## Device registration and the pipeline -/

/-- C11. For an identifier with no stored device (database reachable or
not), `getOrRegisterDevice` returns `null` and stores nothing: the device
it builds has no `tenantId`, which the schema requires, so `save` throws and
the `catch` returns `null`; no session entry is written. -/
theorem getOrRegisterDevice_unknown_imei (now : Int) (w : World) (imei : List Char)
    (h : (w.devices.find? fun d => d.imei == imei) = none) :
    (getOrRegisterDevice now w imei).2 = none ∧
    (getOrRegisterDevice now w imei).1.devices = w.devices ∧
    (getOrRegisterDevice now w imei).1.connectedDevices = w.connectedDevices := by
  unfold getOrRegisterDevice
  cases hdb : w.dbUp
  · simp [World.log]
  · simp [h, saveDevice, deviceValid, World.log]

/-- C11 at the empty store: the frame of a device seen for the first time
is dropped, with a lookup and a failed save as the only operations. -/
theorem getOrRegisterDevice_unknown_imei_witness :
    (getOrRegisterDevice 1696149020000 emptyWorld "123456789012345".toList).2 = none ∧
    (getOrRegisterDevice 1696149020000 emptyWorld "123456789012345".toList).1.devices =
      emptyWorld.devices ∧
    (getOrRegisterDevice 1696149020000 emptyWorld "123456789012345".toList).1.connectedDevices =
      emptyWorld.connectedDevices :=
  getOrRegisterDevice_unknown_imei 1696149020000 emptyWorld "123456789012345".toList (by decide)

/-- C12. A well-formed frame of a device stored as `Disabled` is processed
in full: `getOrRegisterDevice` sets the status to `Connected` and saves it,
the fix is stored, the alert rules are queried and an alert is stored, and
the acknowledgement is written. -/
theorem handleGPSData_enables_disabled_device :
    statusOf worldDisabled 1 = ["Disabled"] ∧
    statusOf (handleGPSData samplePlatform 1696149020000 worldDisabled frameTeltonika
      (some { hasWrite := true }) "TCP".toList) 1 = ["Connected"] ∧
    (handleGPSData samplePlatform 1696149020000 worldDisabled frameTeltonika
      (some { hasWrite := true }) "TCP".toList).fixes.length = 1 ∧
    (handleGPSData samplePlatform 1696149020000 worldDisabled frameTeltonika
      (some { hasWrite := true }) "TCP".toList).alerts.map (fun a => a.type) = ["IgnitionOn"] ∧
    (handleGPSData samplePlatform 1696149020000 worldDisabled frameTeltonika
      (some { hasWrite := true }) "TCP".toList).trace =
      [Effect.deviceFindOne "123456789012345".toList, Effect.deviceSave "123456789012345".toList,
       Effect.fixSave 1, Effect.deviceSave "123456789012345".toList, Effect.vehicleUpdate 7,
       Effect.publish "vehicle_location", Effect.emitLocationUpdate 7,
       Effect.publish "locations", Effect.vehicleFindById 7,
       Effect.alertFindOne 1 "IgnitionOn", Effect.alertSave 1 "IgnitionOn",
       Effect.notification "IgnitionOn", Effect.publish "gps_data_processed",
       Effect.write "01\r\n".toList] := by
  refine ⟨by decide, by decide!, by decide!, by decide!, by decide!⟩

/-- C20. A Teltonika frame whose date is no date decodes to a fix with an
invalid timestamp; saving it fails validation inside `processGPSData`, which
catches the error and publishes `gps_processing_error`, and `handleGPSData`
then writes the acknowledgement all the same. No fix is stored. -/
theorem handleGPSData_acknowledges_failed_save :
    (handleGPSData invalidDatePlatform 1696149020000 worldLinked frameBadDate
      (some { hasWrite := true }) "TCP".toList).fixes = [] ∧
    (handleGPSData invalidDatePlatform 1696149020000 worldLinked frameBadDate
      (some { hasWrite := true }) "TCP".toList).trace =
      [Effect.deviceFindOne "123456789012345".toList, Effect.fixSave 1,
       Effect.publish "gps_processing_error", Effect.write "01\r\n".toList] := by
  refine ⟨by decide!, by decide!⟩

/-! ## The rule loop of `alertEngine.js` -/

/-- C14. In `alertEngine.checkAlerts` a fix with speed 125 raises a
`Speeding` alert of severity `High`, whatever limit is configured: the rule
compares with the constant 120 and the severity is the constant `High`. A
fix with speed 140 five seconds later raises no second `Speeding` alert. -/
theorem checkAlerts_speeding_severity_high :
    ((checkAlerts 1696149020000 (recordOf 125 true 1696149015000) deviceLinked
        worldLinked).1.alerts.filter fun a => a.type == "Speeding") =
      [{ tenantId := some 1, vehicleId := some 7, deviceId := 1, type := "Speeding",
         severity := "High", status := "New", createdAt := 1696149020000 }] ∧
    ((checkAlerts 1696149025000 (recordOf 140 true 1696149020000) deviceLinked
        (checkAlerts 1696149020000 (recordOf 125 true 1696149015000) deviceLinked
          worldLinked).1).1.alerts.filter fun a => a.type == "Speeding") =
      [{ tenantId := some 1, vehicleId := some 7, deviceId := 1, type := "Speeding",
         severity := "High", status := "New", createdAt := 1696149020000 }] := by
  refine ⟨by decide!, by decide!⟩

/-- C17. In `alertEngine.checkAlerts` the ignition rules test the level, not
the edge: the first fix of a vehicle, with ignition off, raises
`IgnitionOff`; and of two fixes with ignition on, six minutes apart, each
raises `IgnitionOn`. -/
theorem checkAlerts_ignition_level_triggered :
    (checkAlerts 1696149020000 (recordOf 50 false 1696149015000) deviceLinked
        worldLinked).1.alerts =
      [{ tenantId := some 1, vehicleId := some 7, deviceId := 1, type := "IgnitionOff",
         severity := "Low", status := "New", createdAt := 1696149020000 }] ∧
    (checkAlerts 1696149380000 (recordOf 50 true 1696149375000) deviceLinked
        (checkAlerts 1696149020000 (recordOf 50 true 1696149015000) deviceLinked
          worldLinked).1).1.alerts =
      [{ tenantId := some 1, vehicleId := some 7, deviceId := 1, type := "IgnitionOn",
         severity := "Low", status := "New", createdAt := 1696149020000 },
       { tenantId := some 1, vehicleId := some 7, deviceId := 1, type := "IgnitionOn",
         severity := "Low", status := "New", createdAt := 1696149380000 }] := by
  refine ⟨by decide!, by decide!⟩

/-! ## The liveness sweep -/

/-- C19. A `Connected` device silent for sixteen minutes that still has an
open `DeviceOffline` alert is `Connected` after the sweep: the status is
set inside the branch that creates a new alert. -/
theorem sweep_keeps_connected_with_open_alert :
    isStale 1696150000000 deviceSilent = true ∧
    (checkDeviceOfflineAlerts 1696150000000 worldSilentOpenAlert).2 = true ∧
    statusOf (checkDeviceOfflineAlerts 1696150000000 worldSilentOpenAlert).1 1 =
      ["Connected"] := by
  refine ⟨by decide, by decide, by decide⟩

/-! ## The checks of `alertEngineEnhanced.js` -/

theorem Redis.get_set (r : Redis) (now t : Int) (key : RedisKey) (v v1 : JSVal) (ttl : Int)
    (hup : r.up = true) (hv : jsonStored v = some v1) (ht : t < now + ttl * 1000) :
    (r.set now key v ttl).get t key = v1 := by
  have hnone : ∀ l : List RedisEntry,
      (l.filter fun e => !(e.key == key)).find?
        (fun e => e.key == key && decide (t < e.expiresAt)) = none := by
    intro l
    rw [List.find?_eq_none]
    intro e he
    have := (List.mem_filter.mp he).2
    simp only [Bool.not_eq_true', beq_eq_false_iff_ne, ne_eq] at this
    simp [this]
  unfold Redis.set Redis.get
  simp only [hup, hv, Bool.not_true, Bool.false_eq_true, if_false, List.find?_append, hnone,
    Option.none_or, List.find?_cons, beq_self_eq_true, Bool.true_and, decide_eq_true ht]

/-- C13, where the claim fails. With the limit 50.8 configured and a fix of
speed 66.04, each held as the double nearest to it, `checkSpeeding` pushes a
candidate of severity `High`, though 66.04 is not above 1.3 times 50.8,
which is 66.04: the double product of the limit and 1.3 is
2323575932746465 / 2^45, printed 66.03999999999999. -/
theorem checkSpeeding_rounds_the_product :
    EnhancedAlertEngine.checkSpeeding sampleConversions 1000 redisLimit508 recordSpeed6604
      deviceLinked =
      [{ type := "Speeding", severity := "High"
         data := CandidateData.speeding (JSNum.ofRat (1651 / 25))
           (JSVal.num (JSNum.ofRat (254 / 5))) (JSNum.fin (-(2469 / 2000)))
           (JSNum.fin (182839 / 5000)) }] ∧
    (JSNum.ofRat (254 / 5)).mulD (JSNum.ofRat (13 / 10)) =
      JSNum.fin (2323575932746465 / 2 ^ 45) ∧
    ¬ ((1651 / 25 : ℚ) > 13 / 10 * (254 / 5)) := by
  refine ⟨by decide!, by decide!, by norm_num⟩

/-- C13, amended. `checkSpeeding` pushes a candidate exactly when the speed
is above the limit, which is the number `getSpeedLimit` returns: the cached
value when it is truthy, else 120. It pushes at most one, of type
`Speeding`, with severity `High` exactly when the speed is above the double
product of the limit and 1.3 (the double nearest to the product of the limit
and the double nearest to 1.3, which is 5854679515581645 / 2^52) and `Medium`
otherwise. With the limit 100 configured, speed 125 gives one `Speeding`
candidate of severity `Medium`, speed 131 one of severity `High`, and speed
100 none; with no limit configured, speed 125 gives one of severity
`Medium` against the limit 120. -/
theorem checkSpeeding_candidate (C : Conversions) (now : Int) (r : Redis) (gpsData : GPSRecord)
    (device : Device) :
    (EnhancedAlertEngine.checkSpeeding C now r gpsData device ≠ [] ↔
      gpsData.fix.speed.gt
        ((EnhancedAlertEngine.getSpeedLimit now r device.tenantId).toNumber C) = true) ∧
    (EnhancedAlertEngine.checkSpeeding C now r gpsData device).length ≤ 1 ∧
    (∀ c ∈ EnhancedAlertEngine.checkSpeeding C now r gpsData device,
      c.type = "Speeding" ∧
      (c.severity = "High" ↔ gpsData.fix.speed.gt
        (((EnhancedAlertEngine.getSpeedLimit now r device.tenantId).toNumber C).mulD
          (JSNum.ofRat (13 / 10))) = true) ∧
      (c.severity = "Medium" ↔ gpsData.fix.speed.gt
        (((EnhancedAlertEngine.getSpeedLimit now r device.tenantId).toNumber C).mulD
          (JSNum.ofRat (13 / 10))) = false)) ∧
    (EnhancedAlertEngine.getSpeedLimit now r device.tenantId =
      if (r.get now (RedisKey.speedLimit device.tenantId)).truthy then
        r.get now (RedisKey.speedLimit device.tenantId)
      else JSVal.num (JSNum.fin 120)) ∧
    (∀ speed limit : ℚ, gpsData.fix.speed = JSNum.fin speed →
      (EnhancedAlertEngine.getSpeedLimit now r device.tenantId).toNumber C = JSNum.fin limit →
      (EnhancedAlertEngine.checkSpeeding C now r gpsData device ≠ [] ↔ limit < speed) ∧
      ∀ c ∈ EnhancedAlertEngine.checkSpeeding C now r gpsData device,
        (c.severity = "High" ↔
          (JSNum.fin speed).gt (JSNum.ofRat (limit * (5854679515581645 / 2 ^ 52))) = true) ∧
        (c.severity = "Medium" ↔
          (JSNum.fin speed).gt (JSNum.ofRat (limit * (5854679515581645 / 2 ^ 52))) = false)) ∧
    EnhancedAlertEngine.checkSpeeding sampleConversions 1000 redisLimit100
      (recordOf 125 true 1000) deviceLinked =
      [{ type := "Speeding", severity := "Medium"
         data := CandidateData.speeding (JSNum.fin 125) (JSVal.num (JSNum.fin 100))
           (JSNum.fin (-(2469 / 2000))) (JSNum.fin (182839 / 5000)) }] ∧
    EnhancedAlertEngine.checkSpeeding sampleConversions 1000 redisLimit100
      (recordOf 131 true 1000) deviceLinked =
      [{ type := "Speeding", severity := "High"
         data := CandidateData.speeding (JSNum.fin 131) (JSVal.num (JSNum.fin 100))
           (JSNum.fin (-(2469 / 2000))) (JSNum.fin (182839 / 5000)) }] ∧
    EnhancedAlertEngine.checkSpeeding sampleConversions 1000 redisLimit100
      (recordOf 100 true 1000) deviceLinked = [] ∧
    EnhancedAlertEngine.checkSpeeding sampleConversions 1000 redisEmpty
      (recordOf 125 true 1000) deviceLinked =
      [{ type := "Speeding", severity := "Medium"
         data := CandidateData.speeding (JSNum.fin 125) (JSVal.num (JSNum.fin 120))
           (JSNum.fin (-(2469 / 2000))) (JSNum.fin (182839 / 5000)) }] := by
  have hHM : ("High" : String) ≠ "Medium" := by decide
  have hMH : ("Medium" : String) ≠ "High" := by decide
  have key : ∀ c ∈ EnhancedAlertEngine.checkSpeeding C now r gpsData device,
      c.type = "Speeding" ∧
      (c.severity = "High" ↔ gpsData.fix.speed.gt
        (((EnhancedAlertEngine.getSpeedLimit now r device.tenantId).toNumber C).mulD
          (JSNum.ofRat (13 / 10))) = true) ∧
      (c.severity = "Medium" ↔ gpsData.fix.speed.gt
        (((EnhancedAlertEngine.getSpeedLimit now r device.tenantId).toNumber C).mulD
          (JSNum.ofRat (13 / 10))) = false) := by
    intro c hc
    unfold EnhancedAlertEngine.checkSpeeding at hc
    simp only at hc
    split at hc
    · simp only [List.mem_singleton] at hc
      subst hc
      refine ⟨rfl, ?_, ?_⟩
      · by_cases h : gpsData.fix.speed.gt
            (((EnhancedAlertEngine.getSpeedLimit now r device.tenantId).toNumber C).mulD
              (JSNum.ofRat (13 / 10))) = true
        · simp [h]
        · simp [h, hMH]
      · by_cases h : gpsData.fix.speed.gt
            (((EnhancedAlertEngine.getSpeedLimit now r device.tenantId).toNumber C).mulD
              (JSNum.ofRat (13 / 10))) = true
        · simp [h, hHM]
        · simp [h]
    · simp at hc
  have hne : (EnhancedAlertEngine.checkSpeeding C now r gpsData device ≠ [] ↔
      gpsData.fix.speed.gt
        ((EnhancedAlertEngine.getSpeedLimit now r device.tenantId).toNumber C) = true) := by
    unfold EnhancedAlertEngine.checkSpeeding
    simp only
    split <;> simp_all
  have h13 : JSNum.ofRat (13 / 10) = JSNum.fin (5854679515581645 / 2 ^ 52) := by decide!
  refine ⟨hne, ?_, key, rfl, ?_, by decide!, by decide!, by decide!, by decide!⟩
  · unfold EnhancedAlertEngine.checkSpeeding
    simp only
    split <;> simp
  · intro speed limit hs hl
    refine ⟨?_, ?_⟩
    · rw [hne, hs, hl]
      simp [JSNum.gt]
    · intro c hc
      obtain ⟨_, h1, h2⟩ := key c hc
      rw [hs, hl, h13] at h1 h2
      exact ⟨h1, h2⟩

/-- C16, amended. With Redis answering, `checkIgnition` pushes a candidate
exactly when an ignition state is stored for the vehicle (the entry of a
state ends an hour after the fix that wrote it) and differs from that of
the fix; the candidate is the only one and its type is `IgnitionOn` for a
fix with ignition on, `IgnitionOff` otherwise; afterwards, until the hour
of the entry ends, the stored state is that of the fix. So, from no stored
state, three fixes with ignition off, on, on, each within the hour of the
one before, give no candidate, one `IgnitionOn`, and no candidate. -/
theorem checkIgnition_edge (now : Int) (r : Redis) (gpsData : GPSRecord) (device : Device)
    (hup : r.up = true) :
    ((EnhancedAlertEngine.checkIgnition now r gpsData device).1 ≠ [] ↔
      r.get now (RedisKey.ignition device.vehicleId) ≠ JSVal.null ∧
      r.get now (RedisKey.ignition device.vehicleId) ≠ JSVal.bool gpsData.ignition) ∧
    (∀ c ∈ (EnhancedAlertEngine.checkIgnition now r gpsData device).1,
      (EnhancedAlertEngine.checkIgnition now r gpsData device).1 = [c] ∧
      c.type = (if gpsData.ignition then "IgnitionOn" else "IgnitionOff")) ∧
    (EnhancedAlertEngine.checkIgnition now r gpsData device).2.up = true ∧
    (∀ t, t < now + 3600 * 1000 →
      (EnhancedAlertEngine.checkIgnition now r gpsData device).2.get t
        (RedisKey.ignition device.vehicleId) = JSVal.bool gpsData.ignition) ∧
    (∀ (d1 d2 d3 : GPSRecord) (t2 t3 : Int),
      r.get now (RedisKey.ignition device.vehicleId) = JSVal.null →
      d1.ignition = false → d2.ignition = true → d3.ignition = true →
      t2 < now + 3600 * 1000 → t3 < t2 + 3600 * 1000 →
      (EnhancedAlertEngine.checkIgnition now r d1 device).1 = [] ∧
      (EnhancedAlertEngine.checkIgnition t2
        (EnhancedAlertEngine.checkIgnition now r d1 device).2 d2 device).1.map
          (fun c => c.type) = ["IgnitionOn"] ∧
      (EnhancedAlertEngine.checkIgnition t3
        (EnhancedAlertEngine.checkIgnition t2
          (EnhancedAlertEngine.checkIgnition now r d1 device).2 d2 device).2 d3 device).1 =
        []) := by
  have hupset : ∀ (r1 : Redis) (t : Int) (k : RedisKey) (v : JSVal) (ttl : Int),
      r1.up = true → (r1.set t k v ttl).up = true := by
    intro r1 t k v ttl h
    unfold Redis.set
    simp only [h, Bool.not_true, Bool.false_eq_true, if_false]
    split <;> simp [h]
  have hstored : ∀ (r1 : Redis) (d : GPSRecord) (t0 t : Int), r1.up = true →
      t < t0 + 3600 * 1000 →
      (EnhancedAlertEngine.checkIgnition t0 r1 d device).2.get t
        (RedisKey.ignition device.vehicleId) = JSVal.bool d.ignition := by
    intro r1 d t0 t h ht
    unfold EnhancedAlertEngine.checkIgnition
    exact Redis.get_set r1 t0 t _ _ _ 3600 h rfl ht
  have hcands : ∀ (r1 : Redis) (d : GPSRecord) (t0 : Int),
      (EnhancedAlertEngine.checkIgnition t0 r1 d device).1 =
        if r1.get t0 (RedisKey.ignition device.vehicleId) ≠ JSVal.null ∧
            r1.get t0 (RedisKey.ignition device.vehicleId) ≠ JSVal.bool d.ignition then
          [{ type := if d.ignition then "IgnitionOn" else "IgnitionOff", severity := "Low"
             data := CandidateData.ignition (r1.get t0 (RedisKey.ignition device.vehicleId))
               d.ignition d.fix.lat d.fix.lng }]
        else [] := fun _ _ _ => rfl
  have hup2 : ∀ (r1 : Redis) (d : GPSRecord) (t0 : Int), r1.up = true →
      (EnhancedAlertEngine.checkIgnition t0 r1 d device).2.up = true := by
    intro r1 d t0 h
    unfold EnhancedAlertEngine.checkIgnition
    exact hupset r1 _ _ _ _ h
  refine ⟨?_, ?_, hup2 r gpsData now hup, fun t ht => hstored r gpsData now t hup ht, ?_⟩
  · rw [hcands]
    split <;> simp_all
  · intro c hc
    rw [hcands] at hc ⊢
    split at hc
    · rename_i hcond
      simp only [List.mem_singleton] at hc
      subst hc
      simp [hcond]
    · simp at hc
  · intro d1 d2 d3 t2 t3 hnull h1 h2 h3 ht2 ht3
    have s1 := hstored r d1 now t2 hup ht2
    have u1 := hup2 r d1 now hup
    have s2 := hstored _ d2 t2 t3 u1 ht3
    refine ⟨?_, ?_, ?_⟩
    · rw [hcands, hnull]
      simp
    · rw [hcands, s1, h1, h2]
      simp
    · rw [hcands, s2, h2, h3]
      simp

/-- C16 amended, on an empty Redis that answers: fixes of the linked device
with ignition off at instant 1000, on at 2000 and on at 3000 give no
candidate, one `IgnitionOn`, and no candidate. -/
theorem checkIgnition_edge_witness :
    (EnhancedAlertEngine.checkIgnition 1000 redisEmpty (recordOf 0 false 1000) deviceLinked).1 =
      [] ∧
    (EnhancedAlertEngine.checkIgnition 2000
      (EnhancedAlertEngine.checkIgnition 1000 redisEmpty (recordOf 0 false 1000) deviceLinked).2
      (recordOf 0 true 2000) deviceLinked).1.map (fun c => c.type) = ["IgnitionOn"] ∧
    (EnhancedAlertEngine.checkIgnition 3000
      (EnhancedAlertEngine.checkIgnition 2000
        (EnhancedAlertEngine.checkIgnition 1000 redisEmpty (recordOf 0 false 1000)
          deviceLinked).2
        (recordOf 0 true 2000) deviceLinked).2 (recordOf 0 true 3000) deviceLinked).1 = [] :=
  (checkIgnition_edge 1000 redisEmpty (recordOf 0 false 1000) deviceLinked rfl).2.2.2.2
    (recordOf 0 false 1000) (recordOf 0 true 2000) (recordOf 0 true 3000) 2000 3000
    (by decide) (by decide) (by decide) (by decide) (by decide) (by decide)

/-- C16, where the claim fails. The stored state has a time to live of 3600
seconds. After a fix with ignition off at instant 1000, a fix with ignition
on two hours later finds no stored state and gives no candidate, and a
third fix with ignition off less than an hour after the second gives
`IgnitionOff`: the state the first fix stored is gone when the second
arrives. -/
theorem checkIgnition_state_expires :
    (EnhancedAlertEngine.checkIgnition 1000 redisEmpty (recordOf 0 false 1000)
      deviceLinked).2.get 7201000 (RedisKey.ignition deviceLinked.vehicleId) = JSVal.null ∧
    (EnhancedAlertEngine.checkIgnition 7201000
      (EnhancedAlertEngine.checkIgnition 1000 redisEmpty (recordOf 0 false 1000) deviceLinked).2
      (recordOf 0 true 7201000) deviceLinked).1 = [] ∧
    (EnhancedAlertEngine.checkIgnition 7202000
      (EnhancedAlertEngine.checkIgnition 7201000
        (EnhancedAlertEngine.checkIgnition 1000 redisEmpty (recordOf 0 false 1000)
          deviceLinked).2
        (recordOf 0 true 7201000) deviceLinked).2
      (recordOf 0 false 7202000) deviceLinked).1.map (fun c => c.type) = ["IgnitionOff"] := by
  decide!

/-! ## The cooldown of `alertEngineEnhanced.js` -/

theorem CooldownInv.mono {base : List Alert} {t now : Int} {s : EngineState}
    (h : CooldownInv base t s) (hle : t ≤ now) : CooldownInv base now s := by
  obtain ⟨created, h1, h2, h3, h4⟩ := h
  exact ⟨created, h1, fun a ha => le_trans (h2 a ha) hle, h3, h4⟩

theorem CooldownInv.congr {base : List Alert} {now : Int} {s s1 : EngineState}
    (h : CooldownInv base now s) (ha : s1.world.alerts = s.world.alerts)
    (hc : s1.alertCooldowns = s.alertCooldowns) : CooldownInv base now s1 := by
  obtain ⟨created, h1, h2, h3, h4⟩ := h
  refine ⟨created, by rw [ha, h1], h2, ?_, h4⟩
  intro a hmem
  obtain ⟨last, hl, hle⟩ := h3 a hmem
  exact ⟨last, by simpa [EnhancedAlertEngine.cooldownOf, hc] using hl, hle⟩

theorem shouldCreateAlert_state (now : Int) (s : EngineState) (c : Candidate) (device : Device) :
    (EnhancedAlertEngine.shouldCreateAlert now s c device).1.world.alerts = s.world.alerts ∧
    (EnhancedAlertEngine.shouldCreateAlert now s c device).1.alertCooldowns =
      s.alertCooldowns := by
  unfold EnhancedAlertEngine.shouldCreateAlert
  simp only
  split
  · exact ⟨rfl, rfl⟩
  · split <;> exact ⟨rfl, rfl⟩

theorem shouldCreateAlert_true (now : Int) (s : EngineState) (c : Candidate) (device : Device)
    (h : (EnhancedAlertEngine.shouldCreateAlert now s c device).2 = some true) :
    ∀ last, EnhancedAlertEngine.cooldownOf s device.vehicleId c.type = some last →
      EnhancedAlertEngine.getCooldownForAlertType c.type ≤ now - last := by
  intro last hlast
  unfold EnhancedAlertEngine.shouldCreateAlert at h
  simp only [hlast] at h
  split at h
  · simp at h
  · rename_i hcool
    simp only [decide_eq_true_eq, not_lt] at hcool
    exact hcool

theorem createAlert_inv (base : List Alert) (now : Int) (s : EngineState) (c : Candidate)
    (device : Device) (hinv : CooldownInv base now s)
    (hpass : ∀ last, EnhancedAlertEngine.cooldownOf s device.vehicleId c.type = some last →
      EnhancedAlertEngine.getCooldownForAlertType c.type ≤ now - last) :
    CooldownInv base now (EnhancedAlertEngine.createAlert now s c device).1 := by
  unfold EnhancedAlertEngine.createAlert
  simp only
  split
  · exact hinv.congr rfl rfl
  · obtain ⟨created, h1, h2, h3, h4⟩ := hinv
    refine ⟨created ++ [
      { tenantId := device.tenantId, vehicleId := device.vehicleId, deviceId := device.id,
        type := c.type, severity := c.severity, status := "New", createdAt := now }],
      ?_, ?_, ?_, ?_⟩
    · simp [World.log, h1]
    · intro a ha
      rcases List.mem_append.mp ha with ha | ha
      · exact h2 a ha
      · simp only [List.mem_singleton] at ha
        subst ha
        exact le_refl _
    · intro a ha
      by_cases hk : (device.vehicleId, c.type) = (a.vehicleId, a.type)
      · refine ⟨now, ?_, ?_⟩
        · simp [EnhancedAlertEngine.cooldownOf, List.find?_cons, hk]
        · rcases List.mem_append.mp ha with ha | ha
          · exact h2 a ha
          · simp only [List.mem_singleton] at ha
            subst ha
            exact le_refl _
      · rcases List.mem_append.mp ha with ha | ha
        · obtain ⟨last, hl, hle⟩ := h3 a ha
          refine ⟨last, ?_, hle⟩
          have hk2 : ((device.vehicleId, c.type) == (a.vehicleId, a.type)) = false := by
            simpa using hk
          simpa [EnhancedAlertEngine.cooldownOf, List.find?_cons, hk2] using hl
        · simp only [List.mem_singleton] at ha
          subst ha
          exact absurd rfl hk
    · rw [List.pairwise_append]
      refine ⟨h4, List.pairwise_singleton _ _, ?_⟩
      intro a ha b hb hv ht
      simp only [List.mem_singleton] at hb
      subst hb
      obtain ⟨last, hl, hle⟩ := h3 a ha
      simp only at hv ht
      rw [hv, ht] at hl
      have := hpass last hl
      simp only
      rw [ht]
      omega

theorem createLoop_inv (base : List Alert) (now : Int) (device : Device) :
    ∀ (cands : List Candidate) (s : EngineState), CooldownInv base now s →
      CooldownInv base now (EnhancedAlertEngine.createLoop now device cands s).1 := by
  intro cands
  induction cands with
  | nil => intro s h; exact h
  | cons c rest ih =>
    intro s h
    have hst := shouldCreateAlert_state now s c device
    have h1 : CooldownInv base now (EnhancedAlertEngine.shouldCreateAlert now s c device).1 :=
      h.congr hst.1 hst.2
    have htrue := shouldCreateAlert_true now s c device
    unfold EnhancedAlertEngine.createLoop
    rcases hres : EnhancedAlertEngine.shouldCreateAlert now s c device with ⟨s1, res⟩
    rw [hres] at h1 hst htrue
    simp only at h1 hst htrue
    cases res with
    | none => exact h1
    | some b =>
      cases b with
      | false => exact ih s1 h1
      | true =>
        have hpass : ∀ last,
            EnhancedAlertEngine.cooldownOf s1 device.vehicleId c.type = some last →
            EnhancedAlertEngine.getCooldownForAlertType c.type ≤ now - last := by
          intro last hl
          apply htrue rfl last
          simpa [EnhancedAlertEngine.cooldownOf, hst.2] using hl
        have h2 := createAlert_inv base now s1 c device h1 hpass
        simp only
        rcases hcr : EnhancedAlertEngine.createAlert now s1 c device with ⟨s2, ok⟩
        rw [hcr] at h2
        cases ok with
        | false => exact h2
        | true => exact ih s2 h2

theorem checkAlerts_inv (C : Conversions) (base : List Alert) (now : Int) (s : EngineState)
    (gpsData : GPSRecord) (device : Device) (h : CooldownInv base now s) :
    CooldownInv base now (EnhancedAlertEngine.checkAlerts C now s gpsData device).1 := by
  unfold EnhancedAlertEngine.checkAlerts
  simp only
  split
  · exact h.congr rfl rfl
  · rename_i maintenance _
    have hs1 : CooldownInv base now
        ({ s with redis := (EnhancedAlertEngine.checkIgnition now
            (EnhancedAlertEngine.checkFuel C now
              (EnhancedAlertEngine.checkGeofence now s.redis gpsData device).2 gpsData
                device).2 gpsData device).2 } : EngineState) :=
      h.congr rfl rfl
    have h2 := createLoop_inv base now device
      (EnhancedAlertEngine.checkSpeeding C now s.redis gpsData device ++
        (EnhancedAlertEngine.checkGeofence now s.redis gpsData device).1 ++
        (EnhancedAlertEngine.checkFuel C now
          (EnhancedAlertEngine.checkGeofence now s.redis gpsData device).2 gpsData device).1 ++
        (EnhancedAlertEngine.checkIgnition now
          (EnhancedAlertEngine.checkFuel C now
            (EnhancedAlertEngine.checkGeofence now s.redis gpsData device).2 gpsData
              device).2 gpsData device).1 ++ maintenance)
      _ hs1
    clear hs1
    split <;> simp_all

theorem run_inv (C : Conversions) (base : List Alert) :
    ∀ (steps : List (Int × GPSRecord × Device)) (s : EngineState) (t : Int),
      (steps.map fun st => st.1).Pairwise (· ≤ ·) → (∀ st ∈ steps, t ≤ st.1) →
      CooldownInv base t s → ∃ t1, CooldownInv base t1 (EnhancedAlertEngine.run C steps s) := by
  intro steps
  induction steps with
  | nil => intro s t _ _ h; exact ⟨t, h⟩
  | cons st rest ih =>
    intro s t hsorted hle h
    simp only [List.map_cons, List.pairwise_cons, List.mem_map, forall_exists_index,
      and_imp, forall_apply_eq_imp_iff₂] at hsorted
    have h1 := checkAlerts_inv C base st.1 s st.2.1 st.2.2
      (h.mono (hle st (List.mem_cons_self _ _)))
    exact ih _ st.1 hsorted.2 hsorted.1 h1

/-- C15. In a sequential run of `checkAlerts` on one engine instance, with
a clock that never goes back, the alerts the run creates are stored after
those present before, and any two of them for one vehicle (so for one device
whose `vehicleId` does not change) and one rule type have creation instants
at least `getCooldownForAlertType` of the type apart; this covers two
candidates of one type pushed by a single fix. The cooldowns are 5, 1, 1,
30, 1, 1 minutes, 24 hours and 15 minutes. -/
theorem cooldown_separates_created_alerts (C : Conversions)
    (steps : List (Int × GPSRecord × Device)) (s : EngineState)
    (hclock : (steps.map fun st => st.1).Pairwise (· ≤ ·)) :
    (∃ created, (EnhancedAlertEngine.run C steps s).world.alerts = s.world.alerts ++ created ∧
      created.Pairwise fun a b => a.vehicleId = b.vehicleId → a.type = b.type →
        EnhancedAlertEngine.getCooldownForAlertType a.type ≤ b.createdAt - a.createdAt) ∧
    EnhancedAlertEngine.getCooldownForAlertType "Speeding" = 300000 ∧
    EnhancedAlertEngine.getCooldownForAlertType "GeofenceEnter" = 60000 ∧
    EnhancedAlertEngine.getCooldownForAlertType "GeofenceExit" = 60000 ∧
    EnhancedAlertEngine.getCooldownForAlertType "FuelDrop" = 1800000 ∧
    EnhancedAlertEngine.getCooldownForAlertType "IgnitionOn" = 60000 ∧
    EnhancedAlertEngine.getCooldownForAlertType "IgnitionOff" = 60000 ∧
    EnhancedAlertEngine.getCooldownForAlertType "MaintenanceDue" = 86400000 ∧
    EnhancedAlertEngine.getCooldownForAlertType "DeviceOffline" = 900000 := by
  refine ⟨?_, by decide, by decide, by decide, by decide, by decide, by decide, by decide,
    by decide⟩
  have h0 : ∀ t, CooldownInv s.world.alerts t s :=
    fun t => ⟨[], by simp, by simp, by simp, List.Pairwise.nil⟩
  cases steps with
  | nil => exact ⟨[], by simp [EnhancedAlertEngine.run], List.Pairwise.nil⟩
  | cons st rest =>
    have hle : ∀ x ∈ st :: rest, st.1 ≤ x.1 := by
      intro x hx
      rcases List.mem_cons.mp hx with rfl | hx
      · exact le_refl _
      · simp only [List.map_cons, List.pairwise_cons, List.mem_map, forall_exists_index,
          and_imp, forall_apply_eq_imp_iff₂] at hclock
        exact hclock.1 x hx
    obtain ⟨t1, created, h1, _, _, h4⟩ := run_inv C s.world.alerts (st :: rest) s st.1 hclock
      hle (h0 st.1)
    exact ⟨created, h1, h4⟩

/-- C15 on a run of three fixes of the linked device, one second and then
four hundred seconds after the first, all above the default limit 120: the
first and the third create a `Speeding` alert, the second is in cooldown. -/
theorem cooldown_separates_created_alerts_witness :
    ((∃ created,
        (EnhancedAlertEngine.run sampleConversions
          [(1000, recordOf 125 true 0, deviceLinked), (2000, recordOf 140 true 0, deviceLinked),
           (400000, recordOf 140 true 0, deviceLinked)] engineFresh).world.alerts =
          engineFresh.world.alerts ++ created ∧
        created.Pairwise fun a b => a.vehicleId = b.vehicleId → a.type = b.type →
          EnhancedAlertEngine.getCooldownForAlertType a.type ≤ b.createdAt - a.createdAt) ∧
      EnhancedAlertEngine.getCooldownForAlertType "Speeding" = 300000 ∧
      EnhancedAlertEngine.getCooldownForAlertType "GeofenceEnter" = 60000 ∧
      EnhancedAlertEngine.getCooldownForAlertType "GeofenceExit" = 60000 ∧
      EnhancedAlertEngine.getCooldownForAlertType "FuelDrop" = 1800000 ∧
      EnhancedAlertEngine.getCooldownForAlertType "IgnitionOn" = 60000 ∧
      EnhancedAlertEngine.getCooldownForAlertType "IgnitionOff" = 60000 ∧
      EnhancedAlertEngine.getCooldownForAlertType "MaintenanceDue" = 86400000 ∧
      EnhancedAlertEngine.getCooldownForAlertType "DeviceOffline" = 900000) ∧
    (EnhancedAlertEngine.run sampleConversions
      [(1000, recordOf 125 true 0, deviceLinked), (2000, recordOf 140 true 0, deviceLinked),
       (400000, recordOf 140 true 0, deviceLinked)] engineFresh).world.alerts.map
        (fun a => (a.type, a.createdAt)) = [("Speeding", 1000), ("Speeding", 400000)] :=
  ⟨cooldown_separates_created_alerts sampleConversions
    [(1000, recordOf 125 true 0, deviceLinked), (2000, recordOf 140 true 0, deviceLinked),
     (400000, recordOf 140 true 0, deviceLinked)] engineFresh (by decide), by decide!⟩

/-! ## The liveness sweep: lemmas -/

theorem filter_replace_other (d : Device) (i : Nat) (hi : i ≠ d.id) :
    ∀ l : List Device,
      ((l.map fun x => if x.id == d.id then d else x).filter fun x => x.id == i) =
        l.filter fun x => x.id == i := by
  intro l
  induction l with
  | nil => rfl
  | cons x l ih =>
    by_cases hx : x.id = d.id
    · have h1 : ¬ d.id = i := fun h => hi h.symm
      have h2 : ¬ x.id = i := fun h => hi (h.symm.trans hx)
      simp [List.filter_cons, hx, h1, ih]
      simpa [hx] using ih
    · simp only [List.map_cons, beq_iff_eq, hx, if_false, List.filter_cons]
      simp only [beq_iff_eq, hx, if_false] at ih
      rw [ih]

theorem filter_replace_self (d : Device) :
    ∀ l : List Device,
      ((l.map fun x => if x.id == d.id then d else x).filter fun x => x.id == d.id).map
          (fun x => x.status) =
        (l.filter fun x => x.id == d.id).map fun _ => d.status := by
  intro l
  induction l with
  | nil => rfl
  | cons x l ih =>
    by_cases hx : x.id = d.id
    · simp only [List.map_cons, beq_iff_eq, hx, if_true, List.filter_cons, List.map_cons]
      simp only [beq_iff_eq] at ih
      rw [ih]
    · simp only [List.map_cons, beq_iff_eq, hx, if_false, List.filter_cons]
      simp only [beq_iff_eq] at ih
      rw [ih]

theorem saveDevice_frame (w : World) (d : Device) :
    (saveDevice w d).1.alerts = w.alerts ∧ (saveDevice w d).1.dbUp = w.dbUp := by
  unfold saveDevice
  simp only
  split
  · exact ⟨rfl, rfl⟩
  · split <;> exact ⟨rfl, rfl⟩

theorem saveDevice_status_other (w : World) (d : Device) (i : Nat) (hi : i ≠ d.id) :
    statusOf (saveDevice w d).1 i = statusOf w i := by
  unfold saveDevice statusOf
  simp only
  split
  · rfl
  · split
    · simp only [World.log]
      rw [filter_replace_other d i hi]
    · have h1 : ¬ d.id = i := fun h => hi h.symm
      simp [World.log, List.filter_append, List.filter_cons, h1]

theorem saveDevice_status_self (w : World) (d : Device) (hdb : w.dbUp = true)
    (hv : deviceValid d = true) (hex : statusOf w d.id ≠ []) :
    (saveDevice w d).2 = true ∧
    statusOf (saveDevice w d).1 d.id = (statusOf w d.id).map fun _ => d.status := by
  have hany : (w.devices.any fun x => x.id == d.id) = true := by
    rw [List.any_eq_true]
    have hne : (w.devices.filter fun x => x.id == d.id) ≠ [] := by
      intro h
      apply hex
      unfold statusOf
      rw [h]
      rfl
    obtain ⟨x, hx⟩ := List.exists_mem_of_ne_nil _ hne
    exact ⟨x, (List.mem_filter.mp hx).1, (List.mem_filter.mp hx).2⟩
  unfold saveDevice statusOf
  simp only [hdb, hv, hany, Bool.not_true, Bool.or_self, Bool.false_eq_true, if_false, if_true,
    World.log, true_and]
  rw [filter_replace_self, List.map_map]
  rfl

theorem saveDevice_notConnected (w : World) (d : Device) (i : Nat)
    (hd : d.status ≠ "Connected") (h : "Connected" ∉ statusOf w i) :
    "Connected" ∉ statusOf (saveDevice w d).1 i := by
  by_cases hi : i = d.id
  · subst hi
    unfold saveDevice statusOf
    simp only
    split
    · exact h
    · split
      · simp only [World.log]
        rw [filter_replace_self]
        intro hmem
        obtain ⟨_, _, heq⟩ := List.mem_map.mp hmem
        exact hd heq
      · unfold statusOf at h
        simp only [World.log, List.filter_append, List.map_append, List.mem_append, not_or]
        refine ⟨h, ?_⟩
        simp [List.filter_cons, Ne.symm hd]
  · rw [saveDevice_status_other w d i hi]
    exact h

theorem offlineRound_dbUp (now : Int) (w : World) (x : Device) :
    (offlineRound now w x).1.dbUp = w.dbUp := by
  unfold offlineRound
  simp only
  split
  · rfl
  · split
    · rfl
    · split
      · rfl
      · split
        · rename_i w3 heq
          have := (saveDevice_frame _ _).2.symm.trans (congrArg (fun p => p.1.dbUp) heq)
          exact this.symm
        · rename_i w3 heq
          have := (saveDevice_frame _ _).2.symm.trans (congrArg (fun p => p.1.dbUp) heq)
          exact this.symm

theorem offlineRound_other (now : Int) (w : World) (x : Device) (i : Nat) (hi : i ≠ x.id) :
    offlineAlertsOf (offlineRound now w x).1 i = offlineAlertsOf w i ∧
    statusOf (offlineRound now w x).1 i = statusOf w i := by
  have hx : ¬ x.id = i := fun h => hi h.symm
  have key : ∀ w3 ok, saveDevice
      { (w.log (Effect.alertFindOne x.id "DeviceOffline")).log
          (Effect.alertSave x.id "DeviceOffline") with
        alerts := ((w.log (Effect.alertFindOne x.id "DeviceOffline")).log
          (Effect.alertSave x.id "DeviceOffline")).alerts ++
          [{ tenantId := x.tenantId, vehicleId := x.vehicleId, deviceId := x.id,
             type := "DeviceOffline", severity := "Medium", status := "New",
             createdAt := now }] }
      { x with status := "Offline" } = (w3, ok) →
      offlineAlertsOf w3 i = offlineAlertsOf w i ∧ statusOf w3 i = statusOf w i := by
    intro w3 ok heq
    have h1 := (saveDevice_frame _ _).1.symm.trans (congrArg (fun p => p.1.alerts) heq)
    have h2 := (saveDevice_status_other _ { x with status := "Offline" } i hi).symm.trans
      (congrArg (fun p => statusOf p.1 i) heq)
    simp only at h1 h2
    refine ⟨?_, h2.symm⟩
    unfold offlineAlertsOf
    rw [← h1]
    simp [World.log, List.filter_append, List.filter_cons, hx]
  unfold offlineRound
  simp only
  split
  · exact ⟨rfl, rfl⟩
  · split
    · exact ⟨rfl, rfl⟩
    · split
      · exact ⟨rfl, rfl⟩
      · split
        · rename_i w3 heq
          exact key w3 false heq
        · rename_i w3 heq
          exact key w3 true heq

theorem offlineRound_notConnected (now : Int) (w : World) (x : Device) (i : Nat)
    (h : "Connected" ∉ statusOf w i) : "Connected" ∉ statusOf (offlineRound now w x).1 i := by
  have key : ∀ w3 ok, saveDevice
      { (w.log (Effect.alertFindOne x.id "DeviceOffline")).log
          (Effect.alertSave x.id "DeviceOffline") with
        alerts := ((w.log (Effect.alertFindOne x.id "DeviceOffline")).log
          (Effect.alertSave x.id "DeviceOffline")).alerts ++
          [{ tenantId := x.tenantId, vehicleId := x.vehicleId, deviceId := x.id,
             type := "DeviceOffline", severity := "Medium", status := "New",
             createdAt := now }] }
      { x with status := "Offline" } = (w3, ok) → "Connected" ∉ statusOf w3 i := by
    intro w3 ok heq
    have h2 := saveDevice_notConnected
      { (w.log (Effect.alertFindOne x.id "DeviceOffline")).log
          (Effect.alertSave x.id "DeviceOffline") with
        alerts := ((w.log (Effect.alertFindOne x.id "DeviceOffline")).log
          (Effect.alertSave x.id "DeviceOffline")).alerts ++
          [{ tenantId := x.tenantId, vehicleId := x.vehicleId, deviceId := x.id,
             type := "DeviceOffline", severity := "Medium", status := "New",
             createdAt := now }] }
      { x with status := "Offline" } i
      (by show ("Offline" : String) ≠ "Connected"; decide) h
    rw [heq] at h2
    exact h2
  unfold offlineRound
  simp only
  split
  · exact h
  · split
    · exact h
    · split
      · exact h
      · split
        · rename_i w3 heq
          exact key w3 false heq
        · rename_i w3 heq
          exact key w3 true heq

theorem deviceValid_offline (x : Device) (h : deviceValid x = true) :
    deviceValid { x with status := "Offline" } = true := by
  unfold deviceValid at h ⊢
  simp only [Bool.and_eq_true] at h ⊢
  exact ⟨h.1, by simp⟩

theorem offlineRound_ok (now : Int) (w : World) (x : Device) (hdb : w.dbUp = true)
    (hv : deviceValid x = true) (hveh : x.vehicleId.isSome = true) :
    (offlineRound now w x).2 = true := by
  have hten : x.tenantId.isSome = true := by
    unfold deviceValid at hv
    simp only [Bool.and_eq_true] at hv
    exact hv.1.1.1
  unfold offlineRound
  simp only [hdb, Bool.not_true, Bool.false_eq_true, if_false, alertValid, hten, hveh,
    Bool.and_self]
  split
  · rfl
  · split
    · rename_i w3 heq
      have h1 : (saveDevice
          { (w.log (Effect.alertFindOne x.id "DeviceOffline")).log
              (Effect.alertSave x.id "DeviceOffline") with
            alerts := ((w.log (Effect.alertFindOne x.id "DeviceOffline")).log
              (Effect.alertSave x.id "DeviceOffline")).alerts ++
              [{ tenantId := x.tenantId, vehicleId := x.vehicleId, deviceId := x.id,
                 type := "DeviceOffline", severity := "Medium", status := "New",
                 createdAt := now }] }
          { x with status := "Offline" }).2 = true := by
        unfold saveDevice
        simp only [World.log, hdb, deviceValid_offline x hv, Bool.not_true, Bool.or_self,
          Bool.false_eq_true, if_false]
        split <;> rfl
      rw [heq] at h1
      exact absurd h1 (by simp)
    · rfl

theorem offlineRound_self (now : Int) (w : World) (d : Device) (hdb : w.dbUp = true)
    (hv : deviceValid d = true) (hveh : d.vehicleId.isSome = true)
    (hopen : ∀ a ∈ offlineAlertsOf w d.id, a.status ≠ "New") (hex : statusOf w d.id ≠ []) :
    offlineAlertsOf (offlineRound now w d).1 d.id = offlineAlertsOf w d.id ++
      [{ tenantId := d.tenantId, vehicleId := d.vehicleId, deviceId := d.id,
         type := "DeviceOffline", severity := "Medium", status := "New", createdAt := now }] ∧
    statusOf (offlineRound now w d).1 d.id = (statusOf w d.id).map fun _ => "Offline" := by
  have hten : d.tenantId.isSome = true := by
    unfold deviceValid at hv
    simp only [Bool.and_eq_true] at hv
    exact hv.1.1.1
  have hfind : (w.alerts.find? fun a =>
      a.deviceId == d.id && a.type == "DeviceOffline" && a.status == "New") = none := by
    rw [List.find?_eq_none]
    intro a ha hp
    simp only [Bool.and_eq_true, beq_iff_eq] at hp
    have hmem : a ∈ offlineAlertsOf w d.id := by
      unfold offlineAlertsOf
      exact List.mem_filter.mpr ⟨ha, by simp [hp.1.1, hp.1.2]⟩
    exact hopen a hmem hp.2
  have hsave := saveDevice_status_self
    { (w.log (Effect.alertFindOne d.id "DeviceOffline")).log
        (Effect.alertSave d.id "DeviceOffline") with
      alerts := ((w.log (Effect.alertFindOne d.id "DeviceOffline")).log
        (Effect.alertSave d.id "DeviceOffline")).alerts ++
        [{ tenantId := d.tenantId, vehicleId := d.vehicleId, deviceId := d.id,
           type := "DeviceOffline", severity := "Medium", status := "New",
           createdAt := now }] }
    { d with status := "Offline" } hdb (deviceValid_offline d hv) hex
  have hframe := saveDevice_frame
    { (w.log (Effect.alertFindOne d.id "DeviceOffline")).log
        (Effect.alertSave d.id "DeviceOffline") with
      alerts := ((w.log (Effect.alertFindOne d.id "DeviceOffline")).log
        (Effect.alertSave d.id "DeviceOffline")).alerts ++
        [{ tenantId := d.tenantId, vehicleId := d.vehicleId, deviceId := d.id,
           type := "DeviceOffline", severity := "Medium", status := "New",
           createdAt := now }] }
    { d with status := "Offline" }
  unfold offlineRound
  simp only [hdb, Bool.not_true, Bool.false_eq_true, if_false, alertValid, hten, hveh,
    Bool.and_self, hfind]
  split
  · rename_i w3 heq
    rw [heq] at hsave
    exact absurd hsave.1 (by simp)
  · rename_i w3 heq
    rw [heq] at hsave hframe
    simp only at hsave hframe
    refine ⟨?_, ?_⟩
    · unfold offlineAlertsOf
      simp only [World.log, hframe.1, List.filter_append, List.filter_cons, beq_self_eq_true,
        Bool.and_self, if_true, List.filter_nil]
    · have h2 := hsave.2
      unfold statusOf at h2 ⊢
      simp only [World.log] at h2 ⊢
      exact h2

theorem offlineLoop_others (now : Int) (i : Nat) :
    ∀ (ds : List Device) (w : World), (∀ x ∈ ds, x.id ≠ i) →
      offlineAlertsOf (offlineLoop now ds w).1 i = offlineAlertsOf w i ∧
      statusOf (offlineLoop now ds w).1 i = statusOf w i := by
  intro ds
  induction ds with
  | nil => intro w _; exact ⟨rfl, rfl⟩
  | cons x rest ih =>
    intro w h
    have hx := offlineRound_other now w x i (fun e => h x (List.mem_cons_self _ _) e.symm)
    have hrest : ∀ y ∈ rest, y.id ≠ i := fun y hy => h y (List.mem_cons_of_mem _ hy)
    unfold offlineLoop
    rcases hr : offlineRound now w x with ⟨w1, ok⟩
    rw [hr] at hx
    cases ok with
    | false => exact hx
    | true =>
      have := ih w1 hrest
      exact ⟨this.1.trans hx.1, this.2.trans hx.2⟩

theorem offlineLoop_ok (now : Int) :
    ∀ (ds : List Device) (w : World), w.dbUp = true →
      (∀ x ∈ ds, deviceValid x = true ∧ x.vehicleId.isSome = true) →
      (offlineLoop now ds w).2 = true ∧ (offlineLoop now ds w).1.dbUp = true := by
  intro ds
  induction ds with
  | nil => intro w hdb _; exact ⟨rfl, hdb⟩
  | cons x rest ih =>
    intro w hdb h
    have hx := h x (List.mem_cons_self _ _)
    have hok := offlineRound_ok now w x hdb hx.1 hx.2
    have hdb1 := offlineRound_dbUp now w x
    unfold offlineLoop
    rcases hr : offlineRound now w x with ⟨w1, ok⟩
    rw [hr] at hok hdb1
    simp only at hok hdb1
    subst hok
    exact ih w1 (hdb1.trans hdb) fun y hy => h y (List.mem_cons_of_mem _ hy)

theorem offlineLoop_append (now : Int) (l2 : List Device) :
    ∀ (l1 : List Device) (w : World), (offlineLoop now l1 w).2 = true →
      offlineLoop now (l1 ++ l2) w = offlineLoop now l2 (offlineLoop now l1 w).1 := by
  intro l1
  induction l1 with
  | nil => intro w _; rfl
  | cons x rest ih =>
    intro w h
    simp only [List.cons_append, offlineLoop] at h ⊢
    rcases hr : offlineRound now w x with ⟨w1, ok⟩
    rw [hr] at h
    cases ok with
    | false => simp at h
    | true => exact ih w1 h

theorem sweep_notConnected (now : Int) (w : World) (i : Nat)
    (h : "Connected" ∉ statusOf w i) :
    offlineAlertsOf (checkDeviceOfflineAlerts now w).1 i = offlineAlertsOf w i ∧
    statusOf (checkDeviceOfflineAlerts now w).1 i = statusOf w i := by
  unfold checkDeviceOfflineAlerts
  split
  · exact ⟨rfl, rfl⟩
  · apply offlineLoop_others
    intro x hx hid
    obtain ⟨hmem, hst⟩ := List.mem_filter.mp hx
    apply h
    unfold isStale at hst
    simp only [Bool.and_eq_true, beq_iff_eq] at hst
    unfold statusOf
    exact List.mem_map.mpr ⟨x, List.mem_filter.mpr ⟨hmem, by simp [hid]⟩, hst.1⟩

theorem sweeps_notConnected (i : Nat) :
    ∀ (times : List Int) (w : World), "Connected" ∉ statusOf w i →
      offlineAlertsOf (sweeps times w) i = offlineAlertsOf w i ∧
      statusOf (sweeps times w) i = statusOf w i := by
  intro times
  induction times with
  | nil => intro w _; exact ⟨rfl, rfl⟩
  | cons t rest ih =>
    intro w h
    have h1 := sweep_notConnected t w i h
    have h2 := ih (checkDeviceOfflineAlerts t w).1 (by rw [h1.2]; exact h)
    unfold sweeps
    exact ⟨h2.1.trans h1.1, h2.2.trans h1.2⟩

theorem filter_id_of_nodup (d : Device) :
    ∀ l : List Device, (l.map fun x => x.id).Nodup → d ∈ l →
      (l.filter fun x => x.id == d.id) = [d] := by
  intro l
  induction l with
  | nil => intro _ h; cases h
  | cons x l ih =>
    intro hnd hd
    simp only [List.map_cons, List.nodup_cons, List.mem_map, not_exists, not_and] at hnd
    rcases List.mem_cons.mp hd with rfl | hd
    · have : (l.filter fun x => x.id == d.id) = [] := by
        rw [List.filter_eq_nil_iff]
        intro y hy
        simpa using hnd.1 y hy
      simp [List.filter_cons, this]
    · have hx : ¬ x.id = d.id := fun e => hnd.1 d hd e.symm
      simp only [List.filter_cons, beq_iff_eq, hx, if_false]
      exact ih hnd.2 hd

theorem first_sweep (now : Int) (w : World) (d : Device)
    (hdb : w.dbUp = true) (hd : d ∈ w.devices) (hstale : isStale now d = true)
    (hids : (w.devices.map fun x => x.id).Nodup)
    (hvalid : ∀ x ∈ w.devices, isStale now x = true →
      deviceValid x = true ∧ x.vehicleId.isSome = true)
    (hopen : ∀ a ∈ offlineAlertsOf w d.id, a.status ≠ "New") :
    offlineAlertsOf (checkDeviceOfflineAlerts now w).1 d.id = offlineAlertsOf w d.id ++
      [{ tenantId := d.tenantId, vehicleId := d.vehicleId, deviceId := d.id,
         type := "DeviceOffline", severity := "Medium", status := "New", createdAt := now }] ∧
    statusOf (checkDeviceOfflineAlerts now w).1 d.id = ["Offline"] := by
  have hstat : statusOf w d.id = [d.status] := by
    unfold statusOf
    rw [filter_id_of_nodup d w.devices hids hd]
    rfl
  have hdmem : d ∈ w.devices.filter (isStale now) := List.mem_filter.mpr ⟨hd, hstale⟩
  obtain ⟨pre, post, hsplit⟩ := List.append_of_mem hdmem
  have hnd : ((pre ++ d :: post).map fun x => x.id).Nodup := by
    rw [← hsplit]
    exact List.Nodup.sublist ((List.filter_sublist _).map _) hids
  rw [List.map_append, List.map_cons] at hnd
  obtain ⟨_, hn2, hdisj⟩ := List.nodup_append.mp hnd
  have hpre : ∀ x ∈ pre, x.id ≠ d.id := by
    intro x hx e
    exact hdisj (List.mem_map.mpr ⟨x, hx, rfl⟩) (by rw [e]; exact List.mem_cons_self _ _)
  have hpost : ∀ x ∈ post, x.id ≠ d.id := by
    intro x hx e
    exact (List.nodup_cons.mp hn2).1 (List.mem_map.mpr ⟨x, hx, e⟩)
  have hval : ∀ x ∈ pre ++ d :: post, deviceValid x = true ∧ x.vehicleId.isSome = true := by
    intro x hx
    rw [← hsplit] at hx
    exact hvalid x (List.mem_filter.mp hx).1 (List.mem_filter.mp hx).2
  have hpreok := offlineLoop_ok now pre w hdb fun x hx => hval x (List.mem_append_left _ hx)
  have hpreoth := offlineLoop_others now d.id pre w hpre
  have hdval := hval d (List.mem_append_right _ (List.mem_cons_self _ _))
  have hself := offlineRound_self now (offlineLoop now pre w).1 d hpreok.2 hdval.1 hdval.2
    (by rw [hpreoth.1]; exact hopen) (by rw [hpreoth.2, hstat]; simp)
  have hdok := offlineRound_ok now (offlineLoop now pre w).1 d hpreok.2 hdval.1 hdval.2
  have hpostoth := offlineLoop_others now d.id post (offlineRound now (offlineLoop now pre w).1 d).1
    hpost
  have hloop : offlineLoop now (pre ++ d :: post) w =
      offlineLoop now post (offlineRound now (offlineLoop now pre w).1 d).1 := by
    rw [offlineLoop_append now (d :: post) pre w hpreok.1]
    simp only [offlineLoop]
    rcases hr : offlineRound now (offlineLoop now pre w).1 d with ⟨w1, ok⟩
    rw [hr] at hdok
    simp only at hdok
    subst hdok
    rfl
  unfold checkDeviceOfflineAlerts
  simp only [hdb, Bool.not_true, Bool.false_eq_true, if_false, hsplit, hloop]
  refine ⟨?_, ?_⟩
  · rw [hpostoth.1, hself.1, hpreoth.1]
  · rw [hpostoth.2, hself.2, hpreoth.2, hstat]
    rfl

/-- C18 (as stated, refuted). A `Connected` device silent for sixteen
minutes gets no `DeviceOffline` alert from two sweeps, and stays
`Connected`, when an alert of an earlier outage is still open; and when the
device is linked to no vehicle the new alert fails validation, the sweep
throws, no alert is stored and the device stays `Connected`. -/
theorem sweep_creates_no_alert :
    isStale 1696150000000 deviceSilent = true ∧
    offlineAlertsOf (sweeps [1696150000000, 1696150300000] worldSilentOpenAlert) 1 =
      offlineAlertsOf worldSilentOpenAlert 1 ∧
    statusOf (sweeps [1696150000000, 1696150300000] worldSilentOpenAlert) 1 = ["Connected"] ∧
    (checkDeviceOfflineAlerts 1696150000000 worldSilentNoVehicle).2 = false ∧
    offlineAlertsOf (sweeps [1696150000000, 1696150300000] worldSilentNoVehicle) 1 = [] ∧
    statusOf (sweeps [1696150000000, 1696150300000] worldSilentNoVehicle) 1 = ["Connected"] := by
  refine ⟨by decide, by decide, by decide, by decide, by decide, by decide⟩

/-- C18 (amended). With the database reachable and device ids unique, let
every device the sweep at `now` selects pass the device schema and be linked
to a vehicle, and let `d` be one of them with no open `DeviceOffline`
alert. Then the sweep at `now` stores exactly one new `DeviceOffline`
alert for `d` and sets its status to `Offline`, and after any further
sweeps, at whatever instants, the alerts of `d` are the same and the
status is still `Offline`. -/
theorem sweep_creates_one_alert (now : Int) (later : List Int) (w : World) (d : Device)
    (hdb : w.dbUp = true) (hd : d ∈ w.devices) (hstale : isStale now d = true)
    (hids : (w.devices.map fun x => x.id).Nodup)
    (hvalid : ∀ x ∈ w.devices, isStale now x = true →
      deviceValid x = true ∧ x.vehicleId.isSome = true)
    (hopen : ∀ a ∈ offlineAlertsOf w d.id, a.status ≠ "New") :
    offlineAlertsOf (checkDeviceOfflineAlerts now w).1 d.id = offlineAlertsOf w d.id ++
      [{ tenantId := d.tenantId, vehicleId := d.vehicleId, deviceId := d.id,
         type := "DeviceOffline", severity := "Medium", status := "New", createdAt := now }] ∧
    statusOf (checkDeviceOfflineAlerts now w).1 d.id = ["Offline"] ∧
    offlineAlertsOf (sweeps (now :: later) w) d.id = offlineAlertsOf w d.id ++
      [{ tenantId := d.tenantId, vehicleId := d.vehicleId, deviceId := d.id,
         type := "DeviceOffline", severity := "Medium", status := "New", createdAt := now }] ∧
    statusOf (sweeps (now :: later) w) d.id = ["Offline"] := by
  have h1 := first_sweep now w d hdb hd hstale hids hvalid hopen
  have hnc : "Connected" ∉ statusOf (checkDeviceOfflineAlerts now w).1 d.id := by
    rw [h1.2]
    decide
  have h2 := sweeps_notConnected d.id later (checkDeviceOfflineAlerts now w).1 hnc
  refine ⟨h1.1, h1.2, ?_, ?_⟩
  · show offlineAlertsOf (sweeps later (checkDeviceOfflineAlerts now w).1) d.id = _
    rw [h2.1, h1.1]
  · show statusOf (sweeps later (checkDeviceOfflineAlerts now w).1) d.id = _
    rw [h2.2, h1.2]

/-- The amended C18 on the world whose only device is linked and has been
silent for sixteen minutes, swept three times five minutes apart. -/
theorem sweep_creates_one_alert_witness :
    offlineAlertsOf (checkDeviceOfflineAlerts 1696150000000 worldSilent).1 deviceSilent.id =
      offlineAlertsOf worldSilent deviceSilent.id ++
      [{ tenantId := deviceSilent.tenantId, vehicleId := deviceSilent.vehicleId,
         deviceId := deviceSilent.id, type := "DeviceOffline", severity := "Medium",
         status := "New", createdAt := 1696150000000 }] ∧
    statusOf (checkDeviceOfflineAlerts 1696150000000 worldSilent).1 deviceSilent.id =
      ["Offline"] ∧
    offlineAlertsOf (sweeps (1696150000000 :: [1696150300000, 1696150600000]) worldSilent)
        deviceSilent.id =
      offlineAlertsOf worldSilent deviceSilent.id ++
      [{ tenantId := deviceSilent.tenantId, vehicleId := deviceSilent.vehicleId,
         deviceId := deviceSilent.id, type := "DeviceOffline", severity := "Medium",
         status := "New", createdAt := 1696150000000 }] ∧
    statusOf (sweeps (1696150000000 :: [1696150300000, 1696150600000]) worldSilent)
      deviceSilent.id = ["Offline"] :=
  sweep_creates_one_alert 1696150000000 [1696150300000, 1696150600000] worldSilent deviceSilent
    rfl (by decide) (by decide) (by decide) (by decide) (by decide)


/-! ## The acknowledgement -/

/-- C21, what the code does instead: on a socket, `sendAcknowledgement`
writes the Teltonika token followed by a carriage return and a line feed,
which is not the token alone. -/
theorem sendAcknowledgement_appends_line_end :
    (sendAcknowledgement samplePlatform emptyWorld socket "Teltonika".toList).trace =
      [Effect.write ['0', '1', '\r', '\n']] ∧
    (['0', '1', '\r', '\n'] : List Char) ≠ "01".toList := by
  decide

/-- C21, amended. For every brand that does not name a member of
`Object.prototype` (so for every brand of the device schema),
`sendAcknowledgement` on a connection with a `write` method writes once: the
token of the brand (`01` for Teltonika, `ACK` for Queclink and Meitrack,
`OK` for Concox, Custom and any other brand) followed by a carriage return
and a line feed; on a connection without `write` it does nothing. -/
theorem sendAcknowledgement_token (P : Platform) (w : World) (brand : List Char)
    (hbrand : String.mk brand ∉ inheritedReturning ++ inheritedThrowing) :
    sendAcknowledgement P w { hasWrite := true } brand =
      w.log (Effect.write
        ((if brand = "Teltonika".toList then "01".toList
          else if brand = "Queclink".toList ∨ brand = "Meitrack".toList then "ACK".toList
          else "OK".toList) ++ ['\r', '\n'])) ∧
    sendAcknowledgement P w { hasWrite := false } brand = w := by
  refine ⟨?_, rfl⟩
  unfold sendAcknowledgement ackToken
  simp only [if_true]
  by_cases h1 : brand = "Teltonika".toList
  · simp [h1]
  · by_cases h2 : brand = "Concox".toList
    · subst h2
      simp only [if_neg h1, if_true]
      rw [if_neg (by decide)]
    · by_cases h3 : brand = "Queclink".toList
      · simp [h1, h2, h3]
      · by_cases h4 : brand = "Meitrack".toList
        · simp [h1, h2, h3, h4]
        · by_cases h5 : brand = "Custom".toList
          · subst h5
            simp only [if_neg h1, if_neg h2, if_neg h3, if_neg h4, if_true]
            rw [if_neg (by decide)]
          · simp only [if_neg h1, if_neg h2, if_neg h3, if_neg h4, if_neg h5, if_neg hbrand]
            rw [if_neg (not_or.mpr ⟨h3, h4⟩)]

/-- C21 amended, on the brand `Other` of the device schema: the text written
is `OK` followed by a carriage return and a line feed. -/
theorem sendAcknowledgement_token_witness :
    sendAcknowledgement samplePlatform emptyWorld { hasWrite := true } "Other".toList =
      emptyWorld.log (Effect.write ['O', 'K', '\r', '\n']) ∧
    sendAcknowledgement samplePlatform emptyWorld { hasWrite := false } "Other".toList =
      emptyWorld :=
  sendAcknowledgement_token samplePlatform emptyWorld "Other".toList (by decide)

/-! ## The release of a connection -/

theorem setSession_session (w : World) (imei : List Char) (info : SessionInfo) :
    (w.setSession imei info).session imei = some info := by
  unfold World.setSession World.session
  simp only
  split
  · rename_i hsome
    have hmap : ∀ l : List (List Char × SessionInfo),
        (l.find? fun kv => kv.1 == imei).isSome = true →
        (l.map fun kv => if kv.1 == imei then (imei, info) else kv).find?
          (fun kv => kv.1 == imei) = some (imei, info) := by
      intro l
      induction l with
      | nil => intro h; simp at h
      | cons x l ih =>
        intro h
        by_cases hx : x.1 = imei
        · simp [List.find?_cons, hx]
        · have hx1 : (x.1 == imei) = false := by simpa using hx
          simp only [List.find?_cons, hx1] at h
          simp only [List.map_cons, hx1, Bool.false_eq_true, if_false, List.find?_cons]
          exact ih h
    rw [hmap _ hsome]
    rfl
  · rename_i hnone
    simp only [Bool.not_eq_true, Option.not_isSome, Option.isNone_iff_eq_none] at hnone
    simp [List.find?_append, hnone]

theorem refreshAndTrack_session (now : Int) (w : World) (imei : List Char) (device : Device)
    (w1 : World) (d : Device) (h : refreshAndTrack now w imei device = (w1, some d)) :
    (w1.session imei).isSome = true := by
  unfold refreshAndTrack at h
  simp only at h
  split at h
  · split at h
    · simp only [Prod.mk.injEq] at h
      rw [← h.1, setSession_session]
      rfl
    · simp at h
  · simp only [Prod.mk.injEq] at h
    rw [← h.1, setSession_session]
    rfl

theorem getOrRegisterDevice_session (now : Int) (w : World) (imei : List Char)
    (w1 : World) (d : Device) (h : getOrRegisterDevice now w imei = (w1, some d)) :
    (w1.session imei).isSome = true := by
  unfold getOrRegisterDevice at h
  simp only at h
  split at h
  · simp at h
  · split at h
    · exact refreshAndTrack_session _ _ _ _ _ _ h
    · split at h
      · exact refreshAndTrack_session _ _ _ _ _ _ h
      · simp at h

theorem findIMEIByClientId_none (w : World) (clientId : List Char) :
    findIMEIByClientId w clientId = none := by
  unfold findIMEIByClientId
  rw [Option.map_eq_none', List.find?_eq_none]
  intro kv _
  simp [SessionInfo.clientId]

/-- C22, what the code does instead. After `getOrRegisterDevice` returned a
device for an identifier, the session entry of the identifier is in
`connectedDevices`, and `cleanupDevice` with any client id changes nothing:
the entry stays, as do all other entries and `deviceBuffers`. (The entries
carry no `clientId`, so `findIMEIByClientId` finds none.) -/
theorem cleanupDevice_releases_nothing (now : Int) (w : World) (imei : List Char) (w1 : World)
    (device : Device) (h : getOrRegisterDevice now w imei = (w1, some device))
    (buffers : List (List Char × List Char)) (clientId : List Char) :
    (w1.session imei).isSome = true ∧
    cleanupDevice { world := w1, deviceBuffers := buffers } clientId =
      { world := w1, deviceBuffers := buffers } := by
  refine ⟨getOrRegisterDevice_session now w imei w1 device h, ?_⟩
  unfold cleanupDevice
  simp only [findIMEIByClientId_none]

/-- C22 on the linked device: after its frame was attributed to it, closing
the connection `10.0.0.5:40000` leaves its session entry in place. -/
theorem cleanupDevice_releases_nothing_witness :
    ((getOrRegisterDevice 1696149020000 worldLinked "123456789012345".toList).1.session
      "123456789012345".toList).isSome = true ∧
    cleanupDevice
      { world := (getOrRegisterDevice 1696149020000 worldLinked "123456789012345".toList).1
        deviceBuffers := [] } "10.0.0.5:40000".toList =
      { world := (getOrRegisterDevice 1696149020000 worldLinked "123456789012345".toList).1
        deviceBuffers := [] } :=
  cleanupDevice_releases_nothing 1696149020000 worldLinked "123456789012345".toList
    (getOrRegisterDevice 1696149020000 worldLinked "123456789012345".toList).1 deviceLinked
    (by decide!) [] "10.0.0.5:40000".toList

/-! ## The fuel and maintenance checks of `alertEngineEnhanced.js` -/

/-- C23, where the claim fails. With the level 20.1 stored and a fix of
level 10.1, each held as the double nearest to it, `checkFuel` pushes a
`FuelDrop` candidate whose `dropAmount` is 10 + 2^-49, printed
10.000000000000002, though the drop from 20.1 to 10.1 is exactly 10. And a
level stored at instant 1000 is gone an hour later: the key has a time to
live of 3600 seconds. -/
theorem checkFuel_rounds_the_difference :
    (EnhancedAlertEngine.checkFuel sampleConversions 1000 redisFuel201 recordFuel101
      deviceLinked).1 =
      [{ type := "FuelDrop", severity := "High"
         data := CandidateData.fuelDrop (JSVal.num (JSNum.ofRat (201 / 10)))
           (JSNum.ofRat (101 / 10)) (JSNum.fin (10 + 1 / 2 ^ 49)) (JSNum.fin (-(2469 / 2000)))
           (JSNum.fin (182839 / 5000)) }] ∧
    ¬ ((201 / 10 - 101 / 10 : ℚ) > 10) ∧
    (EnhancedAlertEngine.checkFuel sampleConversions 1000 redisFuel50 (recordFuel 40)
      deviceLinked).2.get 3601000 (RedisKey.fuelLevel deviceLinked.vehicleId) = JSVal.null := by
  refine ⟨by decide!, by norm_num, by decide!⟩

/-- C23, amended. On a Redis that answers, `checkFuel` on a fix with fuel
level `f`: with no stored previous level it pushes nothing; with a stored
previous level `p` it pushes one `FuelDrop` candidate of severity `High`
exactly when the double difference of `p` and `f` (the double nearest to
`p - f`) is above 10, and the `dropAmount` of the candidate is that double;
either way the stored level is `f` afterwards, for the hour its time to live
lasts. On a fix without a fuel level it pushes nothing and leaves Redis as
it was. -/
theorem checkFuel_drop (C : Conversions) (now : Int) (r : Redis) (gpsData : GPSRecord)
    (device : Device) (hup : r.up = true) :
    (gpsData.fix.fuelLevel = none →
      EnhancedAlertEngine.checkFuel C now r gpsData device = ([], r)) ∧
    (∀ f : ℚ, gpsData.fix.fuelLevel = some (JSNum.fin f) →
      (r.get now (RedisKey.fuelLevel device.vehicleId) = JSVal.null →
        (EnhancedAlertEngine.checkFuel C now r gpsData device).1 = []) ∧
      (∀ p : ℚ, r.get now (RedisKey.fuelLevel device.vehicleId) = JSVal.num (JSNum.fin p) →
        (EnhancedAlertEngine.checkFuel C now r gpsData device).1 =
          if (JSNum.ofRat (p - f)).gt (JSNum.fin 10) = true then
            [{ type := "FuelDrop", severity := "High"
               data := CandidateData.fuelDrop (JSVal.num (JSNum.fin p)) (JSNum.fin f)
                 (JSNum.ofRat (p - f)) gpsData.fix.lat gpsData.fix.lng }]
          else []) ∧
      (∀ t : Int, t < now + 3600 * 1000 →
        (EnhancedAlertEngine.checkFuel C now r gpsData device).2.get t
          (RedisKey.fuelLevel device.vehicleId) = JSVal.num (JSNum.fin f))) := by
  refine ⟨?_, ?_⟩
  · intro hnone
    unfold EnhancedAlertEngine.checkFuel
    rw [hnone]
  · intro f hf
    unfold EnhancedAlertEngine.checkFuel
    rw [hf]
    refine ⟨?_, ?_, ?_⟩
    · intro hnull
      simp [hnull]
    · intro p hp
      simp only [hp, JSVal.toNumber, JSNum.subD, JSNum.neg, JSNum.add, JSNum.round, ne_eq,
        reduceCtorEq, not_false_eq_true, true_and, sub_eq_add_neg]
    · intro t ht
      exact Redis.get_set r now t _ _ _ 3600 hup rfl ht

/-- C23 amended, on a stored level of 50: a fix with level 40, a drop of
exactly 10, pushes nothing and leaves the level 40 stored; a fix with level
39 pushes one candidate with `dropAmount` 11. -/
theorem checkFuel_drop_witness :
    (EnhancedAlertEngine.checkFuel sampleConversions 1000 redisFuel50 (recordFuel 40)
      deviceLinked).1 = [] ∧
    (EnhancedAlertEngine.checkFuel sampleConversions 1000 redisFuel50 (recordFuel 40)
      deviceLinked).2.get 2000 (RedisKey.fuelLevel deviceLinked.vehicleId) =
        JSVal.num (JSNum.fin 40) ∧
    (EnhancedAlertEngine.checkFuel sampleConversions 1000 redisFuel50 (recordFuel 39)
      deviceLinked).1 =
      [{ type := "FuelDrop", severity := "High"
         data := CandidateData.fuelDrop (JSVal.num (JSNum.fin 50)) (JSNum.fin 39)
           (JSNum.fin 11) (JSNum.fin (-(2469 / 2000))) (JSNum.fin (182839 / 5000)) }] := by
  have h := (checkFuel_drop sampleConversions 1000 redisFuel50 (recordFuel 40) deviceLinked
    rfl).2 40 rfl
  have h39 := (checkFuel_drop sampleConversions 1000 redisFuel50 (recordFuel 39) deviceLinked
    rfl).2 39 rfl
  refine ⟨?_, h.2.2 2000 (by decide), ?_⟩
  · rw [h.2.1 50 (by decide!)]
    have hno : (JSNum.ofRat (50 - 40)).gt (JSNum.fin 10) = false := by decide!
    rw [hno]
    rfl
  · rw [h39.2.1 50 (by decide!)]
    have hyes : (JSNum.ofRat (50 - 39)).gt (JSNum.fin 10) = true := by decide!
    have hval : JSNum.ofRat (50 - 39) = JSNum.fin 11 := by decide!
    rw [if_pos hyes, hval]
    rfl

theorem daysRemaining_window (now d : Int) :
    (EnhancedAlertEngine.daysRemaining now d ≤ 7 ∧ EnhancedAlertEngine.daysRemaining now d > 0) ↔
      (0 < d - now ∧ d - now ≤ 7 * 86400000) := by
  unfold EnhancedAlertEngine.daysRemaining
  rw [gt_iff_lt, Int.ceil_pos, Int.ceil_le]
  have hpos : (0 : ℚ) < 1000 * 60 * 60 * 24 := by norm_num
  rw [div_le_iff₀ hpos, div_pos_iff_of_pos_right hpos]
  constructor
  · rintro ⟨h1, h2⟩
    refine ⟨by exact_mod_cast h2, ?_⟩
    have : ((d - now : Int) : ℚ) ≤ ((7 * 86400000 : Int) : ℚ) := by
      refine le_trans h1 ?_
      norm_num
    exact_mod_cast this
  · rintro ⟨h1, h2⟩
    refine ⟨?_, by exact_mod_cast h1⟩
    have : ((d - now : Int) : ℚ) ≤ ((7 * 86400000 : Int) : ℚ) := by exact_mod_cast h2
    refine le_trans this ?_
    norm_num

theorem maintenanceRound_mem (now : Int) (m : Maintenance) (c : Candidate) :
    c ∈ EnhancedAlertEngine.maintenanceRound now m ↔
      (0 < m.nextDueDate.getD 0 - now ∧ m.nextDueDate.getD 0 - now ≤ 7 * 86400000) ∧
      c = { type := "MaintenanceDue", severity := "Medium"
            data := CandidateData.maintenance m.id m.description (m.nextDueDate.getD 0)
              (EnhancedAlertEngine.daysRemaining now (m.nextDueDate.getD 0)) } := by
  unfold EnhancedAlertEngine.maintenanceRound
  rw [← daysRemaining_window]
  split
  · rename_i h
    simp [h]
  · rename_i h
    simp [h]

theorem mem_insertionSort_iff {α : Type} (r : α → α → Prop) [DecidableRel r] (l : List α)
    (a : α) : a ∈ l.insertionSort r ↔ a ∈ l :=
  (List.perm_insertionSort r l).mem_iff

theorem checkMaintenance_mem (now : Int) (s : EngineState) (device : Device) (v : Nat)
    (hdb : s.world.dbUp = true) (hv : device.vehicleId = some v) :
    ∃ alerts, EnhancedAlertEngine.checkMaintenance now s device = some alerts ∧
      ∀ c, c ∈ alerts ↔ ∃ m ∈ s.maintenance, ∃ d, m.vehicleId = v ∧ m.nextDueDate = some d ∧
        (0 < d - now ∧ d - now ≤ 7 * 86400000) ∧
        c = { type := "MaintenanceDue", severity := "Medium"
              data := CandidateData.maintenance m.id m.description d
                (EnhancedAlertEngine.daysRemaining now d) } := by
  unfold EnhancedAlertEngine.checkMaintenance EnhancedAlertEngine.getUpcomingMaintenance
  simp only [hv, hdb, Bool.not_true, Bool.false_eq_true, if_false, Option.map_some']
  refine ⟨_, rfl, ?_⟩
  intro c
  rw [List.mem_flatten]
  constructor
  · rintro ⟨l, hl, hc⟩
    obtain ⟨m, hm, rfl⟩ := List.mem_map.mp hl
    rw [mem_insertionSort_iff, List.mem_filter] at hm
    obtain ⟨hm, hcond⟩ := hm
    obtain ⟨hwin, hc⟩ := (maintenanceRound_mem now m c).mp hc
    simp only [Bool.and_eq_true, beq_iff_eq] at hcond
    cases hd : m.nextDueDate with
    | none => simp [hd] at hcond
    | some d =>
      rw [hd] at hwin hc
      exact ⟨m, hm, d, hcond.1, hd, hwin, hc⟩
  · rintro ⟨m, hm, d, hmv, hd, hwin, hc⟩
    refine ⟨EnhancedAlertEngine.maintenanceRound now m, List.mem_map.mpr ⟨m, ?_, rfl⟩, ?_⟩
    · rw [mem_insertionSort_iff, List.mem_filter]
      refine ⟨hm, ?_⟩
      simp only [hmv, hd, beq_self_eq_true, Bool.true_and, decide_eq_true_eq]
      omega
    · rw [maintenanceRound_mem, hd]
      exact ⟨hwin, hc⟩

/-- C24. With the database reachable, `checkMaintenance` for a device linked
to a vehicle returns, and for every maintenance record of the vehicle with
due instant `d` its result holds the `MaintenanceDue` candidate of the record
exactly when `0 < d - now <= 7 days`; the candidate carries
`daysRemaining = ceil ((d - now) / 86400000)`, which then lies in 1..7; and
the result holds no other candidate. -/
theorem checkMaintenance_due (now : Int) (s : EngineState) (device : Device) (v : Nat)
    (hdb : s.world.dbUp = true) (hv : device.vehicleId = some v) :
    ∃ alerts, EnhancedAlertEngine.checkMaintenance now s device = some alerts ∧
      (∀ m ∈ s.maintenance, ∀ d, m.vehicleId = v → m.nextDueDate = some d →
        ((({ type := "MaintenanceDue", severity := "Medium"
             data := CandidateData.maintenance m.id m.description d
               (EnhancedAlertEngine.daysRemaining now d) } : Candidate) ∈ alerts ↔
          (0 < d - now ∧ d - now ≤ 7 * 86400000)) ∧
        EnhancedAlertEngine.daysRemaining now d = ⌈((d - now : Int) : ℚ) / 86400000⌉ ∧
        ((0 < d - now ∧ d - now ≤ 7 * 86400000) →
          1 ≤ EnhancedAlertEngine.daysRemaining now d ∧
          EnhancedAlertEngine.daysRemaining now d ≤ 7))) ∧
      (∀ c ∈ alerts, ∃ m ∈ s.maintenance, ∃ d, m.vehicleId = v ∧ m.nextDueDate = some d ∧
        c = { type := "MaintenanceDue", severity := "Medium"
              data := CandidateData.maintenance m.id m.description d
                (EnhancedAlertEngine.daysRemaining now d) }) := by
  obtain ⟨alerts, hal, hmem⟩ := checkMaintenance_mem now s device v hdb hv
  refine ⟨alerts, hal, ?_, ?_⟩
  · intro m hm d hmv hd
    refine ⟨?_, ?_, ?_⟩
    · rw [hmem]
      constructor
      · rintro ⟨m1, _, d1, _, _, hwin, hc⟩
        simp only [Candidate.mk.injEq, CandidateData.maintenance.injEq, true_and] at hc
        rw [hc.2.2.1]
        exact hwin
      · intro hwin
        exact ⟨m, hm, d, hmv, hd, hwin, rfl⟩
    · unfold EnhancedAlertEngine.daysRemaining
      norm_num
    · intro hwin
      have := (daysRemaining_window now d).mpr hwin
      omega
  · intro c hc
    obtain ⟨m, hm, d, hmv, hd, _, hc1⟩ := (hmem c).mp hc
    exact ⟨m, hm, d, hmv, hd, hc1⟩

/-- C24 on a record due six and a half days after `now`: the result is its
candidate, with seven days remaining. -/
theorem checkMaintenance_due_witness :
    ∃ alerts, EnhancedAlertEngine.checkMaintenance 1696149015000 engineService deviceLinked =
        some alerts ∧
      (({ type := "MaintenanceDue", severity := "Medium"
          data := CandidateData.maintenance 3 "Oil change".toList 1696710615000
            (EnhancedAlertEngine.daysRemaining 1696149015000 1696710615000) } : Candidate) ∈
        alerts) ∧
      EnhancedAlertEngine.daysRemaining 1696149015000 1696710615000 = 7 := by
  obtain ⟨alerts, hal, h1, _⟩ :=
    checkMaintenance_due 1696149015000 engineService deviceLinked 7 rfl rfl
  have h := h1 { id := 3, vehicleId := 7, description := "Oil change".toList,
                 nextDueDate := some 1696710615000 }
    (List.mem_singleton.mpr rfl) 1696710615000 rfl rfl
  refine ⟨alerts, hal, h.1.mpr (by decide), ?_⟩
  rw [h.2.1, Int.ceil_eq_iff]
  norm_num

/-! ## The list `checkAlerts` of `alertEngineEnhanced.js` returns -/

theorem shouldCreateAlert_returns (now : Int) (s : EngineState) (c : Candidate) (device : Device)
    (hdb : s.world.dbUp = true) :
    (EnhancedAlertEngine.shouldCreateAlert now s c device).1.world.dbUp = true ∧
    (EnhancedAlertEngine.shouldCreateAlert now s c device).2 ≠ none := by
  unfold EnhancedAlertEngine.shouldCreateAlert
  simp only [hdb, Bool.not_true, Bool.false_eq_true, if_false]
  split
  · exact ⟨hdb, by simp⟩
  · exact ⟨hdb, by simp⟩

theorem createAlert_returns (now : Int) (s : EngineState) (c : Candidate) (device : Device)
    (hdb : s.world.dbUp = true) (ht : device.tenantId.isSome = true)
    (hv : device.vehicleId.isSome = true) :
    (EnhancedAlertEngine.createAlert now s c device).1.world.dbUp = true ∧
    (EnhancedAlertEngine.createAlert now s c device).2 = true := by
  unfold EnhancedAlertEngine.createAlert
  simp only [hdb, alertValid, ht, hv, Bool.not_true, Bool.and_self, Bool.or_self,
    Bool.false_eq_true, if_false, and_true]
  exact hdb

theorem createLoop_returns (now : Int) (device : Device)
    (ht : device.tenantId.isSome = true) (hv : device.vehicleId.isSome = true) :
    ∀ (cands : List Candidate) (s : EngineState), s.world.dbUp = true →
      (EnhancedAlertEngine.createLoop now device cands s).2 = true := by
  intro cands
  induction cands with
  | nil => intro s _; rfl
  | cons c rest ih =>
    intro s hdb
    have h1 := shouldCreateAlert_returns now s c device hdb
    unfold EnhancedAlertEngine.createLoop
    rcases hres : EnhancedAlertEngine.shouldCreateAlert now s c device with ⟨s1, res⟩
    rw [hres] at h1
    simp only at h1
    cases res with
    | none => exact absurd rfl h1.2
    | some b =>
      cases b with
      | false => exact ih s1 h1.1
      | true =>
        have h2 := createAlert_returns now s1 c device h1.1 ht hv
        simp only
        rcases hcr : EnhancedAlertEngine.createAlert now s1 c device with ⟨s2, ok⟩
        rw [hcr] at h2
        simp only at h2
        rw [h2.2]
        exact ih s2 h2.1

theorem checkAlerts_list (C : Conversions) (now : Int) (s : EngineState)
    (gpsData : GPSRecord) (device : Device) (l : List Candidate)
    (h : (EnhancedAlertEngine.checkAlerts C now s gpsData device).2 = some l) :
    ∃ maintenance,
      EnhancedAlertEngine.checkMaintenance now
        { s with redis := (EnhancedAlertEngine.checkIgnition now
            (EnhancedAlertEngine.checkFuel C now
              (EnhancedAlertEngine.checkGeofence now s.redis gpsData device).2 gpsData
                device).2 gpsData device).2 } device = some maintenance ∧
      l = EnhancedAlertEngine.checkSpeeding C now s.redis gpsData device ++
          (EnhancedAlertEngine.checkGeofence now s.redis gpsData device).1 ++
          (EnhancedAlertEngine.checkFuel C now
            (EnhancedAlertEngine.checkGeofence now s.redis gpsData device).2 gpsData device).1 ++
          (EnhancedAlertEngine.checkIgnition now
            (EnhancedAlertEngine.checkFuel C now
              (EnhancedAlertEngine.checkGeofence now s.redis gpsData device).2 gpsData
                device).2 gpsData device).1 ++ maintenance := by
  unfold EnhancedAlertEngine.checkAlerts at h
  simp only at h
  split at h
  · cases h
  · rename_i maintenance hm
    refine ⟨maintenance, hm, ?_⟩
    split at h
    · simp only [Option.some.injEq] at h
      exact h.symm
    · cases h

/-- C30. Whenever `checkAlerts` returns a list, the list is the candidates
of the speeding, geofence, fuel, ignition and maintenance checks, in that
order: the loop over `shouldCreateAlert` and `createAlert` removes nothing
from it. With the database reachable and the device linked to a tenant and
a vehicle it does return, and returns that same list whatever the cooldown
map and the stored alerts are. -/
theorem checkAlerts_returns_all_candidates (C : Conversions) (now : Int) (s : EngineState)
    (gpsData : GPSRecord) (device : Device) (hdb : s.world.dbUp = true)
    (ht : device.tenantId.isSome = true) (hv : device.vehicleId.isSome = true) :
    ∃ maintenance, EnhancedAlertEngine.checkMaintenance now s device = some maintenance ∧
      (∀ (cooldowns : List ((Option Nat × String) × Int)) (alerts : List Alert),
        (EnhancedAlertEngine.checkAlerts C now
          { s with alertCooldowns := cooldowns, world := { s.world with alerts := alerts } }
          gpsData device).2 =
        some (EnhancedAlertEngine.checkSpeeding C now s.redis gpsData device ++
          (EnhancedAlertEngine.checkGeofence now s.redis gpsData device).1 ++
          (EnhancedAlertEngine.checkFuel C now
            (EnhancedAlertEngine.checkGeofence now s.redis gpsData device).2 gpsData device).1 ++
          (EnhancedAlertEngine.checkIgnition now
            (EnhancedAlertEngine.checkFuel C now
              (EnhancedAlertEngine.checkGeofence now s.redis gpsData device).2 gpsData
                device).2 gpsData device).1 ++ maintenance)) ∧
      (∀ (s1 : EngineState) (l : List Candidate),
        s1.redis = s.redis → s1.maintenance = s.maintenance → s1.world.dbUp = s.world.dbUp →
        (EnhancedAlertEngine.checkAlerts C now s1 gpsData device).2 = some l →
        l = EnhancedAlertEngine.checkSpeeding C now s.redis gpsData device ++
          (EnhancedAlertEngine.checkGeofence now s.redis gpsData device).1 ++
          (EnhancedAlertEngine.checkFuel C now
            (EnhancedAlertEngine.checkGeofence now s.redis gpsData device).2 gpsData device).1 ++
          (EnhancedAlertEngine.checkIgnition now
            (EnhancedAlertEngine.checkFuel C now
              (EnhancedAlertEngine.checkGeofence now s.redis gpsData device).2 gpsData
                device).2 gpsData device).1 ++ maintenance) := by
  obtain ⟨v, hvid⟩ := Option.isSome_iff_exists.mp hv
  have hm : ∃ maintenance,
      EnhancedAlertEngine.checkMaintenance now s device = some maintenance := by
    unfold EnhancedAlertEngine.checkMaintenance EnhancedAlertEngine.getUpcomingMaintenance
    simp [hvid, hdb]
  obtain ⟨maintenance, hmaint⟩ := hm
  refine ⟨maintenance, hmaint, ?_, ?_⟩
  · intro cooldowns alerts
    have hmaint1 : ∀ r : Redis, EnhancedAlertEngine.checkMaintenance now
        { world := { s.world with alerts := alerts }, redis := r, maintenance := s.maintenance,
          alertCooldowns := cooldowns } device = some maintenance := by
      intro r
      rw [← hmaint]
      rfl
    unfold EnhancedAlertEngine.checkAlerts
    simp only [hmaint1]
    have hloop := createLoop_returns now device ht hv
      (EnhancedAlertEngine.checkSpeeding C now s.redis gpsData device ++
        (EnhancedAlertEngine.checkGeofence now s.redis gpsData device).1 ++
        (EnhancedAlertEngine.checkFuel C now
          (EnhancedAlertEngine.checkGeofence now s.redis gpsData device).2 gpsData device).1 ++
        (EnhancedAlertEngine.checkIgnition now
          (EnhancedAlertEngine.checkFuel C now
            (EnhancedAlertEngine.checkGeofence now s.redis gpsData device).2 gpsData
              device).2 gpsData device).1 ++ maintenance)
      { world := { s.world with alerts := alerts }
        redis := (EnhancedAlertEngine.checkIgnition now
          (EnhancedAlertEngine.checkFuel C now
            (EnhancedAlertEngine.checkGeofence now s.redis gpsData device).2 gpsData
              device).2 gpsData device).2
        maintenance := s.maintenance, alertCooldowns := cooldowns } hdb
    split
    · rfl
    · rename_i s2 heq
      rw [heq] at hloop
      cases hloop
  · intro s1 l hr hmt hdb1 hl
    obtain ⟨m1, hm1, hl1⟩ := checkAlerts_list C now s1 gpsData device l hl
    have hsame : m1 = maintenance := by
      have : EnhancedAlertEngine.checkMaintenance now
          { s1 with redis := (EnhancedAlertEngine.checkIgnition now
              (EnhancedAlertEngine.checkFuel C now
                (EnhancedAlertEngine.checkGeofence now s1.redis gpsData device).2 gpsData
                  device).2 gpsData device).2 } device =
          EnhancedAlertEngine.checkMaintenance now s device := by
        unfold EnhancedAlertEngine.checkMaintenance EnhancedAlertEngine.getUpcomingMaintenance
        simp only [hdb1, hmt]
      rw [this, hmaint] at hm1
      exact (Option.some.inj hm1).symm
    rw [hl1, hsame, hr]

/-- C30 on a second speeding fix one second after a first one raised an
alert: the cooldown suppresses the second candidate, no alert is stored for
it, and it is in the list returned all the same. -/
theorem checkAlerts_returns_all_candidates_witness :
    (EnhancedAlertEngine.checkAlerts sampleConversions 2000 engineCooling
      (recordOf 140 true 2000) deviceLinked).2 =
      some [{ type := "Speeding", severity := "Medium"
              data := CandidateData.speeding (JSNum.fin 140) (JSVal.num (JSNum.fin 120))
                (JSNum.fin (-(2469 / 2000))) (JSNum.fin (182839 / 5000)) }] ∧
    (EnhancedAlertEngine.checkAlerts sampleConversions 2000 engineCooling
      (recordOf 140 true 2000) deviceLinked).1.world.alerts = engineCooling.world.alerts := by
  obtain ⟨maintenance, hm, h⟩ := checkAlerts_returns_all_candidates sampleConversions 2000
    engineFresh (recordOf 140 true 2000) deviceLinked rfl rfl rfl
  have hm0 : EnhancedAlertEngine.checkMaintenance 2000 engineFresh deviceLinked = some [] := by
    decide
  rw [hm0] at hm
  cases hm
  refine ⟨?_, by decide!⟩
  have h1 := h.1 engineCooling.alertCooldowns engineCooling.world.alerts
  have h2 : EnhancedAlertEngine.checkSpeeding sampleConversions 2000 engineFresh.redis
      (recordOf 140 true 2000) deviceLinked ++
      (EnhancedAlertEngine.checkGeofence 2000 engineFresh.redis (recordOf 140 true 2000)
        deviceLinked).1 ++
      (EnhancedAlertEngine.checkFuel sampleConversions 2000
        (EnhancedAlertEngine.checkGeofence 2000 engineFresh.redis (recordOf 140 true 2000)
          deviceLinked).2 (recordOf 140 true 2000) deviceLinked).1 ++
      (EnhancedAlertEngine.checkIgnition 2000
        (EnhancedAlertEngine.checkFuel sampleConversions 2000
          (EnhancedAlertEngine.checkGeofence 2000 engineFresh.redis (recordOf 140 true 2000)
            deviceLinked).2 (recordOf 140 true 2000) deviceLinked).2 (recordOf 140 true 2000)
          deviceLinked).1 ++ [] =
      [{ type := "Speeding", severity := "Medium"
         data := CandidateData.speeding (JSNum.fin 140) (JSVal.num (JSNum.fin 120))
           (JSNum.fin (-(2469 / 2000))) (JSNum.fin (182839 / 5000)) }] := by
    decide!
  rw [h2] at h1
  exact h1

/-! ## Readings of zero in the Custom decoder -/

theorem prop_filter_other (props : List (List Char × JSVal)) (name other : String)
    (h : other ≠ name) :
    prop (props.filter fun kv => !(kv.1 == name.toList)) other = prop props other := by
  have hne : other.toList ≠ name.toList := fun heq => h (String.ext heq)
  unfold prop
  induction props with
  | nil => rfl
  | cons kv rest ih =>
    by_cases h1 : kv.1 = name.toList
    · have h2 : (kv.1 == other.toList) = false := by
        rw [beq_eq_false_iff_ne, h1]
        exact fun heq => hne heq.symm
      simp only [List.filter_cons, h1, beq_self_eq_true, Bool.not_true, Bool.false_eq_true,
        if_false, List.find?_cons]
      rw [h1] at h2
      rw [h2]
      exact ih
    · have h2 : (kv.1 == name.toList) = false := by simpa using h1
      simp only [List.filter_cons, h2, Bool.not_false, if_true, List.find?_cons]
      cases hk : kv.1 == other.toList with
      | true => rfl
      | false => exact ih

theorem prop_filter_self (props : List (List Char × JSVal)) (name : String) :
    prop (props.filter fun kv => !(kv.1 == name.toList)) name = JSVal.undefined := by
  unfold prop
  have : (props.filter fun kv => !(kv.1 == name.toList)).find?
      (fun kv => kv.1 == name.toList) = none := by
    rw [List.find?_eq_none]
    intro kv hkv
    have := (List.mem_filter.mp hkv).2
    simpa using this
  rw [this]

/-- C29. For a frame that `JSON.parse` reads as an object in which `fuel`
(or `battery`, or `odometer`) has a value `parseFloat` reads as 0, the Custom
decoder returns a fix in which the field is absent, and the fix equals the
one it returns for the frame with that property removed; so `checkFuel` on a
stored fix with these fields pushes nothing and leaves Redis as it was. -/
theorem custom_zero_reading_absent (P : Platform) (now : Int) (data data1 : List Char)
    (props : List (List Char × JSVal)) (name : String)
    (hname : name = "fuel" ∨ name = "battery" ∨ name = "odometer")
    (hparse : P.jsonParse data = some (JsonRoot.value props))
    (hparse1 : P.jsonParse data1 =
      some (JsonRoot.value (props.filter fun kv => !(kv.1 == name.toList))))
    (hzero : (prop props name).parseFloat = JSNum.fin 0) :
    parsers.Custom P now data = parsers.Custom P now data1 ∧
    ∃ f, parsers.Custom P now data = Except.ok f ∧
      (name = "fuel" → f.fuelLevel = none) ∧
      (name = "battery" → f.batteryLevel = none) ∧
      (name = "odometer" → f.odometer = none) ∧
      (name = "fuel" → ∀ (C : Conversions) (t : Int) (r : Redis) (gpsData : GPSRecord)
        (device : Device), gpsData.fix = f →
        EnhancedAlertEngine.checkFuel C t r gpsData device = ([], r)) := by
  have hundef : (JSVal.undefined).parseFloat.orUndefined = none := by
    simp [JSVal.parseFloat, JSNum.orUndefined, JSNum.truthy]
  have hz : (prop props name).parseFloat.orUndefined = none := by
    rw [hzero]
    simp [JSNum.orUndefined, JSNum.truthy]
  unfold parsers.Custom
  rw [hparse, hparse1]
  simp only
  rcases hname with rfl | rfl | rfl
  · refine ⟨?_, _, rfl, fun _ => hz, fun h => absurd h (by decide),
      fun h => absurd h (by decide), ?_⟩
    · rw [hz, prop_filter_self, hundef]
      simp only [prop_filter_other props "fuel" _ (by decide : ("latitude" : String) ≠ "fuel"),
        prop_filter_other props "fuel" _ (by decide : ("lat" : String) ≠ "fuel"),
        prop_filter_other props "fuel" _ (by decide : ("longitude" : String) ≠ "fuel"),
        prop_filter_other props "fuel" _ (by decide : ("lng" : String) ≠ "fuel"),
        prop_filter_other props "fuel" _ (by decide : ("lon" : String) ≠ "fuel"),
        prop_filter_other props "fuel" _ (by decide : ("speed" : String) ≠ "fuel"),
        prop_filter_other props "fuel" _ (by decide : ("heading" : String) ≠ "fuel"),
        prop_filter_other props "fuel" _ (by decide : ("altitude" : String) ≠ "fuel"),
        prop_filter_other props "fuel" _ (by decide : ("ignition" : String) ≠ "fuel"),
        prop_filter_other props "fuel" _ (by decide : ("battery" : String) ≠ "fuel"),
        prop_filter_other props "fuel" _ (by decide : ("odometer" : String) ≠ "fuel"),
        prop_filter_other props "fuel" _ (by decide : ("timestamp" : String) ≠ "fuel")]
    · intro _ C t r gpsData device hfix
      unfold EnhancedAlertEngine.checkFuel
      rw [hfix]
      simp only [hz]
  · refine ⟨?_, _, rfl, fun h => absurd h (by decide), fun _ => hz,
      fun h => absurd h (by decide), fun h => absurd h (by decide)⟩
    rw [hz, prop_filter_self, hundef]
    simp only [prop_filter_other props "battery" _ (by decide : ("latitude" : String) ≠ "battery"),
      prop_filter_other props "battery" _ (by decide : ("lat" : String) ≠ "battery"),
      prop_filter_other props "battery" _ (by decide : ("longitude" : String) ≠ "battery"),
      prop_filter_other props "battery" _ (by decide : ("lng" : String) ≠ "battery"),
      prop_filter_other props "battery" _ (by decide : ("lon" : String) ≠ "battery"),
      prop_filter_other props "battery" _ (by decide : ("speed" : String) ≠ "battery"),
      prop_filter_other props "battery" _ (by decide : ("heading" : String) ≠ "battery"),
      prop_filter_other props "battery" _ (by decide : ("altitude" : String) ≠ "battery"),
      prop_filter_other props "battery" _ (by decide : ("ignition" : String) ≠ "battery"),
      prop_filter_other props "battery" _ (by decide : ("fuel" : String) ≠ "battery"),
      prop_filter_other props "battery" _ (by decide : ("odometer" : String) ≠ "battery"),
      prop_filter_other props "battery" _ (by decide : ("timestamp" : String) ≠ "battery")]
  · refine ⟨?_, _, rfl, fun h => absurd h (by decide), fun h => absurd h (by decide),
      fun _ => hz, fun h => absurd h (by decide)⟩
    rw [hz, prop_filter_self, hundef]
    simp only [prop_filter_other props "odometer" _ (by decide : ("latitude" : String) ≠ "odometer"),
      prop_filter_other props "odometer" _ (by decide : ("lat" : String) ≠ "odometer"),
      prop_filter_other props "odometer" _ (by decide : ("longitude" : String) ≠ "odometer"),
      prop_filter_other props "odometer" _ (by decide : ("lng" : String) ≠ "odometer"),
      prop_filter_other props "odometer" _ (by decide : ("lon" : String) ≠ "odometer"),
      prop_filter_other props "odometer" _ (by decide : ("speed" : String) ≠ "odometer"),
      prop_filter_other props "odometer" _ (by decide : ("heading" : String) ≠ "odometer"),
      prop_filter_other props "odometer" _ (by decide : ("altitude" : String) ≠ "odometer"),
      prop_filter_other props "odometer" _ (by decide : ("ignition" : String) ≠ "odometer"),
      prop_filter_other props "odometer" _ (by decide : ("fuel" : String) ≠ "odometer"),
      prop_filter_other props "odometer" _ (by decide : ("battery" : String) ≠ "odometer"),
      prop_filter_other props "odometer" _ (by decide : ("timestamp" : String) ≠ "odometer")]

/-- C29 on the frame `{"lat":-1.2345,"lng":36.5678,"speed":45,"ignition":true,"fuel":0}`:
its fix has no fuel level and equals the fix of the frame without `fuel`. -/
theorem custom_zero_reading_absent_witness :
    parsers.Custom jsonPlatform 1000 frameCustomFuelZero =
      parsers.Custom jsonPlatform 1000 frameCustomNoFuel ∧
    ∃ f, parsers.Custom jsonPlatform 1000 frameCustomFuelZero = Except.ok f ∧
      f.fuelLevel = none := by
  obtain ⟨h1, f, hf, hfuel, _⟩ := custom_zero_reading_absent jsonPlatform 1000
    frameCustomFuelZero frameCustomNoFuel propsFuelZero "fuel" (Or.inl rfl) (by rfl)
    (by rfl) (by decide!)
  exact ⟨h1, f, hf, hfuel rfl⟩

/-! ## The error count of `eventHandlers.js` -/

theorem Redis.set_up (r : Redis) (now : Int) (key : RedisKey) (v : JSVal) (ttl : Int) :
    (r.set now key v ttl).up = r.up := by
  unfold Redis.set
  split
  · rfl
  · split <;> rfl

theorem Redis.get_set_other (r : Redis) (now t : Int) (key other : RedisKey) (v : JSVal)
    (ttl : Int) (h : other ≠ key) : (r.set now key v ttl).get t other = r.get t other := by
  unfold Redis.set
  split
  · rfl
  · split
    · rfl
    · unfold Redis.get
      simp only
      have hfind : ∀ l : List RedisEntry,
          (l.filter fun e => !(e.key == key)).find?
            (fun e => e.key == other && decide (t < e.expiresAt)) =
          l.find? (fun e => e.key == other && decide (t < e.expiresAt)) := by
        intro l
        induction l with
        | nil => rfl
        | cons e l ih =>
          by_cases he : e.key = key
          · have h1 : (e.key == other) = false := by
              rw [beq_eq_false_iff_ne, he]
              exact fun heq => h heq.symm
            have h3 : (e.key == key) = true := by simpa using he
            simp only [List.filter_cons, h3, Bool.not_true, Bool.false_eq_true, if_false,
              List.find?_cons, h1, Bool.false_and, ih]
          · have h2 : (e.key == key) = false := by simpa using he
            simp only [List.filter_cons, h2, Bool.not_false, if_true, List.find?_cons, ih]
      have hk : (key == other) = false := by
        rw [beq_eq_false_iff_ne]
        exact fun heq => h heq.symm
      rw [List.find?_append, hfind]
      simp [List.find?_cons, hk]

/-- One processing error when the stored count reads `k` (nothing stored for
`k = 0`): the count becomes `k + 1` for an hour from the error, and the
device is disabled exactly when `k + 1` is at least 10. -/
theorem handleGPSProcessingError_step (C : Conversions) (now : Int) (w : World) (r : Redis)
    (deviceId k : Nat) (hup : r.up = true)
    (hk : r.get now (RedisKey.errorCount (some deviceId)) =
      if k = 0 then JSVal.null else JSVal.num (JSNum.fin k)) :
    (handleGPSProcessingError C now (w, r) deviceId).2.up = true ∧
    (∀ t : Int, t < now + 3600 * 1000 →
      (handleGPSProcessingError C now (w, r) deviceId).2.get t
        (RedisKey.errorCount (some deviceId)) = JSVal.num (JSNum.fin ((k + 1 : Nat) : ℚ))) ∧
    (handleGPSProcessingError C now (w, r) deviceId).1 =
      if 10 ≤ k + 1 then handleExcessiveErrors w deviceId else w := by
  have hother : RedisKey.errorCount (some deviceId) ≠ RedisKey.lastError (some deviceId) := by
    intro h
    cases h
  have hcount : ((r.set now (RedisKey.lastError (some deviceId))
      (JSVal.object "[object Object]".toList) 3600).get now
        (RedisKey.errorCount (some deviceId))).or (JSVal.num (JSNum.fin 0)) =
      JSVal.num (JSNum.fin k) := by
    rw [Redis.get_set_other _ _ _ _ _ _ _ hother, hk]
    by_cases h0 : k = 0
    · subst h0
      simp [JSVal.or, JSVal.truthy]
    · have hq : (k : ℚ) ≠ 0 := by exact_mod_cast h0
      simp [JSVal.or, JSVal.truthy, JSNum.truthy, h0, hq]
  have hup1 : (r.set now (RedisKey.lastError (some deviceId))
      (JSVal.object "[object Object]".toList) 3600).up = true := by
    rw [Redis.set_up]
    exact hup
  unfold handleGPSProcessingError
  simp only [hcount, JSVal.plusOne, JSNum.add, JSVal.toNumber, JSNum.ge]
  have hge : decide ((10 : ℚ) ≤ (k : ℚ) + 1) = decide (10 ≤ k + 1) := by
    have : ((10 : ℚ) ≤ (k : ℚ) + 1) ↔ (10 ≤ k + 1) := by
      constructor
      · intro h
        exact_mod_cast h
      · intro h
        exact_mod_cast h
    simp only [this]
  rw [hge]
  refine ⟨?_, ?_, ?_⟩
  · split
    · simp only [Redis.set_up]
      exact hup
    · simp only [Redis.set_up]
      exact hup
  · intro t ht
    have hget := Redis.get_set (r.set now (RedisKey.lastError (some deviceId))
      (JSVal.object "[object Object]".toList) 3600) now t
      (RedisKey.errorCount (some deviceId)) (JSVal.num (JSNum.fin ((k : ℚ) + 1)))
      (JSVal.num (JSNum.fin ((k : ℚ) + 1))) 3600 hup1 rfl ht
    split
    · simp only
      rw [hget]
      push_cast
      rfl
    · simp only
      rw [hget]
      push_cast
      rfl
  · split
    · rename_i h
      simp only [decide_eq_true_eq] at h
      rw [if_pos h]
    · rename_i h
      simp only [decide_eq_true_eq] at h
      rw [if_neg h]

theorem handleExcessiveErrors_status (w : World) (deviceId : Nat) (hdb : w.dbUp = true) :
    (handleExcessiveErrors w deviceId).dbUp = true ∧
    statusOf (handleExcessiveErrors w deviceId) deviceId =
      (statusOf w deviceId).map fun _ => "Disabled" := by
  unfold handleExcessiveErrors statusOf
  simp only [hdb, Bool.not_true, Bool.false_eq_true, if_false, World.log, true_and]
  induction w.devices with
  | nil => rfl
  | cons d l ih =>
    by_cases hd : d.id = deviceId
    · have hb : (d.id == deviceId) = true := by simpa using hd
      simp only [List.map_cons, hb, if_true, List.filter_cons, List.map_cons, ih]
    · have hb : (d.id == deviceId) = false := by simpa using hd
      simp only [List.map_cons, hb, Bool.false_eq_true, if_false, List.filter_cons, ih]

theorem errorsAt_count (C : Conversions) (deviceId : Nat) :
    ∀ (ts : List Int) (k : Nat) (w : World) (r : Redis), r.up = true → w.dbUp = true →
      ts.Chain' (fun a b => b < a + 3600 * 1000) →
      (∀ t ∈ ts.head?, r.get t (RedisKey.errorCount (some deviceId)) =
        if k = 0 then JSVal.null else JSVal.num (JSNum.fin k)) →
      (k + ts.length < 10 → (errorsAt C deviceId ts (w, r)).1 = w) ∧
      (10 ≤ k + ts.length → ts ≠ [] →
        ∀ s ∈ statusOf (errorsAt C deviceId ts (w, r)).1 deviceId, s = "Disabled") ∧
      (statusOf (errorsAt C deviceId ts (w, r)).1 deviceId).length =
        (statusOf w deviceId).length := by
  intro ts
  induction ts with
  | nil =>
    intro k w r _ _ _ _
    exact ⟨fun _ => rfl, fun _ h => absurd rfl h, rfl⟩
  | cons t rest ih =>
    intro k w r hup hdb hchain hk
    obtain ⟨hup1, hget1, hw1⟩ := handleGPSProcessingError_step C t w r deviceId k hup
      (hk t (by simp))
    have hnext : ∀ t1 ∈ rest.head?,
        (handleGPSProcessingError C t (w, r) deviceId).2.get t1
          (RedisKey.errorCount (some deviceId)) =
        if k + 1 = 0 then JSVal.null else JSVal.num (JSNum.fin ((k + 1 : Nat) : ℚ)) := by
      intro t1 ht1
      rw [if_neg (Nat.succ_ne_zero k)]
      apply hget1
      cases rest with
      | nil => simp at ht1
      | cons t2 rest2 =>
        simp only [List.head?_cons, Option.mem_def, Option.some.injEq] at ht1
        subst ht1
        exact (List.chain'_cons.mp hchain).1
    have hdb1 : (handleGPSProcessingError C t (w, r) deviceId).1.dbUp = true := by
      rw [hw1]
      split
      · exact (handleExcessiveErrors_status w deviceId hdb).1
      · exact hdb
    have hrec := ih (k + 1) (handleGPSProcessingError C t (w, r) deviceId).1
      (handleGPSProcessingError C t (w, r) deviceId).2 hup1 hdb1 hchain.tail hnext
    have hlen1 : (statusOf (handleGPSProcessingError C t (w, r) deviceId).1 deviceId).length =
        (statusOf w deviceId).length := by
      rw [hw1]
      split
      · rw [(handleExcessiveErrors_status w deviceId hdb).2, List.length_map]
      · rfl
    simp only [errorsAt, List.length_cons]
    refine ⟨?_, ?_, ?_⟩
    · intro hlt
      rw [hrec.1 (by omega), hw1, if_neg (by omega)]
    · intro hge _
      cases rest with
      | nil =>
        simp only [errorsAt]
        simp only [List.length_nil] at hge
        rw [hw1, if_pos (by omega), (handleExcessiveErrors_status w deviceId hdb).2]
        intro s hs
        obtain ⟨_, _, rfl⟩ := List.mem_map.mp hs
        rfl
      | cons t2 rest2 =>
        exact hrec.2.1 (by simp only [List.length_cons] at hge ⊢; omega) (by simp)
    · rw [hrec.2.2, hlen1]

/-- C25, what the code does instead. Every `set` of the error count renews
its hour, so the count restarts only after an hour without any error. From
no stored count, with Redis and the database answering, and each error less
than an hour after the one before it: fewer than 10 errors change no
device, and from the tenth on every stored device of the id is `Disabled`,
however many hours the errors span. -/
theorem errorCount_accumulates (C : Conversions) (deviceId : Nat) (ts : List Int) (w : World)
    (r : Redis) (hup : r.up = true) (hdb : w.dbUp = true)
    (hchain : ts.Chain' (fun a b => b < a + 3600 * 1000))
    (hfresh : ∀ t ∈ ts.head?, r.get t (RedisKey.errorCount (some deviceId)) = JSVal.null) :
    (ts.length < 10 → (errorsAt C deviceId ts (w, r)).1 = w) ∧
    (10 ≤ ts.length →
      ∀ s ∈ statusOf (errorsAt C deviceId ts (w, r)).1 deviceId, s = "Disabled") ∧
    (statusOf (errorsAt C deviceId ts (w, r)).1 deviceId).length =
      (statusOf w deviceId).length := by
  have h := errorsAt_count C deviceId ts 0 w r hup hdb hchain (by simpa using hfresh)
  refine ⟨fun hlt => h.1 (by omega), fun hge => h.2.1 (by omega) ?_, h.2.2⟩
  intro hnil
  rw [hnil] at hge
  simp at hge

/-- C25 on ten errors of the linked device, one every 59 minutes: after the
ninth the device is still `Connected`; the tenth, 8 hours 51 minutes after
the first, sets it to `Disabled`, though no hour holds more than two errors. -/
theorem errorCount_accumulates_witness :
    errorInstants = [0, 3540000, 7080000, 10620000, 14160000, 17700000, 21240000, 24780000,
      28320000, 31860000] ∧
    statusOf (errorsAt sampleConversions 1 (errorInstants.take 9) (worldLinked, redisEmpty)).1 1 =
      ["Connected"] ∧
    statusOf (errorsAt sampleConversions 1 errorInstants (worldLinked, redisEmpty)).1 1 =
      ["Disabled"] := by
  have h := errorCount_accumulates sampleConversions 1 errorInstants worldLinked redisEmpty rfl rfl
    (by simp [errorInstants]) (by decide)
  have h9 := errorCount_accumulates sampleConversions 1 (errorInstants.take 9) worldLinked
    redisEmpty rfl rfl (by simp [errorInstants]) (by decide)
  refine ⟨rfl, ?_, ?_⟩
  · rw [h9.1 (by decide)]
    decide
  · have hlen := h.2.2
    have hall := h.2.1 (by decide)
    have hw : statusOf worldLinked 1 = ["Connected"] := by decide
    rw [hw] at hlen
    match hs : statusOf (errorsAt sampleConversions 1 errorInstants (worldLinked, redisEmpty)).1 1,
      hlen, hall with
    | [x], _, hall =>
      rw [hall x (by simp)]
    | [], hlen, _ => simp at hlen
    | _ :: _ :: _, hlen, _ => simp at hlen

/-! ## The odometer of the vehicle -/

theorem except_ok_of_decide {α : Type} [DecidableEq α] (x : Except String α) (a : α)
    (h : (match x with
      | Except.ok b => decide (b = a)
      | Except.error _ => false) = true) : x = Except.ok a := by
  cases x with
  | error e => simp at h
  | ok b =>
    simp only [decide_eq_true_eq] at h
    rw [h]

theorem saveDevice_ok (w : World) (d : Device) (hdb : w.dbUp = true)
    (hv : deviceValid d = true) :
    (saveDevice w d).2 = true ∧ (saveDevice w d).1.vehicles = w.vehicles ∧
    (saveDevice w d).1.dbUp = true := by
  unfold saveDevice
  simp only [hdb, hv, Bool.not_true, Bool.or_self, Bool.false_eq_true, if_false]
  split
  · exact ⟨rfl, rfl, hdb⟩
  · exact ⟨rfl, rfl, hdb⟩

theorem checkAlertType_vehicles (now : Int) (data : GPSRecord) (device : Device)
    (vehicle : Option Vehicle) (w : World) (config : String × String) :
    (checkAlertType now data device vehicle w config).vehicles = w.vehicles := by
  unfold checkAlertType
  simp only
  split
  · rfl
  · split
    · rfl
    · rfl
    · split
      · rfl
      · split
        · rfl
        · split <;> rfl

theorem checkAlerts_vehicles (now : Int) (data : GPSRecord) (device : Device) (w : World) :
    (checkAlerts now data device w).1.vehicles = w.vehicles := by
  have hfold : ∀ (vehicle : Option Vehicle) (cfgs : List (String × String)) (w0 : World),
      (cfgs.foldl (checkAlertType now data device vehicle) w0).vehicles = w0.vehicles := by
    intro vehicle cfgs
    induction cfgs with
    | nil => intro w0; rfl
    | cons c rest ih =>
      intro w0
      rw [List.foldl_cons, ih, checkAlertType_vehicles]
  unfold checkAlerts
  split
  · exact hfold _ _ _
  · simp only
    split
    · rfl
    · rw [hfold]
      rfl

theorem processGPSData_vehicles (now : Int) (w : World) (device : Device) (parsedData : Fix)
    (rawData : List Char) (vid : Nat) (hdb : w.dbUp = true)
    (hfix : fixValid
      { deviceId := device.id, vehicleId := device.vehicleId, fix := parsedData,
        rawData := substringTo 1000 rawData } = true)
    (hdev : deviceValid device = true) (hvid : device.vehicleId = some vid) :
    (processGPSData now w device parsedData rawData).vehicles =
      w.vehicles.map fun v =>
        if v.id == vid then
          { v with currentLocation := some (parsedData.lat, parsedData.lng, JSDate.at now),
                   odometer := (parsedData.odometer.getD (JSNum.fin 0)).orZero }
        else v := by
  have hod : (match parsedData.odometer with
      | some o => o.orZero
      | none => JSNum.fin 0) = (parsedData.odometer.getD (JSNum.fin 0)).orZero := by
    cases parsedData.odometer with
    | none => simp [JSNum.orZero, JSNum.truthy]
    | some o => rfl
  have hdev1 : deviceValid { device with lastSeen := some (JSDate.at now) } = true := hdev
  have hsave := saveDevice_ok
    (aliasDevice { (w.log (Effect.fixSave device.id)) with
      fixes := (w.log (Effect.fixSave device.id)).fixes ++
        [{ deviceId := device.id, vehicleId := device.vehicleId, fix := parsedData,
           rawData := substringTo 1000 rawData }] }
      { device with lastSeen := some (JSDate.at now) })
    { device with lastSeen := some (JSDate.at now) } hdb hdev1
  unfold processGPSData
  simp only [hdb, hfix, Bool.not_true, Bool.or_self, Bool.false_eq_true, if_false]
  rcases hs : saveDevice
    (aliasDevice { (w.log (Effect.fixSave device.id)) with
      fixes := (w.log (Effect.fixSave device.id)).fixes ++
        [{ deviceId := device.id, vehicleId := device.vehicleId, fix := parsedData,
           rawData := substringTo 1000 rawData }] }
      { device with lastSeen := some (JSDate.at now) })
    { device with lastSeen := some (JSDate.at now) } with ⟨w3, b⟩
  rw [hs] at hsave
  simp only at hsave
  obtain ⟨hb, hveh, _⟩ := hsave
  subst hb
  simp only [hvid]
  have hw3 : w3.vehicles = w.vehicles := by
    rw [hveh]
    rfl
  split
  · rename_i w5 heq
    have hv := congrArg (fun (p : World × Bool) => p.1.vehicles) heq
    simp only [checkAlerts_vehicles] at hv
    simp only [World.log] at hv ⊢
    rw [← hv]
    simp only [updateVehicle, hw3, hod]
  · rename_i w5 heq
    have hv := congrArg (fun (p : World × Bool) => p.1.vehicles) heq
    simp only [checkAlerts_vehicles] at hv
    simp only [World.log] at hv ⊢
    rw [← hv]
    simp only [updateVehicle, hw3, hod]

theorem checkAlerts_ok (now : Int) (data : GPSRecord) (device : Device) (w : World)
    (hdb : w.dbUp = true) : (checkAlerts now data device w).2 = true := by
  unfold checkAlerts
  split
  · rfl
  · simp [hdb]

theorem receiveData_vehicles (P : Platform) (now : Int) (w : World) (device : Device)
    (parsedData : Fix) (imei data : List Char) (protocol : Option (List Char)) (vid : Nat)
    (himei : imei.isEmpty = false) (hdata : data.isEmpty = false) (hdb : w.dbUp = true)
    (hfind : (w.devices.find? fun d => d.imei == imei) = some device)
    (hparse : parseData P now data
      (match protocol with
       | some p => if p.isEmpty then device.brand else p
       | none => device.brand) = Except.ok (Decoded.fix parsedData))
    (hfix : fixValid
      { deviceId := device.id, vehicleId := device.vehicleId
        fix := { parsedData with
          timestamp := some (match parsedData.timestamp with
            | some t => t
            | none => JSDate.at now) }
        rawData := data } = true)
    (hdev : deviceValid device = true) (hvid : device.vehicleId = some vid) :
    (receiveData P now w (some imei) (some data) protocol).2 = 200 ∧
    (receiveData P now w (some imei) (some data) protocol).1.vehicles =
      w.vehicles.map fun v =>
        if v.id == vid then
          { v with currentLocation := some (parsedData.lat, parsedData.lng, JSDate.at now),
                   odometer := (parsedData.odometer.getD (JSNum.fin 0)).orZero }
        else v := by
  have hod : (match parsedData.odometer with
      | some o => o.orZero
      | none => JSNum.fin 0) = (parsedData.odometer.getD (JSNum.fin 0)).orZero := by
    cases parsedData.odometer with
    | none => simp [JSNum.orZero, JSNum.truthy]
    | some o => rfl
  have hdev1 : deviceValid
      { device with lastSeen := some (JSDate.at now), status := "Connected" } = true := by
    unfold deviceValid at hdev ⊢
    simp only [Bool.and_eq_true, decide_eq_true_eq] at hdev ⊢
    exact ⟨hdev.1, by decide⟩
  unfold receiveData
  simp only [himei, hdata, hdb, hfind, hparse, hfix, Bool.or_self, Bool.false_eq_true, if_false,
    Bool.not_true]
  have hsave := saveDevice_ok
    { ((w.log (Effect.deviceFindOne imei)).log (Effect.fixSave device.id)) with
      fixes := ((w.log (Effect.deviceFindOne imei)).log (Effect.fixSave device.id)).fixes ++
        [{ deviceId := device.id, vehicleId := device.vehicleId
           fix := { parsedData with
             timestamp := some (match parsedData.timestamp with
               | some t => t
               | none => JSDate.at now) }
           rawData := data }] }
    { device with lastSeen := some (JSDate.at now), status := "Connected" } hdb hdev1
  rcases hs : saveDevice
    { ((w.log (Effect.deviceFindOne imei)).log (Effect.fixSave device.id)) with
      fixes := ((w.log (Effect.deviceFindOne imei)).log (Effect.fixSave device.id)).fixes ++
        [{ deviceId := device.id, vehicleId := device.vehicleId
           fix := { parsedData with
             timestamp := some (match parsedData.timestamp with
               | some t => t
               | none => JSDate.at now) }
           rawData := data }] }
    { device with lastSeen := some (JSDate.at now), status := "Connected" } with ⟨w3, b⟩
  rw [hs] at hsave
  simp only at hsave
  obtain ⟨hb, hveh, hdb3⟩ := hsave
  subst hb
  simp only [hvid]
  have hw3 : w3.vehicles = w.vehicles := by
    rw [hveh]
    rfl
  have hdb4 : ((updateVehicle now w3 vid parsedData).log (Effect.vehicleUpdate vid)).dbUp =
      true := hdb3
  split
  · rename_i w5 heq
    have hok := checkAlerts_ok now _ _ _ hdb4 ▸ congrArg (fun (p : World × Bool) => p.2) heq
    simp at hok
  · rename_i w5 heq
    have hv := congrArg (fun (p : World × Bool) => p.1.vehicles) heq
    simp only [checkAlerts_vehicles] at hv
    simp only [World.log] at hv ⊢
    rw [← hv]
    simp only [updateVehicle, hw3, hod, true_and]

theorem decoders_without_odometer (P : Platform) (now : Int) (data : List Char) (f : Fix) :
    (parsers.Teltonika P data = Except.ok f → f.odometer = none) ∧
    (parsers.Concox P data = Except.ok f → f.odometer = none) ∧
    (parsers.Queclink P data = Except.ok f → f.odometer = none) ∧
    (parseFallbackData now data = Except.ok f → f.odometer = none) := by
  refine ⟨?_, ?_, ?_, ?_⟩
  · intro h
    unfold parsers.Teltonika at h
    simp only at h
    split at h
    · cases h
      rfl
    · cases h
  · intro h
    unfold parsers.Concox at h
    simp only at h
    split at h
    · cases h
      rfl
    · cases h
  · intro h
    unfold parsers.Queclink at h
    split at h
    · cases h
      rfl
    · cases h
  · intro h
    unfold parseFallbackData at h
    split at h
    · cases h
      rfl
    · split at h
      · cases h
        rfl
      · cases h

/-- C28. When the database is reachable, the fix and the device pass their
schemas and the device is linked to vehicle `vid`, `processGPSData` and
`receiveData` leave the vehicles as they were except that each vehicle with
id `vid` gets the position of the fix and the odometer `odometer || 0`: the
odometer of the fix when it is present and truthy, else 0. So a fix without
an odometer sets the stored odometer to 0 whatever it was; and the fixes of
the Teltonika, Concox and Queclink decoders and of the fallback parser have
no odometer. -/
theorem odometer_overwritten (P : Platform) (now : Int) (w : World) (device : Device)
    (parsedData : Fix) (imei data : List Char) (protocol : Option (List Char)) (vid : Nat)
    (himei : imei.isEmpty = false) (hdata : data.isEmpty = false) (hdb : w.dbUp = true)
    (hfind : (w.devices.find? fun d => d.imei == imei) = some device)
    (hparse : parseData P now data
      (match protocol with
       | some p => if p.isEmpty then device.brand else p
       | none => device.brand) = Except.ok (Decoded.fix parsedData))
    (hfix : fixValid
      { deviceId := device.id, vehicleId := device.vehicleId, fix := parsedData,
        rawData := substringTo 1000 data } = true)
    (hfix1 : fixValid
      { deviceId := device.id, vehicleId := device.vehicleId
        fix := { parsedData with
          timestamp := some (match parsedData.timestamp with
            | some t => t
            | none => JSDate.at now) }
        rawData := data } = true)
    (hdev : deviceValid device = true) (hvid : device.vehicleId = some vid) :
    ((processGPSData now w device parsedData data).vehicles =
      w.vehicles.map fun v =>
        if v.id == vid then
          { v with currentLocation := some (parsedData.lat, parsedData.lng, JSDate.at now),
                   odometer := (parsedData.odometer.getD (JSNum.fin 0)).orZero }
        else v) ∧
    (receiveData P now w (some imei) (some data) protocol).2 = 200 ∧
    ((receiveData P now w (some imei) (some data) protocol).1.vehicles =
      w.vehicles.map fun v =>
        if v.id == vid then
          { v with currentLocation := some (parsedData.lat, parsedData.lng, JSDate.at now),
                   odometer := (parsedData.odometer.getD (JSNum.fin 0)).orZero }
        else v) ∧
    (parsedData.odometer = none →
      (∀ v ∈ (processGPSData now w device parsedData data).vehicles, v.id = vid →
        v.odometer = JSNum.fin 0) ∧
      (∀ v ∈ (receiveData P now w (some imei) (some data) protocol).1.vehicles, v.id = vid →
        v.odometer = JSNum.fin 0)) ∧
    (∀ (frame : List Char) (f : Fix),
      (parsers.Teltonika P frame = Except.ok f → f.odometer = none) ∧
      (parsers.Concox P frame = Except.ok f → f.odometer = none) ∧
      (parsers.Queclink P frame = Except.ok f → f.odometer = none) ∧
      (parseFallbackData now frame = Except.ok f → f.odometer = none)) := by
  have h1 := processGPSData_vehicles now w device parsedData data vid hdb hfix hdev hvid
  have h2 := receiveData_vehicles P now w device parsedData imei data protocol vid himei hdata
    hdb hfind hparse hfix1 hdev hvid
  have hzero : parsedData.odometer = none →
      ∀ v ∈ (w.vehicles.map fun v =>
        if v.id == vid then
          { v with currentLocation := some (parsedData.lat, parsedData.lng, JSDate.at now),
                   odometer := (parsedData.odometer.getD (JSNum.fin 0)).orZero }
        else v), v.id = vid → v.odometer = JSNum.fin 0 := by
    intro hnone v hv hid
    obtain ⟨u, _, hu⟩ := List.mem_map.mp hv
    by_cases huid : u.id = vid
    · have hb : (u.id == vid) = true := by simpa using huid
      rw [hb, if_pos rfl] at hu
      rw [← hu, hnone]
      simp [JSNum.orZero, JSNum.truthy]
    · have hb : (u.id == vid) = false := by simpa using huid
      rw [hb, if_neg (by simp)] at hu
      rw [← hu] at hid
      exact absurd hid huid
  refine ⟨h1, h2.1, h2.2, ?_, fun frame f => decoders_without_odometer P now frame f⟩
  intro hnone
  refine ⟨?_, ?_⟩
  · rw [h1]
    exact hzero hnone
  · rw [h2.2]
    exact hzero hnone

/-- C28 on the Teltonika frame of the linked device, whose vehicle has 52000
on the odometer: through the socket pipeline and through `receiveData` alike
the stored odometer is 0 afterwards. -/
theorem odometer_overwritten_witness :
    (processGPSData 1696149020000 worldOdometer deviceLinked fixTeltonika frameTeltonika).vehicles =
      [{ id := 7, tenantId := 1
         currentLocation :=
           some (JSNum.fin (-(2469 / 2000)), JSNum.fin (182839 / 5000), JSDate.at 1696149020000)
         odometer := JSNum.fin 0 }] ∧
    (receiveData samplePlatform 1696149020000 worldOdometer (some "123456789012345".toList)
      (some frameTeltonika) none).1.vehicles =
      [{ id := 7, tenantId := 1
         currentLocation :=
           some (JSNum.fin (-(2469 / 2000)), JSNum.fin (182839 / 5000), JSDate.at 1696149020000)
         odometer := JSNum.fin 0 }] := by
  have h := odometer_overwritten samplePlatform 1696149020000 worldOdometer deviceLinked
    fixTeltonika "123456789012345".toList frameTeltonika none 7 (by decide) (by decide) rfl
    (by decide!) (except_ok_of_decide _ _ (by decide!)) (by decide!) (by decide!) (by decide) rfl
  refine ⟨?_, ?_⟩
  · rw [h.1]
    decide!
  · rw [h.2.2.1]
    decide!

/-! ## The patterns of `extractIMEI` that decide -/

theorem matchHere_rep_startsWithRun (p : Char → Bool) :
    ∀ (n : Nat) (rest : Pattern) (a : Bool) (s : List Char) (cur : Option (List Char))
      (caps m : List (List Char)),
      matchHere (rep n (Item.chr p) ++ rest) a s cur caps = some m →
      startsWithRun p n s = true := by
  intro n
  induction n with
  | zero => intro rest a s cur caps m _; cases s <;> rfl
  | succ n ih =>
    intro rest a s cur caps m h
    cases s with
    | nil => simp [rep, List.replicate_succ, matchHere] at h
    | cons c t =>
      simp only [rep, List.replicate_succ, List.cons_append, matchHere] at h
      split at h
      · rename_i hc
        simp only [startsWithRun, hc, Bool.true_and]
        exact ih rest false t _ caps m (by simpa [rep] using h)
      · cases h

theorem matchHere_plain_suffix :
    ∀ (pre : Pattern), (∀ x ∈ pre, x.isPlain = true) →
    ∀ (rest : Pattern) (a : Bool) (s : List Char) (caps m : List (List Char)),
      matchHere (pre ++ rest) a s none caps = some m →
      ∃ a1 s1, s1 <:+ s ∧ matchHere rest a1 s1 none caps = some m := by
  intro pre
  induction pre with
  | nil => intro _ rest a s caps m h; exact ⟨a, s, List.suffix_refl s, by simpa using h⟩
  | cons x pre ih =>
    intro hp rest a s caps m h
    have hx : x.isPlain = true := hp x (List.mem_cons_self _ _)
    have hpre : ∀ y ∈ pre, y.isPlain = true := fun y hy => hp y (List.mem_cons_of_mem _ hy)
    cases x with
    | chr p =>
      cases s with
      | nil => simp [matchHere] at h
      | cons c t =>
        simp only [List.cons_append, matchHere] at h
        split at h
        · obtain ⟨a1, s1, hs1, hm⟩ := ih hpre rest _ _ _ _ (by simpa [pushCur] using h)
          exact ⟨a1, s1, hs1.trans (List.suffix_cons c t), hm⟩
        · cases h
    | bos =>
      simp only [List.cons_append, matchHere] at h
      split at h
      · exact ih hpre rest _ _ _ _ h
      · cases h
    | opt p => simp [Item.isPlain] at hx
    | star p => simp [Item.isPlain] at hx
    | gopen => simp [Item.isPlain] at hx
    | gclose => simp [Item.isPlain] at hx

theorem searchFrom_suffix (re : Pattern) :
    ∀ (s : List Char) (a : Bool) (m : List (List Char)),
      searchFrom re a s = some m →
      ∃ a1 s1, s1 <:+ s ∧ matchHere re a1 s1 none [] = some m := by
  intro s
  induction s with
  | nil => intro a m h; exact ⟨a, [], List.suffix_refl _, by simpa [searchFrom] using h⟩
  | cons c s ih =>
    intro a m h
    simp only [searchFrom] at h
    split at h
    · rename_i r hr
      cases h
      exact ⟨a, c :: s, List.suffix_refl _, hr⟩
    · obtain ⟨a1, s1, hs1, hm⟩ := ih _ _ h
      exact ⟨a1, s1, hs1.trans (List.suffix_cons c s), hm⟩

theorem hasRun_of_suffix (p : Char → Bool) (n : Nat) :
    ∀ (s s1 : List Char), s1 <:+ s → startsWithRun p n s1 = true → hasRun p n s = true := by
  intro s
  induction s with
  | nil =>
    intro s1 hs h
    rw [List.suffix_nil.mp hs] at h
    simpa [hasRun] using h
  | cons c s ih =>
    intro s1 hs h
    rcases List.suffix_cons_iff.mp hs with rfl | hs1
    · simp [hasRun, h]
    · simp [hasRun, ih s1 hs1 h]

/-- A match of a pattern whose first group is `(x{n})` after a run of plain
items means the string holds `n` consecutive characters of the class. -/
theorem jsMatch_hasRun (pre post : Pattern) (p : Char → Bool) (n : Nat)
    (hpre : pre.all Item.isPlain = true) (s : List Char) (m : List (List Char))
    (h : jsMatch (pre ++ ([Item.gopen] ++ (rep n (Item.chr p) ++ (Item.gclose :: post)))) s =
      some m) : hasRun p n s = true := by
  obtain ⟨a1, s1, hs1, h1⟩ := searchFrom_suffix _ _ _ _ h
  obtain ⟨a2, s2, hs2, h2⟩ := matchHere_plain_suffix pre (List.all_eq_true.mp hpre) _ _ _ _ _ h1
  simp only [List.singleton_append, matchHere] at h2
  exact hasRun_of_suffix p n s s2 (hs2.trans hs1)
    (matchHere_rep_startsWithRun p n _ _ _ _ _ _ h2)

theorem matchHere_rep_complete (p : Char → Bool) :
    ∀ (n : Nat) (a : Bool) (s : List Char) (g : List Char) (caps : List (List Char)),
      startsWithRun p n s = true →
      (matchHere (rep n (Item.chr p) ++ [Item.gclose]) a s (some g) caps).isSome = true := by
  intro n
  induction n with
  | zero => intro a s g caps _; simp [rep, matchHere]
  | succ n ih =>
    intro a s g caps h
    cases s with
    | nil => simp [startsWithRun] at h
    | cons c t =>
      simp only [startsWithRun, Bool.and_eq_true] at h
      simp only [rep, List.replicate_succ, List.cons_append, matchHere, h.1, if_true, pushCur,
        Option.map_some']
      exact ih false t _ caps h.2

/-- A string that holds `n` consecutive characters of a class is matched by
`/(x{n})/`. -/
theorem jsMatch_of_hasRun (p : Char → Bool) (n : Nat) (s : List Char)
    (h : hasRun p n s = true) :
    (jsMatch ([Item.gopen] ++ rep n (Item.chr p) ++ [Item.gclose]) s).isSome = true := by
  have hhere : ∀ (a : Bool) (t : List Char), startsWithRun p n t = true →
      (matchHere ([Item.gopen] ++ rep n (Item.chr p) ++ [Item.gclose]) a t none []).isSome =
        true := by
    intro a t ht
    simp only [List.singleton_append, List.cons_append, matchHere]
    exact matchHere_rep_complete p n a t [] [] ht
  have hsearch : ∀ (t : List Char) (a : Bool), hasRun p n t = true →
      (searchFrom ([Item.gopen] ++ rep n (Item.chr p) ++ [Item.gclose]) a t).isSome = true := by
    intro t
    induction t with
    | nil =>
      intro a ht
      simp only [hasRun] at ht
      simp only [searchFrom]
      exact hhere a [] ht
    | cons c t ih =>
      intro a ht
      simp only [hasRun, Bool.or_eq_true] at ht
      simp only [searchFrom]
      split
      · rfl
      · rename_i hnone
        rcases ht with ht | ht
        · have := hhere a (c :: t) ht
          rw [hnone] at this
          cases this
        · exact ih false ht
  exact hsearch s true h

theorem imeiPatterns_need_digits (s : List Char) (m : List (List Char)) :
    (jsMatch ([Item.bos] ++ lits "##,imei:".toList ++ [Item.gopen] ++ rep 15 digit ++
        [Item.gclose, lit ',']) s = some m → hasRun isDigit 15 s = true) ∧
    (jsMatch ([Item.bos, lit '*'] ++ rep 2 (Item.chr isUpper) ++ [lit ',', Item.gopen] ++
        rep 15 digit ++ [Item.gclose, lit ',']) s = some m → hasRun isDigit 15 s = true) ∧
    (jsMatch ([Item.gopen] ++ rep 15 digit ++ [Item.gclose, lit ',', Item.star isDot, lit ',',
        Item.star isDot, lit ',', Item.star isDot, lit ',', Item.star isDot, lit ',']) s =
        some m → hasRun isDigit 15 s = true) := by
  refine ⟨?_, ?_, ?_⟩
  · intro h
    exact jsMatch_hasRun ([Item.bos] ++ lits "##,imei:".toList) [lit ','] isDigit 15 rfl s m h
  · intro h
    exact jsMatch_hasRun ([Item.bos, lit '*'] ++ rep 2 (Item.chr isUpper) ++ [lit ','])
      [lit ','] isDigit 15 rfl s m h
  · intro h
    exact jsMatch_hasRun [] [lit ',', Item.star isDot, lit ',', Item.star isDot, lit ',',
      Item.star isDot, lit ',', Item.star isDot, lit ','] isDigit 15 rfl s m h

theorem extractIMEILoop_cons (s : List Char) (p : Pattern) (rest : List Pattern)
    (hp : ∀ m, jsMatch p s = some m → group m 1 ≠ []) :
    extractIMEILoop (p :: rest) s =
      match jsMatch p s with
      | some m => some (group m 1)
      | none => extractIMEILoop rest s := by
  cases hm : jsMatch p s with
  | none => simp [extractIMEILoop, hm]
  | some m =>
    have hne := hp m hm
    simp [extractIMEILoop, hm, hne]

/-- C27. On every string `extractIMEI` returns what the loop over patterns
1, 2 and 5 alone returns: whenever pattern 3, 4 or 6 matches, the string
holds 15 consecutive digits, so pattern 2, which is tried before them,
matches too. -/
theorem extractIMEI_reduced (s : List Char) :
    extractIMEI s = extractIMEIReduced s ∧
    imeiPatternsReduced =
      [imeiPatterns.getD 0 [], imeiPatterns.getD 1 [], imeiPatterns.getD 4 []] ∧
    (∀ i ∈ [2, 3, 5], ∀ m, jsMatch (imeiPatterns.getD i []) s = some m →
      ∃ m2, jsMatch (imeiPatterns.getD 1 []) s = some m2) := by
  have hne := imeiPatterns_group1_ne s
  have hdig : ∀ i ∈ [2, 3, 5], ∀ m, jsMatch (imeiPatterns.getD i []) s = some m →
      ∃ m2, jsMatch (imeiPatterns.getD 1 []) s = some m2 := by
    intro i hi m hm
    have hrun : hasRun isDigit 15 s = true := by
      simp only [List.mem_cons, List.mem_singleton, List.not_mem_nil, or_false] at hi
      rcases hi with rfl | rfl | rfl
      · exact (imeiPatterns_need_digits s m).1 hm
      · exact (imeiPatterns_need_digits s m).2.1 hm
      · exact (imeiPatterns_need_digits s m).2.2 hm
    exact Option.isSome_iff_exists.mp (jsMatch_of_hasRun isDigit 15 s hrun)
  refine ⟨?_, rfl, hdig⟩
  have hnone : ∀ i ∈ [2, 3, 5], jsMatch (imeiPatterns.getD 1 []) s = none →
      jsMatch (imeiPatterns.getD i []) s = none := by
    intro i hi h2
    cases hm : jsMatch (imeiPatterns.getD i []) s with
    | none => rfl
    | some m =>
      obtain ⟨m2, hm2⟩ := hdig i hi m hm
      rw [h2] at hm2
      cases hm2
  have hmem : ∀ i, i < 6 → imeiPatterns.getD i [] ∈ imeiPatterns := by
    intro i hi
    have hlen : imeiPatterns.length = 6 := rfl
    rw [List.getD_eq_getElem _ _ (by omega)]
    exact List.getElem_mem _
  have g : ∀ i, i < 6 → ∀ m, jsMatch (imeiPatterns.getD i []) s = some m → group m 1 ≠ [] :=
    fun i hi => hne _ (hmem i hi)
  unfold extractIMEI extractIMEIReduced
  change extractIMEILoop [imeiPatterns.getD 0 [], imeiPatterns.getD 1 [],
      imeiPatterns.getD 2 [], imeiPatterns.getD 3 [], imeiPatterns.getD 4 [],
      imeiPatterns.getD 5 []] s =
    extractIMEILoop [imeiPatterns.getD 0 [], imeiPatterns.getD 1 [], imeiPatterns.getD 4 []] s
  rw [extractIMEILoop_cons s _ _ (g 0 (by omega)), extractIMEILoop_cons s _ _ (g 1 (by omega)),
    extractIMEILoop_cons s _ _ (g 2 (by omega)), extractIMEILoop_cons s _ _ (g 3 (by omega)),
    extractIMEILoop_cons s _ _ (g 4 (by omega)), extractIMEILoop_cons s _ _ (g 5 (by omega)),
    extractIMEILoop_cons s _ [_, _] (g 0 (by omega)),
    extractIMEILoop_cons s _ [_] (g 1 (by omega)),
    extractIMEILoop_cons s _ [] (g 4 (by omega))]
  cases h1 : jsMatch (imeiPatterns.getD 0 []) s with
  | some m1 => rfl
  | none =>
    cases h2 : jsMatch (imeiPatterns.getD 1 []) s with
    | some m2 => rfl
    | none =>
      simp only [hnone 2 (by simp) h2, hnone 3 (by simp) h2, hnone 5 (by simp) h2,
        extractIMEILoop]

/-! ## Writing a frame and reading it back -/

theorem split_ne_nil (sep : Char) (s : List Char) : split sep s ≠ [] := by
  cases s with
  | nil => simp [split]
  | cons c s =>
    simp only [split]
    split
    · simp
    · split <;> simp

theorem split_nosep (sep : Char) : ∀ (f : List Char), sep ∉ f → split sep f = [f] := by
  intro f
  induction f with
  | nil => intro _; rfl
  | cons c f ih =>
    intro h
    simp only [List.mem_cons, not_or] at h
    simp only [split, ih h.2]
    rw [if_neg (fun hc => h.1 hc.symm)]

theorem split_append (sep : Char) (s : List Char) :
    ∀ (f : List Char), sep ∉ f → split sep (f ++ sep :: s) = f :: split sep s := by
  intro f
  induction f with
  | nil =>
    intro _
    simp only [List.nil_append, split]
    cases h : split sep s with
    | nil => exact absurd h (split_ne_nil sep s)
    | cons g gs => simp
  | cons c f ih =>
    intro h
    simp only [List.mem_cons, not_or] at h
    have e : split sep (c :: (f ++ sep :: s)) =
        (match split sep (f ++ sep :: s) with
         | [] => [[]]
         | g :: gs => if c = sep then [] :: g :: gs else (c :: g) :: gs) := rfl
    rw [List.cons_append, e, ih h.2]
    simp only
    rw [if_neg (fun hc => h.1 hc.symm)]

theorem split_intercalate (sep : Char) :
    ∀ (fields : List (List Char)), fields ≠ [] → (∀ f ∈ fields, sep ∉ f) →
      split sep (List.intercalate [sep] fields) = fields := by
  intro fields
  induction fields with
  | nil => intro h; exact absurd rfl h
  | cons f rest ih =>
    intro _ hsep
    cases rest with
    | nil =>
      simp only [List.intercalate, List.intersperse, List.flatten, List.append_nil]
      exact split_nosep sep f (hsep f (List.mem_cons_self _ _))
    | cons g rest1 =>
      have hrec := ih (by simp) (fun x hx => hsep x (List.mem_cons_of_mem _ hx))
      have hunf : List.intercalate [sep] (f :: g :: rest1) =
          f ++ sep :: List.intercalate [sep] (g :: rest1) := by
        simp [List.intercalate, List.intersperse, List.flatten]
      rw [hunf, split_append sep _ f (hsep f (List.mem_cons_self _ _)), hrec]

theorem JSNum.orZero_fin (q : ℚ) : (JSNum.fin q).orZero = JSNum.fin q := by
  unfold JSNum.orZero JSNum.truthy
  by_cases h : q = 0
  · simp [h]
  · simp [h]

theorem teltonika_round_trip (P : Platform) (fields : List (List Char)) (lat lng speed : ℚ)
    (ign : Bool) (hlen : 10 ≤ fields.length) (hsep : ∀ f ∈ fields, ',' ∉ f)
    (hlat : parseFloat (nth fields 2) = JSNum.fin lat)
    (hlng : parseFloat (nth fields 3) = JSNum.fin lng)
    (hspeed : parseFloat (nth fields 5) = JSNum.fin speed)
    (hign : nth fields 8 = if ign then ['1'] else ['0']) :
    ∃ f, parsers.Teltonika P (List.intercalate [','] fields) = Except.ok f ∧
      f.lat = JSNum.fin lat ∧ f.lng = JSNum.fin lng ∧ f.speed = JSNum.fin speed ∧
      f.ignition = some ign := by
  have hne : fields ≠ [] := by
    intro h
    rw [h] at hlen
    simp at hlen
  unfold parsers.Teltonika
  simp only [split_intercalate ',' fields hne hsep, ge_iff_le, hlen, if_true]
  refine ⟨_, rfl, hlat, hlng, ?_, ?_⟩
  · simp only [hspeed, JSNum.orZero_fin]
  · simp only [hign]
    cases ign <;> simp

theorem concox_round_trip (P : Platform) (fields : List (List Char)) (lat lng speed : ℚ)
    (ign : Bool) (hlen : 15 ≤ fields.length) (hsep : ∀ f ∈ fields, ',' ∉ f)
    (hlat : parseFloat (nth fields 2) = JSNum.fin |lat|)
    (hlatDir : nth fields 3 = if lat < 0 then ['S'] else ['N'])
    (hlng : parseFloat (nth fields 4) = JSNum.fin |lng|)
    (hlngDir : nth fields 5 = if lng < 0 then ['W'] else ['E'])
    (hspeed : parseFloat (nth fields 6) = JSNum.fin speed)
    (hign : nth fields 11 = if ign then ['1'] else ['0']) :
    ∃ f, parsers.Concox P (List.intercalate [','] fields) = Except.ok f ∧
      f.lat = JSNum.fin lat ∧ f.lng = JSNum.fin lng ∧ f.speed = JSNum.fin speed ∧
      f.ignition = some ign := by
  have hne : fields ≠ [] := by
    intro h
    rw [h] at hlen
    simp at hlen
  unfold parsers.Concox
  simp only [split_intercalate ',' fields hne hsep, ge_iff_le, hlen, if_true]
  refine ⟨_, rfl, ?_, ?_, ?_, ?_⟩
  · simp only [hlat, hlatDir]
    by_cases h : lat < 0
    · simp [h, JSNum.neg, abs_of_neg h]
    · simp [h, abs_of_nonneg (not_lt.mp h)]
  · simp only [hlng, hlngDir]
    by_cases h : lng < 0
    · simp [h, JSNum.neg, abs_of_neg h]
    · simp [h, abs_of_nonneg (not_lt.mp h)]
  · simp only [hspeed, JSNum.orZero_fin]
  · simp only [hign]
    cases ign <;> simp

theorem custom_round_trip (P : Platform) (now : Int) (data : List Char) (lat lng speed : ℚ)
    (ign : Bool)
    (hparse : P.jsonParse data = some (JsonRoot.value
      [("lat".toList, JSVal.num (JSNum.fin lat)), ("lng".toList, JSVal.num (JSNum.fin lng)),
       ("speed".toList, JSVal.num (JSNum.fin speed)), ("ignition".toList, JSVal.bool ign)]))
    (hlng : lng ≠ 0) :
    ∃ f, parsers.Custom P now data = Except.ok f ∧
      f.lat = JSNum.fin lat ∧ f.lng = JSNum.fin lng ∧ f.speed = JSNum.fin speed ∧
      f.ignition = some ign := by
  unfold parsers.Custom
  rw [hparse]
  refine ⟨_, rfl, ?_, ?_, ?_, ?_⟩
  · simp [prop, List.find?, JSVal.or, JSVal.truthy, JSNum.truthy, JSVal.parseFloat]
  · simp [prop, List.find?, JSVal.or, JSVal.truthy, JSNum.truthy, JSVal.parseFloat, hlng]
  · simp [prop, List.find?, JSVal.parseFloat, JSNum.orZero_fin]
  · simp [prop, List.find?, JSVal.truthy]

theorem queclink_fix (P : Platform) (data : List Char) (f : Fix)
    (h : parsers.Queclink P data = Except.ok f) :
    f.ignition = none ∧
    ∃ m, jsMatch parsers.queclinkPattern data = some m ∧
      f.speed = ((parseFloat (group m 6)).mul (JSNum.fin (1852 / 1000))).orZero := by
  unfold parsers.Queclink at h
  split at h
  · rename_i m hm
    cases h
    exact ⟨rfl, m, hm, rfl⟩
  · cases h

/-- C26, where the claim fails. The Queclink layout has no ignition field:
the fix of a Queclink frame has no ignition, whatever the value to be
written was; the frame below, for 1 degree 30 minutes north and 10 knots,
decodes to latitude 1.3 and speed 18.52. And the Custom frame
`{"lat":51.4779,"lng":0,"speed":45,"ignition":true}` decodes to a longitude
that is not a number. -/
theorem round_trip_fails :
    (∃ f, parsers.Queclink samplePlatform frameQueclink = Except.ok f ∧ f.ignition = none ∧
      f.lat = JSNum.fin (13 / 10) ∧ f.speed = JSNum.fin (463 / 25)) ∧
    (∃ g, parsers.Custom jsonPlatform 0 frameCustomMeridian = Except.ok g ∧
      g.lat = JSNum.fin (514779 / 10000) ∧ g.lng = JSNum.nan) := by
  refine ⟨⟨_, except_ok_of_decide _
    { lat := JSNum.fin (13 / 10), lng := JSNum.fin (363 / 10), speed := JSNum.fin (463 / 25),
      heading := JSNum.fin 90, altitude := none, ignition := none, fuelLevel := none,
      batteryLevel := none, odometer := none, timestamp := some (JSDate.at 1696149015000) }
    (by decide!), rfl, rfl, rfl⟩, ?_⟩
  exact ⟨_, except_ok_of_decide _
    { lat := JSNum.fin (514779 / 10000), lng := JSNum.nan, speed := JSNum.fin 45,
      heading := JSNum.fin 0, altitude := some (JSNum.fin 0), ignition := some true,
      fuelLevel := none, batteryLevel := none, odometer := none,
      timestamp := some (JSDate.at 0) }
    (by decide!), rfl, rfl⟩

/-- C26, amended. A text that `parseFloat` reads as a value stands for the
value written. For all latitude, longitude, speed and ignition values: a
Teltonika frame of at least 10 fields with latitude, longitude, speed and
the ignition flag (`1` or `0`) in fields 2, 3, 5 and 8, and a Concox frame of
at least 15 fields with the absolute latitude and longitude in fields 2 and
4, the hemisphere letters in fields 3 and 5, speed in field 6 and the flag
in field 11, each decode to a fix with exactly that latitude, longitude,
speed and ignition; so does a Custom frame that `JSON.parse` reads as
`{lat, lng, speed, ignition}` when the longitude is not 0. The fix of a
Queclink frame has no ignition, and its speed is the speed field of the
frame times 1.852. -/
theorem decoders_round_trip (P : Platform) (now : Int) :
    (∀ (lat lng speed : ℚ) (ign : Bool) (ft : List (List Char)),
      10 ≤ ft.length → (∀ f ∈ ft, ',' ∉ f) →
      parseFloat (nth ft 2) = JSNum.fin lat → parseFloat (nth ft 3) = JSNum.fin lng →
      parseFloat (nth ft 5) = JSNum.fin speed → (nth ft 8 = if ign then ['1'] else ['0']) →
      ∃ f, parsers.Teltonika P (List.intercalate [','] ft) = Except.ok f ∧
        f.lat = JSNum.fin lat ∧ f.lng = JSNum.fin lng ∧ f.speed = JSNum.fin speed ∧
        f.ignition = some ign) ∧
    (∀ (lat lng speed : ℚ) (ign : Bool) (fc : List (List Char)),
      15 ≤ fc.length → (∀ f ∈ fc, ',' ∉ f) →
      parseFloat (nth fc 2) = JSNum.fin |lat| →
      (nth fc 3 = if lat < 0 then ['S'] else ['N']) →
      parseFloat (nth fc 4) = JSNum.fin |lng| →
      (nth fc 5 = if lng < 0 then ['W'] else ['E']) →
      parseFloat (nth fc 6) = JSNum.fin speed → (nth fc 11 = if ign then ['1'] else ['0']) →
      ∃ f, parsers.Concox P (List.intercalate [','] fc) = Except.ok f ∧
        f.lat = JSNum.fin lat ∧ f.lng = JSNum.fin lng ∧ f.speed = JSNum.fin speed ∧
        f.ignition = some ign) ∧
    (∀ (lat lng speed : ℚ) (ign : Bool) (dj : List Char),
      P.jsonParse dj = some (JsonRoot.value
        [("lat".toList, JSVal.num (JSNum.fin lat)), ("lng".toList, JSVal.num (JSNum.fin lng)),
         ("speed".toList, JSVal.num (JSNum.fin speed)), ("ignition".toList, JSVal.bool ign)]) →
      lng ≠ 0 →
      ∃ f, parsers.Custom P now dj = Except.ok f ∧
        f.lat = JSNum.fin lat ∧ f.lng = JSNum.fin lng ∧ f.speed = JSNum.fin speed ∧
        f.ignition = some ign) ∧
    (∀ (dq : List Char) (fq : Fix), parsers.Queclink P dq = Except.ok fq →
      fq.ignition = none ∧
      ∃ m, jsMatch parsers.queclinkPattern dq = some m ∧
        fq.speed = ((parseFloat (group m 6)).mul (JSNum.fin (1852 / 1000))).orZero) :=
  ⟨fun lat lng speed ign ft h1 h2 h3 h4 h5 h6 =>
      teltonika_round_trip P ft lat lng speed ign h1 h2 h3 h4 h5 h6,
    fun lat lng speed ign fc h1 h2 h3 h4 h5 h6 h7 h8 =>
      concox_round_trip P fc lat lng speed ign h1 h2 h3 h4 h5 h6 h7 h8,
    fun lat lng speed ign dj h1 h2 => custom_round_trip P now dj lat lng speed ign h1 h2,
    fun dq fq h => queclink_fix P dq fq h⟩

/-- C26 amended, on concrete frames. Latitude -1.2345, longitude 36.5678,
speed 45 and ignition on, written as `frameTeltonika`, as `frameConcox15`
and as the Custom frame `{"lat":-1.2345,"lng":36.5678,"speed":45,"ignition":true}`,
decode to these values; latitude 51.4779 on the prime meridian, longitude 0,
written as a Teltonika and as a Concox frame, decodes to these values too;
and the fix of `frameQueclink` has no ignition. -/
theorem decoders_round_trip_witness :
    List.intercalate [','] fieldsTeltonika = frameTeltonika ∧
    List.intercalate [','] fieldsConcox = frameConcox15 ∧
    (∃ f, parsers.Teltonika jsonPlatform frameTeltonika = Except.ok f ∧
      f.lat = JSNum.fin (-(2469 / 2000)) ∧ f.lng = JSNum.fin (182839 / 5000) ∧
      f.speed = JSNum.fin 45 ∧ f.ignition = some true) ∧
    (∃ f, parsers.Concox jsonPlatform frameConcox15 = Except.ok f ∧
      f.lat = JSNum.fin (-(2469 / 2000)) ∧ f.lng = JSNum.fin (182839 / 5000) ∧
      f.speed = JSNum.fin 45 ∧ f.ignition = some true) ∧
    (∃ f, parsers.Custom jsonPlatform 0 frameCustomNoFuel = Except.ok f ∧
      f.lat = JSNum.fin (-(2469 / 2000)) ∧ f.lng = JSNum.fin (182839 / 5000) ∧
      f.speed = JSNum.fin 45 ∧ f.ignition = some true) ∧
    (∃ f, parsers.Teltonika jsonPlatform (List.intercalate [','] fieldsTeltonikaMeridian) =
        Except.ok f ∧
      f.lat = JSNum.fin (514779 / 10000) ∧ f.lng = JSNum.fin 0 ∧
      f.speed = JSNum.fin 45 ∧ f.ignition = some true) ∧
    (∃ f, parsers.Concox jsonPlatform (List.intercalate [','] fieldsConcoxMeridian) =
        Except.ok f ∧
      f.lat = JSNum.fin (514779 / 10000) ∧ f.lng = JSNum.fin 0 ∧
      f.speed = JSNum.fin 45 ∧ f.ignition = some true) ∧
    (∃ fq, parsers.Queclink jsonPlatform frameQueclink = Except.ok fq ∧ fq.ignition = none) := by
  have ht : List.intercalate [','] fieldsTeltonika = frameTeltonika := by decide
  have hc : List.intercalate [','] fieldsConcox = frameConcox15 := by decide
  have h := decoders_round_trip jsonPlatform 0
  have h1 := h.1 (-(2469 / 2000)) (182839 / 5000) 45 true fieldsTeltonika
    (by decide) (by decide) (by decide!) (by decide!) (by decide!) (by decide)
  have h2 := h.2.1 (-(2469 / 2000)) (182839 / 5000) 45 true fieldsConcox
    (by decide) (by decide)
    (by rw [abs_of_neg (by norm_num)]; decide!)
    (by rw [if_pos (by norm_num)]; decide)
    (by rw [abs_of_pos (by norm_num)]; decide!)
    (by rw [if_neg (by norm_num)]; decide)
    (by decide!) (by decide)
  have h3 := h.2.2.1 (-(2469 / 2000)) (182839 / 5000) 45 true frameCustomNoFuel (by rfl)
    (by norm_num)
  have h4 := h.1 (514779 / 10000) 0 45 true fieldsTeltonikaMeridian
    (by decide) (by decide) (by decide!) (by decide!) (by decide!) (by decide)
  have h5 := h.2.1 (514779 / 10000) 0 45 true fieldsConcoxMeridian
    (by decide) (by decide)
    (by rw [abs_of_pos (by norm_num)]; decide!)
    (by rw [if_neg (by norm_num)]; decide)
    (by rw [abs_zero]; decide!)
    (by rw [if_neg (by norm_num)]; decide)
    (by decide!) (by decide)
  rw [ht] at h1
  rw [hc] at h2
  have hq : parsers.Queclink jsonPlatform frameQueclink = Except.ok
      { lat := JSNum.fin (13 / 10), lng := JSNum.fin (363 / 10), speed := JSNum.fin (463 / 25),
        heading := JSNum.fin 90, altitude := none, ignition := none, fuelLevel := none,
        batteryLevel := none, odometer := none, timestamp := some (JSDate.at 1696149015000) } :=
    except_ok_of_decide _ _ (by decide!)
  exact ⟨ht, hc, h1, h2, h3, h4, h5, _, hq, (h.2.2.2 frameQueclink _ hq).1⟩

end Fleet
